import Mathlib

/-!
Verification development for the `ai_travel_agent` workflow engine.

The Python sources under `src/ai_travel_agent/` are shallowly embedded:
pure functions become Lean functions, node functions over the mutable state
dict become functions over explicit state structures, and external
collaborators (LLM, memory store, tool registry — out of scope per the
design document) are passed as function parameters.  Strings are modelled
as `List Char` (`Str`) so that the Python string/regex operations used by
the nodes can be given precise executable semantics.
-/

namespace ATA

/-- Python strings, modelled as lists of characters. -/
abbrev Str := List Char

/-- Lift a Lean string literal to `Str`. -/
def lit (s : String) : Str := s.data

/-- Python `\s` / `str.strip` whitespace for ASCII text:
space, tab, newline, carriage return, vertical tab, form feed. -/
def isPySpace (c : Char) : Bool :=
  c = ' ' || c = '\t' || c = '\n' || c = '\r' ||
  c = Char.ofNat 11 || c = Char.ofNat 12

/-- ASCII lower-casing (the repository's keys and tokens are ASCII;
Python `str.lower()` agrees with this on ASCII). -/
def lowChar (c : Char) : Char :=
  if 'A' ≤ c && c ≤ 'Z' then Char.ofNat (c.toNat + 32) else c

/-- Python `str.lower()` on ASCII text. -/
def lowS (s : Str) : Str := s.map lowChar

/-- `p` occurs at the head of `s`. -/
def startsW : Str → Str → Bool
  | [], _ => true
  | _ :: _, [] => false
  | p :: ps, c :: cs => p == c && startsW ps cs

/-- Python `needle in haystack` (substring containment). -/
def containsS (needle : Str) : Str → Bool
  | [] => needle.isEmpty
  | c :: cs => startsW needle (c :: cs) || containsS needle cs

/-- Number of positions of `s` at which `needle` occurs (for the
disclaimer, which cannot overlap itself, this is the occurrence count). -/
def countS (needle : Str) : Str → Nat
  | [] => 0
  | c :: cs => (if startsW needle (c :: cs) then 1 else 0) + countS needle cs

/-- Python `str.lstrip()`. -/
def stripL (s : Str) : Str := s.dropWhile isPySpace

/-- Python `str.rstrip()`. -/
def stripR (s : Str) : Str := (s.reverse.dropWhile isPySpace).reverse

/-- Python `str.strip()`. -/
def stripB (s : Str) : Str := stripL (stripR s)

/-- Python `str.splitlines()` for text whose only line break is `\n`. -/
def splitLinesPy (s : Str) : List Str :=
  if s = [] then []
  else
    let parts := List.splitOn '\n' s
    if s.getLast? = some '\n' then parts.dropLast else parts

/-- `"\n".join(lines)`. -/
def joinNL (lines : List Str) : Str := (lines.intersperse (lit "\n")).flatten

/-- Python `or` on strings (empty string is falsy). -/
def orS (a b : Str) : Str := if a = [] then b else a

/-- Python `x or ""` for an optional string field. -/
def optS (a : Option Str) : Str := a.getD []

/-- Python truthiness of an optional string (`None` and `""` are falsy). -/
def truthyOS (a : Option Str) : Bool :=
  match a with
  | none => false
  | some s => !s.isEmpty

/-- Decimal rendering of a natural number, as `Str`. -/
def natStr (n : Nat) : Str := (toString n).data

/-- Decimal rendering of an integer, as `Str`. -/
def intStr (n : Int) : Str := (toString n).data

/-! ## Orchestrator (`agents/nodes/orchestrator.py`)

State fields touched by the orchestrator.  `current_step = {}` in Python is
modelled as `none`; the `signals` sub-dict is represented by the single
`timeout_risk` flag the orchestrator writes. -/

structure OStep where
  id : String
  title : String
  status : String
  deriving Repr, DecidableEq

structure OState where
  loop_iterations : Nat
  timeout_risk : Bool
  plan : List OStep
  current_step : Option OStep
  current_step_index : Nat
  termination_reason : Option String
  deriving Repr, DecidableEq

/-- `orchestrator(state, max_iters=20)` (orchestrator.py lines 11-64).
`int(0.8 * max_iters)` is embedded as `(4 * maxIters) / 5`, which agrees
with the float computation for all realistic iteration caps. -/
def orchestrator (maxIters : Nat) (s : OState) : OState :=
  let li := s.loop_iterations + 1
  let tr := if li > (4 * maxIters) / 5 then true else s.timeout_risk
  if li > maxIters then
    { s with loop_iterations := li, timeout_risk := tr,
             current_step := none, current_step_index := s.plan.length,
             termination_reason := some "max_iters" }
  else
    match s.plan.findIdx? (fun st => st.status == "pending") with
    | none =>
      { s with loop_iterations := li, timeout_risk := tr,
               current_step := none, current_step_index := s.plan.length,
               termination_reason := some "finalized" }
    | some i =>
      { s with loop_iterations := li, timeout_risk := tr,
               current_step := s.plan[i]?, current_step_index := i }

/-! ## Issue triage (`agents/nodes/issue_triage.py`)

`pending_issue` is `none` when the Python value is not a dict (the early
return).  A pending dict that fails `Issue.model_validate` — in particular
the `{}` written by a previous triage pass — behaves exactly like a
validated issue whose `step_id` is `None`, so both are represented by
`TIssue` with `step_id : Option String`. -/

structure TIssue where
  step_id : Option String
  kind : String
  message : String
  deriving Repr, DecidableEq

structure TStep where
  id : String
  status : String
  notes : String
  deriving Repr, DecidableEq

structure TState where
  current_step : Option (String × String)
  plan : List TStep
  pending_issue : Option TIssue
  needs_triage : Bool
  validation_warnings : List String
  deriving Repr, DecidableEq

/-- `_find_step_index` (issue_triage.py lines 9-15); `if not step_id`
covers both `None` and the empty string. -/
def find_step_index (plan : List TStep) (step_id : Option String) : Option Nat :=
  match step_id with
  | none => none
  | some sid => if sid = "" then none else plan.findIdx? (fun st => st.id == sid)

/-- The `{}` that triage writes back into `pending_issue`; on a later pass
it validates to the fallback issue with no `step_id`. -/
def emptyPendingIssue : TIssue :=
  { step_id := none, kind := "tool_error", message := "" }

/-- `issue_triage(state)` (issue_triage.py lines 18-51).  The LLM client is
a parameter of the Python function but is never consulted. -/
def issue_triage (s : TState) : TState :=
  let marker : Option (String × String) :=
    some ("EVALUATE_STEP", "Issue triage: decide skip/ask/retry")
  let s := { s with current_step := marker }
  match s.pending_issue with
  | none => { s with needs_triage := false }
  | some issue =>
    let plan' :=
      match find_step_index s.plan issue.step_id with
      | some i =>
        match s.plan[i]? with
        | some old =>
          s.plan.set i { old with status := "done",
                                  notes := old.notes ++ "\nSkipped due to tool failure." }
        | none => s.plan
      | none => s.plan
    { s with plan := plan',
             needs_triage := false,
             pending_issue := some emptyPendingIssue,
             validation_warnings := s.validation_warnings ++
               ["Skipped step due to issue (" ++ issue.kind ++ "): " ++ issue.message] }

/-! ## Final evaluation (`evaluation.py`)

`evaluate_final` (lines 163-203) combines five hard-gate booleans and five
rubric scores.  The gate predicates and rubric scores are taken as inputs:
the claim under verification quantifies over their values, and two of the
gates call external collaborators (`icalendar`, `urllib`) that are outside
the embedded core.  Scores are exact rationals. -/

structure EvalGates where
  constraint_completeness : Bool
  no_fabricated_real_time_facts : Bool
  link_validity_format : Bool
  calendar_export_correctness : Bool
  safety_clarity_disclaimer : Bool
  deriving Repr, DecidableEq

structure Rubric where
  relevance : ℚ
  feasibility : ℚ
  completeness : ℚ
  specificity : ℚ
  coherence : ℚ
  deriving Repr, DecidableEq

structure EvaluationResult where
  hard_gates : EvalGates
  rubric_scores : Rubric
  overall_status : String
  notes : List String
  deriving Repr, DecidableEq

/-- `sum(rubric_scores.values())`. -/
def rubricSum (r : Rubric) : ℚ :=
  r.relevance + r.feasibility + r.completeness + r.specificity + r.coherence

/-- `all(hard_gates.values())`. -/
def allGates (g : EvalGates) : Bool :=
  g.constraint_completeness && g.no_fabricated_real_time_facts &&
  g.link_validity_format && g.calendar_export_correctness &&
  g.safety_clarity_disclaimer

/-- Fixed-point rendering with two decimals and round-half-even, embedding
Python's `f"{x:.2f}"` on the exact rational value. -/
def fmtQ2 (q : ℚ) : Str :=
  let scaled : ℚ := q * 100
  let fl : Int := ⌊scaled⌋
  let frac : ℚ := scaled - fl
  let n : Int :=
    if frac < 1/2 then fl
    else if frac > 1/2 then fl + 1
    else if fl % 2 = 0 then fl else fl + 1
  let sign : Str := if n < 0 then lit "-" else []
  let a := n.natAbs
  sign ++ natStr (a / 100) ++ lit "." ++
    (if a % 100 < 10 then lit "0" else []) ++ natStr (a % 100)

/-- `evaluate_final` (evaluation.py lines 163-203). -/
def evaluate_final (gates : EvalGates) (rubric : Rubric) (eval_threshold : ℚ) :
    EvaluationResult :=
  let avg : ℚ := rubricSum rubric / (max 1 5 : ℚ)
  let all_gates := allGates gates
  let status : String :=
    if all_gates && decide (avg ≥ eval_threshold) then "good"
    else if all_gates then "needs_work"
    else "failed"
  let notes : List String :=
    (if all_gates then [] else ["One or more hard gates failed."]) ++
    [String.mk (lit "Average rubric score: " ++ fmtQ2 avg ++
      lit " (threshold " ++ fmtQ2 eval_threshold ++ lit ").")]
  { hard_gates := gates, rubric_scores := rubric,
    overall_status := status, notes := notes }

/-! ## Intent parser tail (`agents/nodes/intent_parser.py`)

The claim under verification is about the state written *after* heuristic
fill and override application, so the constraints produced by those passes
are the input here.  `budget_usd` is a float in Python; the verified claim
does not depend on it and it is modelled as an integer. -/

structure TripConstraints where
  origin : Option String
  destinations : List String
  start_date : Option String
  end_date : Option String
  budget_usd : Option Int
  travelers : Option Int
  interests : List String
  pace : Option String
  notes : List String
  deriving Repr, DecidableEq

/-- Python truthiness of `str | None` fields (`None` and `""` are falsy). -/
def truthyStrOpt (a : Option String) : Bool :=
  match a with
  | none => false
  | some s => !(s == "")

/-- `_clarifying_questions` (intent_parser.py lines 173-183). -/
def clarifying_questions (c : TripConstraints) : List String :=
  (if c.destinations.isEmpty then
    ["Where do you want to travel (destination city/country)?"] else []) ++
  (if truthyStrOpt c.start_date then [] else
    ["What is your start date? (YYYY-MM-DD)"]) ++
  (if truthyStrOpt c.end_date then [] else
    ["What is your end date? (YYYY-MM-DD)"]) ++
  (if truthyStrOpt c.origin then [] else
    ["What city/airport are you departing from?"])

structure IState where
  constraints : Option TripConstraints
  needs_user_input : Bool
  clarifying_questions : List String
  termination_reason : Option String
  deriving Repr, DecidableEq

/-- The final block of `intent_parser` (intent_parser.py lines 275-285),
run on the constraints left after heuristic fill and overrides. -/
def intent_parse_finalize (c : TripConstraints) (s : IState) : IState :=
  let s := { s with constraints := some c }
  let qs := clarifying_questions c
  if qs.isEmpty then
    { s with needs_user_input := false, clarifying_questions := [] }
  else
    { s with needs_user_input := true,
             clarifying_questions := qs.take 4,
             termination_reason := some "asked_user" }

/-! ## Telemetry controller (`observability/telemetry.py`)

Event `data` payloads are JSON-like values. -/

inductive JVal where
  | str (s : String)
  | num (n : Int)
  | boolean (b : Bool)
  | null
  | arr (xs : List JVal)
  | obj (kvs : List (String × JVal))
  deriving Repr

mutual

def jvalBEq : JVal → JVal → Bool
  | .str a, .str b => a == b
  | .num a, .num b => a == b
  | .boolean a, .boolean b => a == b
  | .null, .null => true
  | .arr a, .arr b => jvalArrBEq a b
  | .obj a, .obj b => jvalObjBEq a b
  | _, _ => false

def jvalArrBEq : List JVal → List JVal → Bool
  | [], [] => true
  | a :: as_, b :: bs => jvalBEq a b && jvalArrBEq as_ bs
  | _, _ => false

def jvalObjBEq : List (String × JVal) → List (String × JVal) → Bool
  | [], [] => true
  | (k, a) :: as_, (k', b) :: bs => k == k' && jvalBEq a b && jvalObjBEq as_ bs
  | _, _ => false

end

instance : BEq JVal := ⟨jvalBEq⟩

/-- The sensitive-key tokens of `_sanitize` (telemetry.py line 50). -/
def sensitiveTokens : List Str :=
  [lit "api_key", lit "apikey", lit "authorization", lit "token",
   lit "secret", lit "password"]

/-- `any(tok in key for tok in [...])` on `str(k).lower()`. -/
def sensitiveKey (k : String) : Bool :=
  sensitiveTokens.any (fun t => containsS t (lowS k.data))

mutual

/-- `_sanitize` (telemetry.py lines 45-57). -/
def sanitize : JVal → JVal
  | .str s => .str s
  | .num n => .num n
  | .boolean b => .boolean b
  | .null => .null
  | .arr xs => .arr (sanitizeArr xs)
  | .obj kvs => .obj (sanitizeObj kvs)

def sanitizeArr : List JVal → List JVal
  | [] => []
  | v :: vs => sanitize v :: sanitizeArr vs

def sanitizeObj : List (String × JVal) → List (String × JVal)
  | [] => []
  | (k, v) :: kvs =>
    (k, if sensitiveKey k then JVal.str "[REDACTED]" else sanitize v) :: sanitizeObj kvs

end

mutual

/-- `_truncate` (telemetry.py lines 31-42); `max_chars` is an int and a
non-positive value disables truncation. -/
def truncatePy (maxChars : Int) : JVal → JVal
  | .str s =>
    if maxChars ≤ 0 then .str s
    else if (s.length : Int) ≤ maxChars then .str s
    else .str (String.mk (s.data.take (maxChars - 1).toNat ++ lit "…"))
  | .arr xs => if maxChars ≤ 0 then .arr xs else .arr (truncateArr maxChars xs)
  | .obj kvs => if maxChars ≤ 0 then .obj kvs else .obj (truncateObj maxChars kvs)
  | v => v

def truncateArr (maxChars : Int) : List JVal → List JVal
  | [] => []
  | v :: vs => truncatePy maxChars v :: truncateArr maxChars vs

def truncateObj (maxChars : Int) : List (String × JVal) → List (String × JVal)
  | [] => []
  | (k, v) :: kvs => (k, truncatePy maxChars v) :: truncateObj maxChars kvs

end

mutual

/-- Every key at any nesting depth whose lowered form contains a sensitive
token has the value `"[REDACTED]"`. -/
def redactedOK : JVal → Bool
  | .arr xs => redactedOKArr xs
  | .obj kvs => redactedOKObj kvs
  | _ => true

def redactedOKArr : List JVal → Bool
  | [] => true
  | v :: vs => redactedOK v && redactedOKArr vs

def redactedOKObj : List (String × JVal) → Bool
  | [] => true
  | (k, v) :: kvs =>
    (if sensitiveKey k then v == JVal.str "[REDACTED]" else redactedOK v) &&
    redactedOKObj kvs

end

/-- The minimal-mode business-event allow list (telemetry.py lines 12-24). -/
def minimalEvents : List String :=
  ["intent_parse", "validated_constraints", "plan", "plan_fallback",
   "tool_result", "synth_result", "final_answer", "eval_final",
   "export_ics", "issue_triage", "run_error"]

/-- A trace payload (telemetry.py lines 102-119).  The timestamp and the
run/user/context fields do not influence the controller's buffering
decisions and are omitted; `tag` is a ghost sequence number identifying
the `trace` call that produced the payload. -/
structure Payload where
  tag : Nat
  level : String
  event : String
  data : Option JVal
  deriving Repr

/-- Default of the `buffer_size` dataclass field (telemetry.py line 67). -/
def defaultBufferSize : Nat := 50

/-- Controller state.  `written` is the sequence of payloads appended to
`trace.jsonl` by `_write`; `discarded` is a ghost list recording payloads
dropped from the buffer on overflow. -/
structure TC where
  mode : String
  maxChars : Int
  bufferSize : Nat
  buffer : List Payload
  escalated : Bool
  written : List Payload
  discarded : List Payload
  nextTag : Nat
  deriving Repr

/-- `TelemetryController.maybe_escalate` (telemetry.py lines 80-87);
`anySignal` is `signals and any(bool(v) for v in signals.values())`. -/
def maybeEscalate (anySignal : Bool) (t : TC) : TC :=
  if t.mode ≠ "selective" || t.escalated then t
  else if anySignal then
    { t with escalated := true, written := t.written ++ t.buffer, buffer := [] }
  else t

/-- Python `self._buffer[-self.buffer_size:]`: for a positive size, the
last `size` elements; `[-0:]` is the whole list. -/
def lastSlice (size : Nat) (l : List Payload) : List Payload :=
  if size = 0 then l else l.drop (l.length - size)

/-- `TelemetryController.trace` (telemetry.py lines 94-131). -/
def trace (event : String) (data : Option JVal) (t : TC) : TC :=
  let level := if containsS (lit "error") event.data then "ERROR" else "INFO"
  let payload : Payload :=
    { tag := t.nextTag, level := level, event := event,
      data := data.map (fun d => truncatePy t.maxChars (sanitize d)) }
  let t := { t with nextTag := t.nextTag + 1 }
  if t.mode = "minimal" then
    if !(minimalEvents.contains event) && !(lit "_error").isSuffixOf event.data then t
    else { t with written := t.written ++ [payload] }
  else if t.mode = "detailed" || t.escalated then
    { t with written := t.written ++ [payload] }
  else if t.mode = "selective" then
    let buf := t.buffer ++ [payload]
    if buf.length > t.bufferSize then
      let kept := lastSlice t.bufferSize buf
      { t with buffer := kept,
               discarded := t.discarded ++ buf.take (buf.length - t.bufferSize) }
    else { t with buffer := buf }
  else t

/-- Controller operations: a `trace` call or a `maybe_escalate` call. -/
inductive TCOp where
  | traceOp (event : String) (data : Option JVal)
  | escalateOp (anySignal : Bool)
  deriving Repr

def tcStep (t : TC) : TCOp → TC
  | .traceOp e d => trace e d t
  | .escalateOp sig => maybeEscalate sig t

def tcRun (t : TC) : List TCOp → TC
  | [] => t
  | op :: ops => tcRun (tcStep t op) ops

/-- A fresh controller in the given mode (telemetry.py lines 60-70). -/
def tcInit (mode : String) (maxChars : Int) (bufferSize : Nat) : TC :=
  { mode := mode, maxChars := maxChars, bufferSize := bufferSize,
    buffer := [], escalated := false, written := [], discarded := [],
    nextTag := 0 }

/-- The sensitive-key pattern of the specification,
`(api[_-]?key|authorization|token|secret|password)` searched
case-insensitively: stated from the spec's words for comparison with the
code's `sensitiveKey`. -/
def specSensitiveKey (k : String) : Bool :=
  let l := lowS k.data
  containsS (lit "apikey") l || containsS (lit "api_key") l ||
  containsS (lit "api-key") l || containsS (lit "authorization") l ||
  containsS (lit "token") l || containsS (lit "secret") l ||
  containsS (lit "password") l

/-! ## Executor (`agents/nodes/executor.py`)

External collaborators appear as parameters: `tools` models
`ToolRegistry.call` (attempt-indexed, so that an effectful tool may fail on
some invocations and succeed on others; an exception is `Except.error` with
the exception text), `memory` models the optional `MemoryStore`, and `llm`
models `LLMClient.invoke_text` applied to the synthesis prompt built from
the state (executor.py lines 214-220).  Tool keyword arguments are an
abstract type `α`; `getQuery` embeds `tool_args.get("query")`.  Wall-clock
latencies (`observe_ms`) are not modelled; the counter increments are. -/

structure ELink where
  label : String
  url : String
  deriving Repr, DecidableEq

/-- A tool's return dict: `summary` and `links` as read by the executor
(`out.get("summary", "")`; `out.get("links")` when it is a list). -/
structure ToolOut where
  summary : Option String
  links : Option (List ELink)
  deriving Repr, DecidableEq

structure EHit where
  id : String
  text : String
  metadata : List (String × String)
  distance : ℚ
  deriving Repr, DecidableEq

structure EIssue (α : Type) where
  kind : String
  severity : String
  node : String
  step_id : Option String
  tool_name : Option String
  message : String
  suggested_actions : List String
  details_tool_args : Option α
  details_attempts : Nat
  deriving Repr, DecidableEq

structure EToolResult (α : Type) where
  step_id : String
  tool_name : String
  data : ToolOut
  summary : String
  links : List ELink
  deriving Repr, DecidableEq

structure EStep (α : Type) where
  id : String
  title : String
  step_type : String
  tool_name : Option String
  tool_args : Option α
  status : String
  notes : Option String
  deriving Repr, DecidableEq

structure MetricsC where
  tool_calls : Nat
  tool_errors : Nat
  tool_retries : Nat
  rag_retrievals : Nat
  memory_retrieval_hits : Nat
  deriving Repr, DecidableEq

structure EState (α : Type) where
  user_query : String
  current_step : Option (EStep α)
  plan : List (EStep α)
  current_step_index : Nat
  issues : List (EIssue α)
  pending_issue : Option (EIssue α)
  needs_triage : Bool
  tool_results : List (EToolResult α)
  context_hits : List EHit
  final_answer : String
  itinerary_day_titles : List String
  deriving Repr, DecidableEq

/-- Python truthiness of `tool_name` (`None` and `""` are falsy). -/
def truthyToolName (t : Option String) : Bool :=
  match t with
  | none => false
  | some s => !(s == "")

/-- `plan[idx]["status"] = st` (a no-op when `idx` is out of range; Python
would raise, but the orchestrator always passes a valid index). -/
def setPlanStatus {α : Type} (plan : List (EStep α)) (idx : Nat) (st : String) :
    List (EStep α) :=
  match plan[idx]? with
  | some old => plan.set idx { old with status := st }
  | none => plan

/-- A digit in the ASCII sense of Python's `re` `\d` on this text. -/
def isDig (c : Char) : Bool := '0' ≤ c && c ≤ '9'

/-- One line of `re.finditer(r"^#+\s*Day\s*(\d+)\s*[:\-]?\s*(.*)$", ...)`
with `IGNORECASE | MULTILINE` (executor.py line 225): returns the day
number digits and the rest-of-line group when the line matches. -/
def dayTitleLine (line : Str) : Option (Str × Str) :=
  let (hashes, r1) := line.span (fun c => c = '#')
  if hashes.length = 0 then none
  else
    let r2 := r1.dropWhile isPySpace
    if startsW (lit "day") (lowS r2) then
      let r3 := r2.drop 3
      let r4 := r3.dropWhile isPySpace
      let (digits, r5) := r4.span isDig
      if digits.isEmpty then none
      else
        let r6 := r5.dropWhile isPySpace
        let r7 := match r6 with
          | c :: rest => if c = ':' || c = '-' then rest else r6
          | [] => r6
        let r8 := r7.dropWhile isPySpace
        some (digits, r8)
    else none

/-- Day-title extraction of the SYNTHESIZE branch
(executor.py lines 224-228). -/
def extractDayTitles (answer : Str) : List Str :=
  (splitLinesPy answer).filterMap (fun l =>
    match dayTitleLine l with
    | some (digits, rest) =>
      let title := stripB rest
      some (if title.isEmpty then lit "Day " ++ digits else title)
    | none => none)

/-- The retry loop of the `TOOL_CALL` branch (executor.py lines 100-146).
Returns the final `attempts` counter, the successful output or the last
error, and the updated metrics.  `attempts` starts at 0; the loop runs
while `attempts <= max_tool_retries` and increments `attempts` first, so
a fuel of `max_tool_retries + 1` runs the loop to completion. -/
def toolLoopF (tool : Nat → Except String ToolOut) (maxRetries : Nat) :
    Nat → Nat → Option String → MetricsC → Nat × Option ToolOut × Option String × MetricsC
  | 0, attempts, lastErr, m => (attempts, none, lastErr, m)
  | fuel + 1, attempts, lastErr, m =>
    if attempts ≤ maxRetries then
      let a := attempts + 1
      let m1 := { m with tool_calls := m.tool_calls + 1 }
      match tool a with
      | .ok out => (a, some out, none, m1)
      | .error e =>
        let m2 := { m1 with tool_errors := m1.tool_errors + 1,
                            tool_retries := m1.tool_retries +
                              (if a ≤ maxRetries then 1 else 0) }
        toolLoopF tool maxRetries fuel a (some e) m2
    else (attempts, none, lastErr, m)

/-- `executor(state, ...)` (executor.py lines 37-231). -/
def executor {α : Type}
    (tools : String → Option α → Nat → Except String ToolOut)
    (llm : EState α → String)
    (memory : Option (String → List EHit))
    (getQuery : α → Option String)
    (maxToolRetries : Nat)
    (s : EState α) (m : MetricsC) : EState α × MetricsC :=
  match s.current_step with
  | none => (s, m)
  | some step =>
    let plan := s.plan
    let idx := s.current_step_index
    if step.step_type = "RETRIEVE_CONTEXT" then
      match memory with
      | none =>
        let issue : EIssue α :=
          { kind := "tool_error", severity := "major", node := "executor",
            step_id := some step.id, tool_name := none,
            message := "Memory store not available for RETRIEVE_CONTEXT step.",
            suggested_actions := [], details_tool_args := none,
            details_attempts := 0 }
        ({ s with issues := s.issues ++ [issue],
                  plan := setPlanStatus plan idx "blocked",
                  needs_triage := true,
                  pending_issue := some issue }, m)
      | some search =>
        let fallbackQ : String := if s.user_query == "" then "" else s.user_query
        let query : String :=
          match step.tool_args with
          | none => fallbackQ
          | some args =>
            match getQuery args with
            | some q => if q == "" then fallbackQ else q
            | none => fallbackQ
        let hits := search query
        let m1 := { m with rag_retrievals := m.rag_retrievals + 1,
                           memory_retrieval_hits := hits.length }
        ({ s with context_hits := hits,
                  plan := setPlanStatus plan idx "done" }, m1)
    else if step.step_type = "TOOL_CALL" && truthyToolName step.tool_name then
      let toolName := step.tool_name.getD ""
      let r := toolLoopF (tools toolName step.tool_args) maxToolRetries
        (maxToolRetries + 1) 0 none m
      let attempts := r.1
      let out := r.2.1
      let lastErr := r.2.2.1
      let m1 := r.2.2.2
      match out with
      | some o =>
        let tr : EToolResult α :=
          { step_id := step.id, tool_name := toolName, data := o,
            summary := o.summary.getD "",
            links := o.links.getD [] }
        ({ s with tool_results := s.tool_results ++ [tr],
                  plan := setPlanStatus plan idx "done" }, m1)
      | none =>
        let severity : String :=
          if toolName == "flights_search_links" || toolName == "hotels_search_links"
          then "major" else "minor"
        let issue : EIssue α :=
          { kind := "tool_error", severity := severity, node := "executor",
            step_id := some step.id, tool_name := some toolName,
            message := String.mk (lit "Tool '" ++ toolName.data ++
              lit "' failed after " ++ natStr attempts ++
              lit " attempt(s): " ++ (lastErr.getD "").data),
            suggested_actions := ["retry", "skip", "modify_inputs"],
            details_tool_args := step.tool_args,
            details_attempts := attempts }
        ({ s with issues := s.issues ++ [issue],
                  pending_issue := some issue,
                  needs_triage := true,
                  plan := setPlanStatus plan idx "blocked" }, m1)
    else
      let answer := llm s
      let dayTitles := extractDayTitles answer.data
      ({ s with final_answer := answer,
                itinerary_day_titles := (dayTitles.map String.mk).take 21,
                plan := setPlanStatus plan idx "done" }, m)

/-! ## Responder string machinery (`agents/nodes/responder.py`)

Each helper embeds one Python string/regex operation used by the
responder; the regex semantics (greedy runs, multiline anchors, scan
order of `re.sub`/`re.search`) are realised directly over `Str`. -/

/-- First index at which `needle` occurs in the haystack. -/
def findSub (needle : Str) : Str → Option Nat
  | [] => if needle.isEmpty then some 0 else none
  | c :: cs =>
    if startsW needle (c :: cs) then some 0 else (findSub needle cs).map (· + 1)

/-- The exact disclaimer line (responder.py line 153). -/
def disclaimerS : Str :=
  lit "Note: Visa/health requirements vary; verify with official sources (this is not legal advice)."

/-- `re.sub(re.escape(disclaimer) + r"\s*", "", answer)`
(responder.py line 154): every occurrence of the literal disclaimer plus
the greedy whitespace run after it is removed, scanning left to right.
Each step consumes at least one character, so a fuel of the input length
runs the scan to completion. -/
def removeDiscF : Nat → Str → Str
  | 0, s => s
  | _ + 1, [] => []
  | fuel + 1, c :: cs =>
    if startsW disclaimerS (c :: cs) then
      removeDiscF fuel ((cs.drop (disclaimerS.length - 1)).dropWhile isPySpace)
    else c :: removeDiscF fuel cs

def removeDisc (s : Str) : Str := removeDiscF s.length s

/-- `^\s*[-=]{3,}\s*$` applied to an already-stripped line: with no outer
whitespace left, the line must be three or more `-`/`=` characters. -/
def dashesOnly (s : Str) : Bool :=
  s.length ≥ 3 && s.all (fun c => c = '-' || c = '=')

/-- `re.match(r"^\s*\*\*(.+?)\*\*\s*$", line)` followed by
`m.group(1).strip()` (responder.py lines 108-110): after discarding outer
whitespace the line must open and close with `**` around a non-empty
middle; the stripped middle is the title. -/
def boldTitle (line : Str) : Option Str :=
  let core := stripB line
  if core.length ≥ 5 && startsW (lit "**") core && startsW (lit "**") core.reverse then
    some (stripB ((core.drop 2).take (core.length - 4)))
  else none

/-- The line loop of `_normalize_headings` (responder.py lines 101-126). -/
def normLines : List Str → List Str
  | [] => []
  | l :: rest =>
    let line := stripR l
    let bt := boldTitle line
    let isBold := bt.isSome && !(bt.getD []).isEmpty
    match rest with
    | [] => if isBold then [lit "## " ++ bt.getD []] else [line]
    | n :: rest' =>
      let nd := dashesOnly (stripB n)
      if isBold then
        if nd then (lit "## " ++ bt.getD []) :: normLines rest'
        else (lit "## " ++ bt.getD []) :: normLines (n :: rest')
      else if !(stripB line).isEmpty && nd then
        (lit "## " ++ stripB line) :: normLines rest'
      else line :: normLines (n :: rest')

/-- `_normalize_headings` (responder.py lines 96-126). -/
def normalize_headings (answer : Str) : Str :=
  stripB (joinNL (normLines (splitLinesPy answer)))

/-- Index (from the end) of the last newline of a whitespace run. -/
def lastNlIdx (w : Str) : Option Nat :=
  match w.reverse.findIdx? (fun c => c = '\n') with
  | some j => some (w.length - 1 - j)
  | none => none

/-- Match of `(?m)^##+\s+{title}\s*\n` at the head of `s` (the heading
part of `_section_block`, responder.py line 16): a run of at least two
`#`, at least one whitespace character, the literal title, then
whitespace up to and including the last newline of the run.  Returns the
number of characters consumed.  (The titles used by the responder never
begin with whitespace, so greedy runs need no backtracking.) -/
def matchHeadingAt (title : Str) (s : Str) : Option Nat :=
  let hp := s.span (fun c => c = '#')
  if hp.1.length < 2 then none
  else
    let wp := hp.2.span isPySpace
    if wp.1.isEmpty then none
    else if startsW title wp.2 then
      let r3 := wp.2.drop title.length
      let w2 := r3.takeWhile isPySpace
      match lastNlIdx w2 with
      | some k => some (hp.1.length + wp.1.length + title.length + k + 1)
      | none => none
    else none

/-- Scan for the first line start where the section heading matches;
returns `(headingStart, contentStart)` offsets. -/
def secScan (title : Str) : Str → Nat → Bool → Option (Nat × Nat)
  | s, pos, atStart =>
    if atStart then
      match matchHeadingAt title s with
      | some k => some (pos, pos + k)
      | none =>
        match s with
        | [] => none
        | c :: cs => secScan title cs (pos + 1) (c = '\n')
    else
      match s with
      | [] => none
      | c :: cs => secScan title cs (pos + 1) (c = '\n')

/-- The lookahead `(?=^##+\s+|\Z)`: a line starting with two or more `#`
followed by a whitespace character. -/
def boundaryHead (s : Str) : Bool :=
  let hp := s.span (fun c => c = '#')
  hp.1.length ≥ 2 && (match hp.2.head? with
    | some c => isPySpace c
    | none => false)

/-- Offset of the first boundary line start in `s` (or `s.length`). -/
def blockEndScan : Str → Nat → Bool → Nat
  | s, pos, atStart =>
    if atStart && boundaryHead s then pos
    else
      match s with
      | [] => pos
      | c :: cs => blockEndScan cs (pos + 1) (c = '\n')

/-- `_section_block` (responder.py lines 12-20), returning the text
before the block, the block itself, and the text after it. -/
def sectionSplit (title answer : Str) : Option (Str × Str × Str) :=
  match secScan title answer 0 true with
  | none => none
  | some (b, contentStart) =>
    let e := contentStart + blockEndScan (answer.drop contentStart) 0 true
    some (answer.take b, (answer.drop b).take (e - b), answer.drop e)

/-- `_get_section_body` (responder.py lines 23-32). -/
def get_section_body (answer title : Str) : Option Str :=
  match sectionSplit title answer with
  | none => none
  | some (_, block, _) =>
    match splitLinesPy block with
    | [] => some []
    | _ :: rest => some (stripB (joinNL rest))

/-- `_set_section` (responder.py lines 35-40). -/
def set_section (answer title body : Str) : Str :=
  let block := lit "## " ++ title ++ lit "\n" ++ stripB body ++ lit "\n"
  match sectionSplit title answer with
  | none => stripR answer ++ lit "\n\n" ++ block
  | some (pre, _, post) => pre ++ block ++ post

/-- `_has_url` (responder.py lines 43-44): `re.search(r"https?://", ...)`. -/
def hasUrl (s : Str) : Bool :=
  containsS (lit "http://") s || containsS (lit "https://") s

/-- `re.search(r"(Live offers unavailable[^.]*(?:\.[^.]*)?)", summary,
IGNORECASE)` and the `"unavailable"` fallback
(`_extract_unavailable_note`, responder.py lines 129-137). -/
def extractUnavailableNote (summary : Str) : Option Str :=
  if summary.isEmpty then none
  else
    match findSub (lit "live offers unavailable") (lowS summary) with
    | some i =>
      let fromI := summary.drop i
      let afterN := fromI.drop 23
      let seg1 := afterN.takeWhile (fun c => c ≠ '.')
      let r1 := afterN.dropWhile (fun c => c ≠ '.')
      let g :=
        match r1 with
        | '.' :: r2 => fromI.take 23 ++ seg1 ++ lit "." ++ r2.takeWhile (fun c => c ≠ '.')
        | _ => fromI.take 23 ++ seg1
      some (stripB g)
    | none =>
      if containsS (lit "unavailable") (lowS summary) then some (stripB summary)
      else none

/-! ### The currency pattern

`re.sub(r"(\$\s?\d+|USD\s?\d+|\d+\s?USD)", "[price omitted]", answer,
flags=re.IGNORECASE)` (responder.py line 410).  The three alternatives
start with `$`, `U`/`u` and a digit respectively, so the scan at each
position is deterministic; `\d+` runs are greedy and need no
backtracking (a shorter run leaves a digit where `\s?USD` must match). -/

/-- Length of the leading digit run. -/
def digitRun (s : Str) : Nat := (s.takeWhile isDig).length

/-- `\s?\d+` at the head of `s` (consumed length). -/
def wsOptDigits : Str → Option Nat
  | [] => none
  | c :: cs =>
    if isDig c then some (1 + digitRun cs)
    else if isPySpace c then
      match cs with
      | d :: ds => if isDig d then some (2 + digitRun ds) else none
      | [] => none
    else none

/-- `USD` (case-insensitive) at the head of `s`. -/
def usdAt : Str → Bool
  | a :: b :: c :: _ =>
    (a = 'U' || a = 'u') && (b = 'S' || b = 's') && (c = 'D' || c = 'd')
  | _ => false

/-- `\s?USD` at the head of `s` (consumed length). -/
def wsOptUSD (s : Str) : Option Nat :=
  if usdAt s then some 3
  else
    match s with
    | c :: cs => if isPySpace c then (if usdAt cs then some 4 else none) else none
    | [] => none

/-- Match of `\$\s?\d+|USD\s?\d+|\d+\s?USD` (case-insensitive) at the
head of `s`, returning the consumed length. -/
def matchCurAt : Str → Option Nat
  | [] => none
  | c :: cs =>
    if c = '$' then (wsOptDigits cs).map (· + 1)
    else if c = 'U' || c = 'u' then
      match cs with
      | b :: d :: rest =>
        if (b = 'S' || b = 's') && (d = 'D' || d = 'd') then
          (wsOptDigits rest).map (· + 3)
        else none
      | _ => none
    else if isDig c then
      let n := 1 + digitRun cs
      (wsOptUSD ((c :: cs).drop n)).map (· + n)
    else none

/-- The replacement text. -/
def priceRepl : Str := lit "[price omitted]"

/-- The left-to-right non-overlapping replacement performed by `re.sub`
on the currency pattern.  Each step consumes at least one character, so a
fuel of the input length runs the scan to completion. -/
def currencySubF : Nat → Str → Str
  | 0, s => s
  | _ + 1, [] => []
  | fuel + 1, c :: cs =>
    match matchCurAt (c :: cs) with
    | some len => priceRepl ++ currencySubF fuel (cs.drop (len - 1))
    | none => c :: currencySubF fuel cs

def currencySub (s : Str) : Str := currencySubF s.length s

/-- Some position of `s` matches the currency pattern. -/
def hasCurrency : Str → Bool
  | [] => false
  | c :: cs => (matchCurAt (c :: cs)).isSome || hasCurrency cs

/-! ### Calendar dates

`date.fromisoformat`, `date.toordinal` and `date.fromordinal` as used by
the Day-by-day fallback (responder.py lines 47-53 and 349-371):
proleptic-Gregorian ordinals with `0001-01-01 = 1`. -/

def isLeap (y : Int) : Bool := (y % 4 = 0 && y % 100 ≠ 0) || y % 400 = 0

def daysInMonth (y : Int) (m : Nat) : Nat :=
  if m = 2 then (if isLeap y then 29 else 28)
  else if m = 4 || m = 6 || m = 9 || m = 11 then 30
  else 31

/-- Days since 1970-01-01 of a civil date (Gregorian, any era). -/
def daysFromCivil (y m d : Int) : Int :=
  let y' := y - (if m ≤ 2 then 1 else 0)
  let era := y'.ediv 400
  let yoe := y' - era * 400
  let doy := (153 * (m + (if m > 2 then -3 else 9)) + 2).ediv 5 + d - 1
  let doe := yoe * 365 + yoe.ediv 4 - yoe.ediv 100 + doy
  era * 146097 + doe - 719468

/-- Python `date.toordinal()`. -/
def toOrdinal (y m d : Int) : Int := daysFromCivil y m d + 719163

/-- Python `date.fromordinal(o)` as `(year, month, day)`. -/
def civilFromOrd (o : Int) : Int × Int × Int :=
  let z := o - 719163 + 719468
  let era := z.ediv 146097
  let doe := z - era * 146097
  let yoe := (doe - doe.ediv 1460 + doe.ediv 36524 - doe.ediv 146096).ediv 365
  let y0 := yoe + era * 400
  let doy := doe - (365 * yoe + yoe.ediv 4 - yoe.ediv 100)
  let mp := (5 * doy + 2).ediv 153
  let d := doy - (153 * mp + 2).ediv 5 + 1
  let m := mp + (if mp < 10 then 3 else -9)
  (y0 + (if m ≤ 2 then 1 else 0), m, d)

/-- Zero-padded decimal rendering. -/
def padN (w : Nat) (n : Nat) : Str :=
  let s := natStr n
  List.replicate (w - s.length) '0' ++ s

/-- Python `date.isoformat()`. -/
def isoOfOrd (o : Int) : Str :=
  let c := civilFromOrd o
  padN 4 c.1.natAbs ++ lit "-" ++ padN 2 c.2.1.natAbs ++ lit "-" ++ padN 2 c.2.2.natAbs

def digitVal (c : Char) : Nat := c.toNat - 48

/-- `_parse_iso` (responder.py lines 47-53) for the `YYYY-MM-DD` form,
returning the ordinal. -/
def parseIsoOrd (s : Str) : Option Int :=
  match s with
  | [y1, y2, y3, y4, h1, m1, m2, h2, d1, d2] =>
    if isDig y1 && isDig y2 && isDig y3 && isDig y4 && h1 = '-' &&
       isDig m1 && isDig m2 && h2 = '-' && isDig d1 && isDig d2 then
      let y : Int := (digitVal y1 * 1000 + digitVal y2 * 100 + digitVal y3 * 10 + digitVal y4 : Nat)
      let m : Nat := digitVal m1 * 10 + digitVal m2
      let d : Nat := digitVal d1 * 10 + digitVal d2
      if 1 ≤ y && 1 ≤ m && m ≤ 12 && 1 ≤ d && d ≤ daysInMonth y m then
        some (toOrdinal y m d)
      else none
    else none
  | _ => none

/-- `_parse_iso` on an optional state field (`None` and `""` parse to
`None`). -/
def parseIsoOpt (v : Option Str) : Option Int :=
  match v with
  | none => none
  | some s => if s.isEmpty then none else parseIsoOrd s

/-! ### `urllib.parse.quote_plus` -/

def hexDig (n : Nat) : Char :=
  if n < 10 then Char.ofNat (48 + n) else Char.ofNat (55 + n)

def pctByte (b : Nat) : Str := ['%', hexDig (b / 16), hexDig (b % 16)]

/-- UTF-8 bytes of a character. -/
def utf8Bytes (c : Char) : List Nat :=
  let n := c.toNat
  if n < 128 then [n]
  else if n < 2048 then [192 + n / 64, 128 + n % 64]
  else if n < 65536 then [224 + n / 4096, 128 + (n / 64) % 64, 128 + n % 64]
  else [240 + n / 262144, 128 + (n / 4096) % 64, 128 + (n / 64) % 64, 128 + n % 64]

def quoteSafe (c : Char) : Bool :=
  ('A' ≤ c && c ≤ 'Z') || ('a' ≤ c && c ≤ 'z') || isDig c ||
  c = '_' || c = '.' || c = '-' || c = '~'

/-- `quote_plus(s)`. -/
def quotePlus (s : Str) : Str :=
  s.flatMap (fun c =>
    if c = ' ' then ['+']
    else if quoteSafe c then [c]
    else (utf8Bytes c).flatMap pctByte)

/-! ## Responder data model and node (`agents/nodes/responder.py`) -/

structure RLink where
  label : Str
  url : Str
  deriving Repr, DecidableEq

/-- The fields of a tool result's `data` dict that the responder reads
(`data.get("destination")`, `data.get("origin")`,
`data.get("top_results")`); an absent or falsy string is `[]`, a
non-list `top_results` is `[]`. -/
structure RData where
  destination : Str
  origin : Str
  top_results : List RLink
  deriving Repr, DecidableEq

structure RToolResult where
  tool_name : Str
  data : RData
  links : List RLink
  summary : Str
  deriving Repr, DecidableEq

/-- The constraint fields read by the responder.  `budget_usd` is a float
in Python; integral budgets cover the repository's own producers (the
heuristic extractor parses integer strings). -/
structure RConstraints where
  origin : Option Str
  destinations : List Str
  start_date : Option Str
  end_date : Option Str
  budget_usd : Option Int
  travelers : Option Int
  deriving Repr, DecidableEq

structure RState where
  constraints : RConstraints
  final_answer : Str
  tool_results : List RToolResult
  deriving Repr, DecidableEq

/-- An entry of `_collect_tool_entries` (responder.py lines 186-207). -/
structure REntry where
  data : RData
  links : List RLink
  summary : Str
  top_results : List RLink
  deriving Repr, DecidableEq

def collectEntries (name : Str) (trs : List RToolResult) : List REntry :=
  trs.filterMap (fun tr =>
    if tr.tool_name == name then
      some { data := tr.data, links := tr.links, summary := stripB tr.summary,
             top_results := tr.data.top_results }
    else none)

/-- `_dedupe_entries` (responder.py lines 209-221). -/
def dedupeGo (kind destination : Str) (origin : Option Str) :
    List Str → List REntry → List REntry
  | _, [] => []
  | seen, e :: es =>
    let dest_val := stripB (orS e.data.destination (orS destination []))
    let origin_val := stripB (orS e.data.origin (orS (optS origin) []))
    let key := kind ++ lit "|" ++ lowS origin_val ++ lit "|" ++ lowS dest_val
    if seen.contains key then dedupeGo kind destination origin seen es
    else e :: dedupeGo kind destination origin (key :: seen) es

def dedupeEntries (kind destination : Str) (origin : Option Str)
    (entries : List REntry) : List REntry :=
  dedupeGo kind destination origin [] entries

/-- `_links_md` (responder.py lines 86-93). -/
def linksMd (links : List RLink) : Str :=
  joinNL (links.filterMap (fun l =>
    let label := orS l.label (lit "Link")
    if l.url.isEmpty then none
    else some (lit "- [" ++ label ++ lit "](" ++ l.url ++ lit ")")))

/-- The four deterministic link sets of `_build_default_links`
(responder.py lines 56-83). -/
structure DefaultLinks where
  flights : List RLink
  lodging : List RLink
  things : List RLink
  weather : List RLink
  deriving Repr, DecidableEq

def build_default_links (origin : Option Str) (destination : Str)
    (start_date end_date : Option Str) : DefaultLinks :=
  let dest := orS destination (lit "destination")
  let og := optS origin
  let sd := optS start_date
  let ed := optS end_date
  let flights :=
    if truthyOS origin && !destination.isEmpty && truthyOS start_date then
      let query := lit "flights from " ++ og ++ lit " to " ++ dest ++ lit " " ++ sd
      [ { label := lit "Google Flights",
          url := lit "https://www.google.com/travel/flights?q=" ++
            quotePlus (lit "Flights from " ++ og ++ lit " to " ++ dest ++ lit " on " ++ sd) },
        { label := lit "Skyscanner",
          url := lit "https://www.skyscanner.com/transport/flights/?q=" ++
            quotePlus (lit "Skyscanner flights " ++ og ++ lit " " ++ dest ++ lit " " ++ sd) },
        { label := lit "Kayak",
          url := lit "https://www.google.com/search?q=" ++
            quotePlus (lit "site:kayak.com " ++ query) },
        { label := lit "Expedia",
          url := lit "https://www.google.com/search?q=" ++
            quotePlus (lit "site:expedia.com " ++ query) },
        { label := lit "Momondo",
          url := lit "https://www.google.com/search?q=" ++
            quotePlus (lit "site:momondo.com " ++ query) } ]
    else []
  let lodging :=
    if !destination.isEmpty && truthyOS start_date && truthyOS end_date then
      let span := lit "Hotels in " ++ dest ++ lit " " ++ sd ++ lit " to " ++ ed
      let span2 := lit "hotels in " ++ dest ++ lit " " ++ sd ++ lit " to " ++ ed
      [ { label := lit "Booking.com",
          url := lit "https://www.booking.com/searchresults.html?ss=" ++ quotePlus span },
        { label := lit "Hotels.com",
          url := lit "https://www.google.com/search?q=" ++
            quotePlus (lit "site:hotels.com " ++ span2) },
        { label := lit "Expedia",
          url := lit "https://www.google.com/search?q=" ++
            quotePlus (lit "site:expedia.com " ++ span2) },
        { label := lit "Airbnb",
          url := lit "https://www.airbnb.com/s/" ++ quotePlus dest ++ lit "/homes" },
        { label := lit "Google Maps (hotels)",
          url := lit "https://www.google.com/maps/search/?api=1&query=" ++
            quotePlus (lit "Hotels in " ++ dest) } ]
    else []
  let things :=
    if !destination.isEmpty then
      [ { label := lit "Google Maps (things to do)",
          url := lit "https://www.google.com/maps/search/?api=1&query=" ++
            quotePlus (lit "Things to do in " ++ dest) } ]
    else []
  let weather :=
    if !destination.isEmpty then
      let q := if truthyOS start_date
               then dest ++ lit " weather " ++ sd
               else dest ++ lit " weather"
      [ { label := lit "Weather search",
          url := lit "https://www.google.com/search?q=" ++ quotePlus q } ]
    else []
  { flights := flights, lodging := lodging, things := things, weather := weather }

/-- Round half-to-even to an integer (`f"{x:,.0f}"` rounding on the exact
rational value). -/
def roundHalfEven (q : ℚ) : Int :=
  let fl : Int := ⌊q⌋
  let frac : ℚ := q - fl
  if frac < 1/2 then fl
  else if frac > 1/2 then fl + 1
  else if fl % 2 = 0 then fl else fl + 1

/-- Group decimal digits in threes from the right. -/
def commaChunks : Str → List Str
  | [] => []
  | [a] => [[a]]
  | [a, b] => [[a, b]]
  | a :: b :: c :: rest => [a, b, c] :: commaChunks rest

/-- Join reversed three-digit chunks with commas. -/
def joinWithComma (chunks : List Str) : Str :=
  (chunks.intersperse (lit ",")).flatten

/-- `f"{x:,.0f}"` on an exact rational. -/
def commaFmt0 (q : ℚ) : Str :=
  let n := roundHalfEven q
  let digits := natStr n.natAbs
  let grouped := joinWithComma (commaChunks digits.reverse)
  (if n < 0 then lit "-" else []) ++ grouped.reverse

/-- The fixed texts of the responder's fallback sections. -/
def transitText : Str :=
  lit "- Use Google Maps for live routing.\n- Prefer public transit/walking in city centers; rideshare/taxi late night.\n- Build buffer time for traffic and station navigation."

def heuristicSplitText : Str :=
  lit "- Heuristic split: flights 35–55%, lodging 25–40%, food+activities 15–30%, local transit 5–10%."

def requiredSectionsR : List Str :=
  [lit "Summary", lit "Flights", lit "Lodging", lit "Day-by-day",
   lit "Transit", lit "Weather", lit "Budget", lit "Calendar"]

/-- The per-entry blocks of the Flights rewrite
(responder.py lines 236-254). -/
def entryBlocksF (destination : Str) (origin : Option Str) (e : REntry) : List Str :=
  let dest_val := stripB (orS e.data.destination (orS destination []))
  let origin_val := stripB (orS e.data.origin (orS (optS origin) []))
  let heading :=
    if !origin_val.isEmpty && !dest_val.isEmpty then
      [lit "### " ++ origin_val ++ lit " → " ++ dest_val]
    else if !dest_val.isEmpty then [lit "### " ++ dest_val]
    else []
  let note := extractUnavailableNote e.summary
  let noteB :=
    match note with
    | some n => if !n.isEmpty && e.top_results.isEmpty then [lit "- " ++ n] else []
    | none => []
  let topB :=
    if !e.top_results.isEmpty then [lit "Top 5 results:\n" ++ linksMd e.top_results]
    else []
  let linksB :=
    if !e.links.isEmpty then [lit "Search links:\n" ++ linksMd e.links] else []
  heading ++ noteB ++ topB ++ linksB ++ [[]]

/-- The per-entry blocks of the Lodging rewrite
(responder.py lines 276-290). -/
def entryBlocksL (destination : Str) (e : REntry) : List Str :=
  let dest_val := stripB (orS e.data.destination (orS destination []))
  let heading := if !dest_val.isEmpty then [lit "### " ++ dest_val] else []
  let note := extractUnavailableNote e.summary
  let noteB :=
    match note with
    | some n => if !n.isEmpty && e.top_results.isEmpty then [lit "- " ++ n] else []
    | none => []
  let topB :=
    if !e.top_results.isEmpty then [lit "Top 5 results:\n" ++ linksMd e.top_results]
    else []
  let linksB :=
    if !e.links.isEmpty then [lit "Search links:\n" ++ linksMd e.links] else []
  heading ++ noteB ++ topB ++ linksB ++ [[]]

/-- `dests[0] if dests else "your destination"` (responder.py line 144). -/
def respDest (c : RConstraints) : Str :=
  match c.destinations with
  | d :: _ => d
  | [] => lit "your destination"

/-- Empty-draft default, disclaimer enforcement and heading
normalisation (responder.py lines 149-156). -/
def rDisclaim (c : RConstraints) (ans : Str) : Str :=
  let a0 := stripB ans
  let a1 :=
    if a0.isEmpty then
      lit "# Trip plan\n\n## Summary\nPlanning trip to " ++ respDest c ++ lit ".\n"
    else a0
  normalize_headings (stripB (removeDisc a1) ++ lit "\n\n" ++ disclaimerS ++ lit "\n")

/-- The missing-constraint tokens (responder.py lines 159-171). -/
def respMissing (c : RConstraints) : List Str :=
  (if c.destinations.isEmpty then [lit "destination"] else []) ++
  (if truthyOS c.start_date then [] else [lit "start date"]) ++
  (if truthyOS c.end_date then [] else [lit "end date"]) ++
  (if truthyOS c.origin then [] else [lit "origin"]) ++
  (if c.budget_usd.isNone then [lit "budget"] else []) ++
  (if c.travelers.isNone then [lit "travelers"] else [])

/-- Assumptions section and missing-token lines
(responder.py lines 173-181); `lower` is a snapshot. -/
def rAssum (c : RConstraints) (ans : Str) : Str :=
  let a5 :=
    if containsS (lit "assumptions") (lowS ans) then ans
    else ans ++ lit "\n## Assumptions\n"
  let missing := respMissing c
  if missing.isEmpty then a5
  else
    let lower := lowS a5
    if containsS (lit "## assumptions") lower then
      a5 ++ (missing.filterMap (fun tok =>
        if containsS tok lower then none
        else some (lit "- " ++ tok ++ lit ": not provided\n"))).flatten
    else a5

/-- The required-section loop (responder.py lines 226-229). -/
def rRequired (ans : Str) : Str :=
  requiredSectionsR.foldl (fun acc sec =>
    if containsS (lowS sec) (lowS acc) then acc
    else acc ++ lit "\n## " ++ sec ++ lit "\n") ans

/-- The Flights rewrite (responder.py lines 231-270). -/
def rFlights (c : RConstraints) (trs : List RToolResult) (ans : Str) : Str :=
  let destination := respDest c
  let flights_body := (get_section_body ans (lit "Flights")).getD []
  let flight_entries :=
    dedupeEntries (lit "flights") destination c.origin
      (collectEntries (lit "flights_search_links") trs)
  if !flight_entries.isEmpty then
    set_section ans (lit "Flights")
      (stripB (joinNL (flight_entries.flatMap (entryBlocksF destination c.origin))))
  else
    let links := (build_default_links c.origin destination c.start_date c.end_date).flights
    if !links.isEmpty || containsS (lit "not available") (lowS flights_body) ||
       !hasUrl flights_body then
      if !links.isEmpty then
        set_section ans (lit "Flights") (lit "Search links:\n" ++ linksMd links)
      else
        set_section ans (lit "Flights")
          (lit "- Provide `origin` and `start_date` to generate flight search links.")
    else ans

/-- The Lodging rewrite (responder.py lines 272-306). -/
def rLodging (c : RConstraints) (trs : List RToolResult) (ans : Str) : Str :=
  let destination := respDest c
  let lodging_body := (get_section_body ans (lit "Lodging")).getD []
  let lodging_entries :=
    dedupeEntries (lit "lodging") destination c.origin
      (collectEntries (lit "hotels_search_links") trs)
  if !lodging_entries.isEmpty then
    set_section ans (lit "Lodging")
      (stripB (joinNL (lodging_entries.flatMap (entryBlocksL destination))))
  else
    let links := (build_default_links c.origin destination c.start_date c.end_date).lodging
    if !links.isEmpty || containsS (lit "not available") (lowS lodging_body) ||
       !hasUrl lodging_body then
      if !links.isEmpty then
        set_section ans (lit "Lodging") (lit "Search links:\n" ++ linksMd links)
      else
        set_section ans (lit "Lodging")
          (lit "- Provide `start_date` and `end_date` to generate lodging search links.")
    else ans

/-- The Things-to-do rewrite (responder.py lines 308-318). -/
def rThings (c : RConstraints) (trs : List RToolResult) (ans : Str) : Str :=
  let destination := respDest c
  let things_body := (get_section_body ans (lit "Things to do")).getD []
  if things_body.isEmpty || containsS (lit "not available") (lowS things_body) then
    let things_entries := collectEntries (lit "things_to_do_links") trs
    let links0 :=
      match things_entries.getLast? with
      | some e => e.links
      | none => []
    let links :=
      if links0.isEmpty then
        (build_default_links c.origin destination c.start_date c.end_date).things
      else links0
    if !links.isEmpty then set_section ans (lit "Things to do") (linksMd links) else ans
  else ans

/-- The Weather rewrite (responder.py lines 320-337). -/
def rWeather (c : RConstraints) (trs : List RToolResult) (ans : Str) : Str :=
  let destination := respDest c
  let weather_body := (get_section_body ans (lit "Weather")).getD []
  if containsS (lit "not available") (lowS weather_body) || weather_body.isEmpty then
    let weather_entries := collectEntries (lit "weather_summary") trs
    let sl :=
      match weather_entries.getLast? with
      | some e => (e.summary, e.links)
      | none =>
        ([], (build_default_links c.origin destination c.start_date c.end_date).weather)
    let pieces :=
      (if !sl.1.isEmpty then [lit "- " ++ sl.1] else []) ++
      (if !sl.2.isEmpty then [linksMd sl.2] else [])
    let pieces :=
      if pieces.isEmpty then
        [lit "- Seasonal guidance: check typical weather for your dates."]
      else pieces
    set_section ans (lit "Weather") (joinNL pieces)
  else ans

/-- The Transit rewrite (responder.py lines 339-346). -/
def rTransit (ans : Str) : Str :=
  let transit_body := (get_section_body ans (lit "Transit")).getD []
  if containsS (lit "not available") (lowS transit_body) || transit_body.isEmpty then
    set_section ans (lit "Transit") transitText
  else ans

/-- The Day-by-day rewrite (responder.py lines 348-371). -/
def rDay (c : RConstraints) (ans : Str) : Str :=
  let destination := respDest c
  let day_body := (get_section_body ans (lit "Day-by-day")).getD []
  if containsS (lit "not available") (lowS day_body) || day_body.isEmpty then
    let lines :=
      match parseIsoOpt c.start_date, parseIsoOpt c.end_date with
      | some ds, some de =>
        let days := (de - ds).natAbs + 1
        let maxDays := min days 10
        let start := min ds de
        (List.range maxDays).map (fun i =>
          lit "- Day " ++ natStr (i + 1) ++ lit " (" ++ isoOfOrd (start + i) ++
          lit "): Morning / Afternoon / Evening activities in " ++ destination ++ lit ".") ++
        (if days > maxDays then
          [lit "- Remaining days: follow a similar pattern (total " ++
            natStr days ++ lit " days)."]
        else [])
      | _, _ =>
        [lit "- Day 1: Arrival + neighborhood walk + street food in " ++
           destination ++ lit ".",
         lit "- Day 2: Top sights + museum/garden + evening market.",
         lit "- Day 3: Day trip or nature walk + local cuisine.",
         lit "- Day 4: Cultural highlights + shopping + relax.",
         lit "- Day 5: Flexible day + departure."]
    set_section ans (lit "Day-by-day") (joinNL lines)
  else ans

/-- The Budget rewrite (responder.py lines 373-399). -/
def rBudget (c : RConstraints) (ans : Str) : Str :=
  let budget_body := (get_section_body ans (lit "Budget")).getD []
  if containsS (lit "not available") (lowS budget_body) || budget_body.isEmpty then
    match c.budget_usd with
    | some b =>
      let t : Int :=
        match c.travelers with
        | some tv => if tv = 0 then 1 else tv
        | none => 1
      let per : ℚ := (b : ℚ) / (max 1 t : ℚ)
      set_section ans (lit "Budget")
        (lit "- Total budget (provided): ~$" ++ commaFmt0 (b : ℚ) ++ lit " for " ++
         intStr t ++ lit " traveler(s) (~$" ++ commaFmt0 per ++
         lit " per traveler).\n" ++ heuristicSplitText ++
         lit "\n- No live prices; use the links above to validate.")
    | none =>
      set_section ans (lit "Budget")
        (heuristicSplitText ++
         lit "\n- If you share a budget, I can tailor the itinerary and tradeoffs.")
  else ans

/-- The Calendar rewrite (responder.py lines 401-407). -/
def rCalendar (c : RConstraints) (ans : Str) : Str :=
  let cal_body := (get_section_body ans (lit "Calendar")).getD []
  if containsS (lit "not available") (lowS cal_body) || cal_body.isEmpty then
    if truthyOS c.start_date && truthyOS c.end_date then
      set_section ans (lit "Calendar")
        (lit "- An `.ics` itinerary calendar will be exported after this response.")
    else
      set_section ans (lit "Calendar")
        (lit "- Provide `start_date` and `end_date` to export an `.ics` calendar.")
  else ans

/-- Currency stripping and the final `strip() + "\n"`
(responder.py lines 409-412). -/
def rFinal (ans : Str) : Str := stripB (currencySub ans) ++ lit "\n"

/-- `responder(state)` (responder.py lines 140-419), as the composition of
the stages above in source order.  Only `final_answer` is written back;
the telemetry call does not affect the state. -/
def responder (s : RState) : RState :=
  { s with final_answer :=
      rFinal (rCalendar s.constraints (rBudget s.constraints (rDay s.constraints
        (rTransit (rWeather s.constraints s.tool_results (rThings s.constraints
          s.tool_results (rLodging s.constraints s.tool_results (rFlights
            s.constraints s.tool_results (rRequired (rAssum s.constraints
              (rDisclaim s.constraints s.final_answer))))))))))) }

/-! ## Concrete states and claim-side checkers -/

/-- Tail-recursive string comparison used to state concrete evaluations. -/
def eqS : Str → Str → Bool
  | [], [] => true
  | c :: cs, d :: ds => c == d && eqS cs ds
  | _, _ => false

/-- The collocation pattern of the specification,
`(price|cost|fare).{0,25}\d` (where `.` does not match a newline),
stated from the spec's words for comparison with the responder's output:
`collocAfter` is `.{0,25}\d` at the head of the remainder. -/
def collocAfter (tail : Str) : Bool :=
  let w := tail.take 26
  (List.range w.length).any (fun j =>
    isDig (w.getD j ' ') && (w.take j).all (fun c => c ≠ '\n'))

def specColloc : Str → Bool
  | [] => false
  | c :: cs =>
    ((startsW (lit "price") (c :: cs) && collocAfter ((c :: cs).drop 5)) ||
     (startsW (lit "cost") (c :: cs) && collocAfter ((c :: cs).drop 4)) ||
     (startsW (lit "fare") (c :: cs) && collocAfter ((c :: cs).drop 4))) ||
    specColloc cs

/-- A state whose draft places its only `##` section last, with origin and
dates absent: the enforced disclaimer then lands inside the `Flights`
block, which the Flights rewrite later replaces. -/
def c6State : RState :=
  ⟨⟨none, [lit "Tokyo"], none, none, none, none⟩, lit "## Flights\nbooked", []⟩

/-- A state whose draft contains the collocation `fare: 12` inside the
`Summary` section, which no rewrite touches. -/
def c7State : RState :=
  ⟨⟨none, [lit "Tokyo"], none, none, none, none⟩,
   lit "## Summary\nfare: 12 and $5 fee", []⟩

/-- An empty-input state for the idempotence claim. -/
def c8State : RState := ⟨⟨none, [], none, none, none, none⟩, [], []⟩

/-- `responder c8State`, written out: the constraints and tool results are
unchanged and `final_answer` is the first run's output. -/
def c8bState : RState :=
  ⟨⟨none, [], none, none, none, none⟩, lit "# Trip plan\n\n## Summary\nPlanning trip to your destination.\n\nNote: Visa/health requirements vary; verify with official sources (this is not legal advice).\n## Assumptions\n- start date: not provided\n- end date: not provided\n- origin: not provided\n- budget: not provided\n- travelers: not provided\n\n## Flights\n- Provide `origin` and `start_date` to generate flight search links.\n## Lodging\n- Provide `start_date` and `end_date` to generate lodging search links.\n## Day-by-day\n- Day 1: Arrival + neighborhood walk + street food in your destination.\n- Day 2: Top sights + museum/garden + evening market.\n- Day 3: Day trip or nature walk + local cuisine.\n- Day 4: Cultural highlights + shopping + relax.\n- Day 5: Flexible day + departure.\n## Transit\n- Use Google Maps for live routing.\n- Prefer public transit/walking in city centers; rideshare/taxi late night.\n- Build buffer time for traffic and station navigation.\n## Weather\n- [Weather search](https://www.google.com/search?q=your+destination+weather)\n## Calendar\n- Provide `start_date` and `end_date` to export an `.ics` calendar.\n## Things to do\n- [Google Maps (things to do)](https://www.google.com/maps/search/?api=1&query=Things+to+do+in+your+destination)\n\n## Budget\n- Heuristic split: flights 35–55%, lodging 25–40%, food+activities 15–30%, local transit 5–10%.\n- If you share a budget, I can tailor the itinerary and tradeoffs.\n", []⟩

/-- The `##`-heading lines of an answer, in order. -/
def headingLines (s : Str) : List Str :=
  (splitLinesPy s).filter (fun l => startsW (lit "##") l)



/-- Concrete inputs for the retry-exhaustion witness: a single pending
`TOOL_CALL` step whose tool raises on every invocation. -/
def w3Step : EStep Unit := ⟨"s1", "t", "TOOL_CALL", some "mytool", none, "pending", none⟩
def w3State : EState Unit := ⟨"q", some w3Step, [w3Step], 0, [], none, false, [], [], "", []⟩
def w3Tools : String → Option Unit → Nat → Except String ToolOut := fun _ _ _ => Except.error "boom"


/-! ### Currency-safety devices -/

/-- A character at which the currency pattern can possibly start. -/
def curTrigger (c : Char) : Bool := c = '$' || c = 'U' || c = 'u' || isDig c

/-- The left-to-right scan-and-replace relation underlying `currencySubF`:
`Sub s z` holds when `z` is the result of the `re.sub` scan on `s`. -/
inductive Sub : Str → Str → Prop
  | nil : Sub [] []
  | repl {c : Char} {cs z : Str} {len : Nat} :
      matchCurAt (c :: cs) = some len → Sub (cs.drop (len - 1)) z →
      Sub (c :: cs) (priceRepl ++ z)
  | keep {c : Char} {cs z : Str} :
      matchCurAt (c :: cs) = none → Sub cs z → Sub (c :: cs) (c :: z)



/-! ### Selective-buffering invariant (for C10) -/

/-- Invariant of a selective-mode controller run: the buffer respects the
size bound, tags are fresh and chronological, and discarded payloads are
distinct (by tag) from everything written or still buffered. -/
def C10Inv (N : Nat) (t : TC) : Prop :=
  t.mode = "selective" ∧ t.bufferSize = N ∧
  t.buffer.length ≤ N ∧
  (∀ p ∈ t.buffer, p.tag < t.nextTag) ∧
  (∀ p ∈ t.written, p.tag < t.nextTag) ∧
  (∀ p ∈ t.discarded, p.tag < t.nextTag) ∧
  t.buffer.Pairwise (fun a b => a.tag < b.tag) ∧
  (∀ p ∈ t.buffer, ∀ q ∈ t.written, p.tag ≠ q.tag) ∧
  (∀ p ∈ t.discarded, ∀ q ∈ t.written, p.tag ≠ q.tag) ∧
  (∀ p ∈ t.discarded, ∀ q ∈ t.buffer, p.tag ≠ q.tag)

lemma c10_branch_esc (N : Nat) (t : TC) (P : Payload) (hPtag : P.tag = t.nextTag)
    (hbs : t.bufferSize = N) (hlen : t.buffer.length ≤ N)
    (hbt : ∀ p ∈ t.buffer, p.tag < t.nextTag)
    (hwt : ∀ p ∈ t.written, p.tag < t.nextTag)
    (hdt : ∀ p ∈ t.discarded, p.tag < t.nextTag)
    (hpw : t.buffer.Pairwise (fun a b => a.tag < b.tag))
    (hbw : ∀ p ∈ t.buffer, ∀ q ∈ t.written, p.tag ≠ q.tag)
    (hdw : ∀ p ∈ t.discarded, ∀ q ∈ t.written, p.tag ≠ q.tag)
    (hdb : ∀ p ∈ t.discarded, ∀ q ∈ t.buffer, p.tag ≠ q.tag) :
    C10Inv N
      { mode := "selective"
        maxChars := t.maxChars
        bufferSize := t.bufferSize
        buffer := t.buffer
        escalated := t.escalated
        written := t.written ++ [P]
        discarded := t.discarded
        nextTag := t.nextTag + 1 } := by
  refine ⟨rfl, hbs, hlen, ?_, ?_, ?_, hpw, ?_, ?_, hdb⟩
  · intro p hp
    exact Nat.lt_succ_of_lt (hbt p hp)
  · intro p hp
    rcases List.mem_append.mp hp with hq | hq
    · exact Nat.lt_succ_of_lt (hwt p hq)
    · rw [List.mem_singleton] at hq
      subst hq
      rw [hPtag]
      exact Nat.lt_succ_self _
  · intro p hp
    exact Nat.lt_succ_of_lt (hdt p hp)
  · intro p hp q hq
    rcases List.mem_append.mp hq with hq | hq
    · exact hbw p hp q hq
    · rw [List.mem_singleton] at hq
      subst hq
      rw [hPtag]
      exact Nat.ne_of_lt (hbt p hp)
  · intro p hp q hq
    rcases List.mem_append.mp hq with hq | hq
    · exact hdw p hp q hq
    · rw [List.mem_singleton] at hq
      subst hq
      rw [hPtag]
      exact Nat.ne_of_lt (hdt p hp)

lemma c10_branch_push_ok (N : Nat) (t : TC) (P : Payload) (hPtag : P.tag = t.nextTag)
    (h4 : ¬((t.buffer ++ [P]).length > t.bufferSize))
    (hbs : t.bufferSize = N) (hlen : t.buffer.length ≤ N)
    (hbt : ∀ p ∈ t.buffer, p.tag < t.nextTag)
    (hwt : ∀ p ∈ t.written, p.tag < t.nextTag)
    (hdt : ∀ p ∈ t.discarded, p.tag < t.nextTag)
    (hpw : t.buffer.Pairwise (fun a b => a.tag < b.tag))
    (hbw : ∀ p ∈ t.buffer, ∀ q ∈ t.written, p.tag ≠ q.tag)
    (hdw : ∀ p ∈ t.discarded, ∀ q ∈ t.written, p.tag ≠ q.tag)
    (hdb : ∀ p ∈ t.discarded, ∀ q ∈ t.buffer, p.tag ≠ q.tag) :
    C10Inv N
      { mode := "selective"
        maxChars := t.maxChars
        bufferSize := t.bufferSize
        buffer := t.buffer ++ [P]
        escalated := t.escalated
        written := t.written
        discarded := t.discarded
        nextTag := t.nextTag + 1 } := by
  have hmem : ∀ p ∈ t.buffer ++ [P], p.tag < t.nextTag + 1 := by
    intro p hp
    rcases List.mem_append.mp hp with hq | hq
    · exact Nat.lt_succ_of_lt (hbt p hq)
    · rw [List.mem_singleton] at hq
      subst hq
      rw [hPtag]
      exact Nat.lt_succ_self _
  refine ⟨rfl, hbs, ?_, hmem, ?_, ?_, ?_, ?_, ?_, ?_⟩
  · simp only [List.length_append, List.length_singleton] at h4 ⊢
    omega
  · intro p hp
    exact Nat.lt_succ_of_lt (hwt p hp)
  · intro p hp
    exact Nat.lt_succ_of_lt (hdt p hp)
  · refine List.pairwise_append.mpr ⟨hpw, ?_, ?_⟩
    · exact List.pairwise_singleton _ _
    · intro a ha b hb
      rw [List.mem_singleton] at hb
      subst hb
      rw [hPtag]
      exact hbt a ha
  · intro p hp q hq
    rcases List.mem_append.mp hp with hq' | hq'
    · exact hbw p hq' q hq
    · rw [List.mem_singleton] at hq'
      subst hq'
      rw [hPtag]
      exact (Nat.ne_of_lt (hwt q hq)).symm
  · exact hdw
  · intro p hp q hq
    rcases List.mem_append.mp hq with hq' | hq'
    · exact hdb p hp q hq'
    · rw [List.mem_singleton] at hq'
      subst hq'
      rw [hPtag]
      exact Nat.ne_of_lt (hdt p hp)

lemma c10_branch_push_over (N : Nat) (hN : 0 < N) (t : TC) (P : Payload)
    (hPtag : P.tag = t.nextTag)
    (h4 : (t.buffer ++ [P]).length > t.bufferSize)
    (hbs : t.bufferSize = N) (hlen : t.buffer.length ≤ N)
    (hbt : ∀ p ∈ t.buffer, p.tag < t.nextTag)
    (hwt : ∀ p ∈ t.written, p.tag < t.nextTag)
    (hdt : ∀ p ∈ t.discarded, p.tag < t.nextTag)
    (hpw : t.buffer.Pairwise (fun a b => a.tag < b.tag))
    (hbw : ∀ p ∈ t.buffer, ∀ q ∈ t.written, p.tag ≠ q.tag)
    (hdw : ∀ p ∈ t.discarded, ∀ q ∈ t.written, p.tag ≠ q.tag)
    (hdb : ∀ p ∈ t.discarded, ∀ q ∈ t.buffer, p.tag ≠ q.tag) :
    C10Inv N
      { mode := "selective"
        maxChars := t.maxChars
        bufferSize := t.bufferSize
        buffer := lastSlice t.bufferSize (t.buffer ++ [P])
        escalated := t.escalated
        written := t.written
        discarded := t.discarded ++
          (t.buffer ++ [P]).take ((t.buffer ++ [P]).length - t.bufferSize)
        nextTag := t.nextTag + 1 } := by
  have hz : ¬(t.bufferSize = 0) := by
    rw [hbs]
    omega
  have hmem : ∀ p ∈ t.buffer ++ [P], p.tag < t.nextTag + 1 := by
    intro p hp
    rcases List.mem_append.mp hp with hq | hq
    · exact Nat.lt_succ_of_lt (hbt p hq)
    · rw [List.mem_singleton] at hq
      subst hq
      rw [hPtag]
      exact Nat.lt_succ_self _
  have hmemW : ∀ p ∈ t.buffer ++ [P], ∀ q ∈ t.written, p.tag ≠ q.tag := by
    intro p hp q hq
    rcases List.mem_append.mp hp with hq' | hq'
    · exact hbw p hq' q hq
    · rw [List.mem_singleton] at hq'
      subst hq'
      rw [hPtag]
      exact (Nat.ne_of_lt (hwt q hq)).symm
  have hmemD : ∀ p ∈ t.discarded, ∀ q ∈ t.buffer ++ [P], p.tag ≠ q.tag := by
    intro p hp q hq
    rcases List.mem_append.mp hq with hq' | hq'
    · exact hdb p hp q hq'
    · rw [List.mem_singleton] at hq'
      subst hq'
      rw [hPtag]
      exact Nat.ne_of_lt (hdt p hp)
  have hpwbuf : (t.buffer ++ [P]).Pairwise (fun a b => a.tag < b.tag) := by
    refine List.pairwise_append.mpr ⟨hpw, ?_, ?_⟩
    · exact List.pairwise_singleton _ _
    · intro a ha b hb
      rw [List.mem_singleton] at hb
      subst hb
      rw [hPtag]
      exact hbt a ha
  have hsliceEq : lastSlice t.bufferSize (t.buffer ++ [P]) =
      (t.buffer ++ [P]).drop ((t.buffer ++ [P]).length - t.bufferSize) := by
    rw [lastSlice, if_neg hz]
  refine ⟨rfl, hbs, ?_, ?_, ?_, ?_, ?_, ?_, ?_, ?_⟩
  · rw [hsliceEq, List.length_drop]
    simp only [List.length_append, List.length_singleton]
    omega
  · intro p hp
    rw [hsliceEq] at hp
    exact hmem p (List.drop_subset _ _ hp)
  · intro p hp
    exact Nat.lt_succ_of_lt (hwt p hp)
  · intro p hp
    rcases List.mem_append.mp hp with hq | hq
    · exact Nat.lt_succ_of_lt (hdt p hq)
    · exact hmem p (List.take_subset _ _ hq)
  · rw [hsliceEq]
    exact List.Pairwise.sublist (List.drop_sublist _ _) hpwbuf
  · intro p hp q hq
    rw [hsliceEq] at hp
    exact hmemW p (List.drop_subset _ _ hp) q hq
  · intro p hp q hq
    rcases List.mem_append.mp hp with hq' | hq'
    · exact hdw p hq' q hq
    · exact hmemW p (List.take_subset _ _ hq') q hq
  · intro p hp q hq
    rw [hsliceEq] at hq
    rcases List.mem_append.mp hp with hq' | hq'
    · exact hmemD p hq' q (List.drop_subset _ _ hq)
    · have hcross := (List.pairwise_append.mp (by
        rw [List.take_append_drop ((t.buffer ++ [P]).length - t.bufferSize) (t.buffer ++ [P])]
        exact hpwbuf)).2.2
      exact Nat.ne_of_lt (hcross p hq' q hq)

/-! # Theorems

Everything below is proved about the definitions above.  The concrete
stage evaluations are stated through `eqS` (kernel-friendly tail
comparison) and transported to equalities. -/

set_option maxRecDepth 20000
set_option maxHeartbeats 1600000

/-! ## Currency-safety lemma suite (for C7) -/

lemma currencySubF_nil : ∀ f, currencySubF f [] = []
  | 0 => rfl
  | _ + 1 => rfl

lemma pySpace_cases (c : Char) (h : isPySpace c = true) :
    c = ' ' ∨ c = '\t' ∨ c = '\n' ∨ c = '\r' ∨ c = Char.ofNat 11 ∨ c = Char.ofNat 12 := by
  simp only [isPySpace, Bool.or_eq_true, decide_eq_true_eq] at h
  tauto

lemma pySpace_trigger {c : Char} (h : isPySpace c = true) : curTrigger c = false := by
  rcases pySpace_cases c h with h | h | h | h | h | h <;> subst h <;> decide

lemma matchCurAt_nontrigger {c : Char} (h : curTrigger c = false) (t : Str) :
    matchCurAt (c :: t) = none := by
  simp only [curTrigger, Bool.or_eq_false_iff, decide_eq_false_iff_not] at h
  obtain ⟨⟨⟨h1, h2⟩, h3⟩, h4⟩ := h
  simp [matchCurAt, h1, h2, h3, h4]

lemma matchCurAt_singleton (c : Char) : matchCurAt [c] = none := by
  by_cases h1 : c = '$'
  · subst h1; rfl
  · by_cases h2 : c = 'U' ∨ c = 'u'
    · rcases h2 with h2 | h2 <;> subst h2 <;> rfl
    · push_neg at h2
      by_cases h3 : isDig c = true
      · simp only [matchCurAt, h1, if_false, h2.1, h2.2, h3, if_true]
        have hd : digitRun [] = 0 := rfl
        simp [hd, wsOptUSD, usdAt]
      · exact matchCurAt_nontrigger (by simp [curTrigger, h1, h2.1, h2.2, h3]) []

lemma digitRun_cons (c : Char) (t : Str) :
    digitRun (c :: t) = if isDig c then digitRun t + 1 else 0 := by
  simp only [digitRun, List.takeWhile_cons]
  split <;> simp [List.length_cons, Nat.add_comm]

lemma isDig_trigger {c : Char} (h : isDig c = true) : curTrigger c = true := by
  simp [curTrigger, h]

lemma isDig_ne_dollar {c : Char} (h : isDig c = true) : (c = '$') = False := by
  refine eq_false fun hc => ?_
  subst hc; exact absurd h (by decide)

lemma isDig_ne_uU {c : Char} (h : isDig c = true) :
    (c = 'U') = False ∧ (c = 'u') = False := by
  constructor <;> refine eq_false fun hc => ?_ <;> subst hc <;> exact absurd h (by decide)

lemma matchCurAt_digit {c : Char} (h : isDig c = true) (t : Str) :
    matchCurAt (c :: t) =
      (wsOptUSD (t.drop (digitRun t))).map (· + (1 + digitRun t)) := by
  have h1 := isDig_ne_dollar h
  have h2 := isDig_ne_uU h
  have hdrop : List.drop (1 + digitRun t) (c :: t) = List.drop (digitRun t) t := by
    rw [Nat.add_comm, List.drop_succ_cons]
  simp only [matchCurAt, h1, h2.1, h2.2, if_false, h, if_true, or_self,
    decide_False, Bool.or_self, Bool.false_eq_true, hdrop]

lemma sub_of_fuel : ∀ (f : Nat) (s : Str), s.length ≤ f → Sub s (currencySubF f s) := by
  intro f
  induction f with
  | zero =>
    intro s hs
    have : s = [] := List.length_eq_zero.mp (Nat.le_zero.mp hs)
    subst this
    exact Sub.nil
  | succ f ih =>
    intro s hs
    cases s with
    | nil => exact Sub.nil
    | cons c cs =>
      cases hm : matchCurAt (c :: cs) with
      | some len =>
        have : currencySubF (f + 1) (c :: cs) =
            priceRepl ++ currencySubF f (cs.drop (len - 1)) := by
          simp only [currencySubF, hm]
        rw [this]
        refine Sub.repl hm (ih _ ?_)
        have h1 : (cs.drop (len - 1)).length ≤ cs.length := by
          rw [List.length_drop]; omega
        simp only [List.length_cons] at hs
        omega
      | none =>
        have : currencySubF (f + 1) (c :: cs) = c :: currencySubF f cs := by
          simp only [currencySubF, hm]
        rw [this]
        refine Sub.keep hm (ih _ ?_)
        simp only [List.length_cons] at hs
        omega

lemma Sub.nil_inv {z : Str} (h : Sub [] z) : z = [] := by
  cases h; rfl

lemma priceRepl_eq : priceRepl = '[' :: lit "price omitted]" := rfl

/-- Head shapes of the scan output. -/
lemma Sub.head_shape {s z : Str} (h : Sub s z) :
    (s = [] ∧ z = []) ∨
    (∃ z', z = '[' :: z') ∨
    (∃ c cs z', s = c :: cs ∧ z = c :: z' ∧ matchCurAt (c :: cs) = none ∧ Sub cs z') := by
  cases h with
  | nil => exact Or.inl ⟨rfl, rfl⟩
  | repl hm hs => exact Or.inr (Or.inl ⟨_, rfl⟩)
  | keep hm hs => exact Or.inr (Or.inr ⟨_, _, _, rfl, rfl, hm, hs⟩)

lemma wod_lbrack (t : Str) : wsOptDigits ('[' :: t) = none := by
  have h1 : isDig '[' = false := by decide
  have h2 : isPySpace '[' = false := by decide
  simp [wsOptDigits, h1, h2]

lemma Sub.wsOptDigits_none {s z : Str} (h : Sub s z) (hn : wsOptDigits s = none) :
    wsOptDigits z = none := by
  rcases h.head_shape with ⟨hs, hz⟩ | ⟨z', hz⟩ | ⟨c, cs, z', hs, hz, hm, hsub⟩
  · subst hz; rfl
  · subst hz; exact wod_lbrack z'
  · subst hs; subst hz
    by_cases hd : isDig c = true
    · simp [wsOptDigits, hd] at hn
    · by_cases hp : isPySpace c = true
      · cases cs with
        | nil =>
          rw [hsub.nil_inv]
          simp [wsOptDigits, hd, hp]
        | cons e es =>
          have he : isDig e = false := by
            by_cases he' : isDig e = true
            · simp [wsOptDigits, hd, hp, he'] at hn
            · exact Bool.eq_false_iff.mpr he'
          rcases hsub.head_shape with ⟨hs2, hz2⟩ | ⟨z2, hz2⟩ | ⟨c2, cs2, z2, hs2, hz2, hm2, _⟩
          · exact absurd hs2 (List.cons_ne_nil e es)
          · subst hz2
            have hb : isDig '[' = false := by decide
            simp [wsOptDigits, hd, hp, hb]
          · injection hs2 with h1 h2
            subst h1; subst h2
            rw [hz2]
            simp [wsOptDigits, hd, hp, he]
      · simp [wsOptDigits, hd, hp]

lemma usdAt_cons₃ (a b c : Char) (t : Str) :
    usdAt (a :: b :: c :: t) =
      ((a = 'U' || a = 'u') && (b = 'S' || b = 's') && (c = 'D' || c = 'd')) := rfl

lemma usdAt_short {t : Str} (h : t.length ≤ 2) : usdAt t = false := by
  match t, h with
  | [], _ => rfl
  | [a], _ => rfl
  | [a, b], _ => rfl

lemma Sub.usdAt_false {s z : Str} (h : Sub s z) (hu : usdAt s = false) :
    usdAt z = false := by
  rcases h.head_shape with ⟨hs, hz⟩ | ⟨z', hz⟩ | ⟨c, cs, z', hs, hz, hm, hsub⟩
  · subst hz; rfl
  · subst hz
    cases z' with
    | nil => rfl
    | cons b t =>
      cases t with
      | nil => rfl
      | cons d t' => simp [usdAt_cons₃]
  · subst hs; subst hz
    by_cases hcU : c = 'U' ∨ c = 'u'
    · cases cs with
      | nil => rw [hsub.nil_inv]; rfl
      | cons b cs' =>
        rcases hsub.head_shape with ⟨hs2, hz2⟩ | ⟨z2, hz2⟩ | ⟨c2, cs2, z2, hs2, hz2, hm2, hsub2⟩
        · exact absurd hs2 (List.cons_ne_nil b cs')
        · subst hz2
          cases z2 with
          | nil => rfl
          | cons x xs =>
            simp only [usdAt_cons₃]
            have hb : ('[' = 'S' || '[' = 's') = false := by decide
            rw [hb]
            simp
        · injection hs2 with h1 h2
          subst h1; subst h2
          rw [hz2]
          by_cases hbS : b = 'S' ∨ b = 's'
          · cases cs' with
            | nil =>
              rw [hsub2.nil_inv]
              rfl
            | cons d cs'' =>
              have hdD : (d = 'D' ∨ d = 'd') → False := by
                intro hd
                rcases hcU with hc | hc <;> rcases hbS with hb | hb <;>
                  rcases hd with hd | hd <;> subst hc <;> subst hb <;> subst hd <;>
                  simp [usdAt_cons₃] at hu
              rcases hsub2.head_shape with ⟨hs3, hz3⟩ | ⟨z3, hz3⟩ | ⟨c3, cs3, z3, hs3, hz3, hm3, _⟩
              · exact absurd hs3 (List.cons_ne_nil d cs'')
              · subst hz3
                simp only [usdAt_cons₃]
                have : ('[' = 'D' || '[' = 'd') = false := by decide
                rw [this]
                simp
              · injection hs3 with h31 h32
                subst h31
                rw [hz3]
                simp only [usdAt_cons₃]
                have h1 : (d = 'D') = False := eq_false fun hh => hdD (Or.inl hh)
                have h2 : (d = 'd') = False := eq_false fun hh => hdD (Or.inr hh)
                simp [h1, h2]
          · push_neg at hbS
            cases z2 with
            | nil => rfl
            | cons x xs =>
              simp only [usdAt_cons₃]
              have h1 : (b = 'S') = False := eq_false hbS.1
              have h2 : (b = 's') = False := eq_false hbS.2
              simp [h1, h2]
    · push_neg at hcU
      cases z' with
      | nil => rfl
      | cons b t =>
        cases t with
        | nil => rfl
        | cons d t' =>
          simp only [usdAt_cons₃]
          have h1 : (c = 'U') = False := eq_false hcU.1
          have h2 : (c = 'u') = False := eq_false hcU.2
          simp [h1, h2]

lemma Sub.wsOptUSD_none {s z : Str} (h : Sub s z) (hn : wsOptUSD s = none) :
    wsOptUSD z = none := by
  have hus : usdAt s = false := by
    by_cases hu : usdAt s = true
    · simp [wsOptUSD, hu] at hn
    · exact Bool.eq_false_iff.mpr hu
  have huz : usdAt z = false := h.usdAt_false hus
  rcases h.head_shape with ⟨hs, hz⟩ | ⟨z', hz⟩ | ⟨c, cs, z', hs, hz, hm, hsub⟩
  · subst hz; rfl
  · subst hz
    have h2 : isPySpace '[' = false := by decide
    simp [wsOptUSD, huz, h2]
  · subst hs; subst hz
    by_cases hp : isPySpace c = true
    · have hcs : usdAt cs = false := by
        by_cases hc : usdAt cs = true
        · simp [wsOptUSD, hus, hp, hc] at hn
        · exact Bool.eq_false_iff.mpr hc
      have : usdAt z' = false := hsub.usdAt_false hcs
      simp [wsOptUSD, huz, hp, this]
    · simp [wsOptUSD, huz, hp]

lemma hasCurrency_cons (c : Char) (t : Str) :
    hasCurrency (c :: t) = ((matchCurAt (c :: t)).isSome || hasCurrency t) := rfl

lemma hasCurrency_append_nontrigger :
    ∀ (p t : Str), (∀ c ∈ p, curTrigger c = false) → hasCurrency (p ++ t) = hasCurrency t := by
  intro p
  induction p with
  | nil => intro t _; rfl
  | cons c p ih =>
    intro t hp
    have hc : curTrigger c = false := hp c (List.mem_cons_self c p)
    have hnone := matchCurAt_nontrigger hc (p ++ t)
    simp only [List.cons_append, hasCurrency_cons, hnone, Option.isSome_none, Bool.false_or]
    exact ih t fun d hd => hp d (List.mem_cons_of_mem c hd)

lemma priceRepl_nontrigger : ∀ c ∈ priceRepl, curTrigger c = false := by decide

lemma digitRun_digits_append : ∀ (R T : Str), (∀ d ∈ R, isDig d = true) →
    (∀ c cs, T = c :: cs → isDig c = false) → digitRun (R ++ T) = R.length := by
  intro R
  induction R with
  | nil =>
    intro T _ hT
    cases T with
    | nil => rfl
    | cons c cs => simp [digitRun_cons, hT c cs rfl]
  | cons d R ih =>
    intro T hR hT
    have hd : isDig d = true := hR d (List.mem_cons_self d R)
    simp only [List.cons_append, digitRun_cons, hd, if_true, List.length_cons]
    rw [ih T (fun x hx => hR x (List.mem_cons_of_mem d hx)) hT]

lemma dropWhile_head_false (p : Char → Bool) :
    ∀ (l : Str) c cs, l.dropWhile p = c :: cs → p c = false := by
  intro l
  induction l with
  | nil => intro c cs h; exact absurd h (by simp [List.dropWhile])
  | cons a l ih =>
    intro c cs h
    by_cases hpa : p a = true
    · rw [List.dropWhile_cons, if_pos hpa] at h
      exact ih c cs h
    · rw [List.dropWhile_cons, if_neg hpa] at h
      injection h with h1 _
      subst h1
      exact Bool.eq_false_iff.mpr hpa

lemma matchCurAt_Uu {c : Char} (h : c = 'U' ∨ c = 'u') (b d : Char) (rest : Str) :
    matchCurAt (c :: b :: d :: rest) =
      (if ((b = 'S' || b = 's') && (d = 'D' || d = 'd')) = true then
        (wsOptDigits rest).map (· + 3) else none) := by
  rcases h with h | h <;> subst h <;> rfl

lemma Sub.digits_decomp : ∀ (R : Str) {T z : Str}, Sub (R ++ T) z →
    (∀ x ∈ R, isDig x = true) → (∀ x xs, T = x :: xs → isDig x = false) →
    wsOptUSD T = none → ∃ zT, z = R ++ zT ∧ Sub T zT := by
  intro R
  induction R with
  | nil =>
    intro T z h _ _ _
    exact ⟨z, rfl, h⟩
  | cons d R ih =>
    intro T z h hR hT hw
    have hd : isDig d = true := hR d (List.mem_cons_self d R)
    have hnm : matchCurAt (d :: (R ++ T)) = none := by
      rw [matchCurAt_digit hd]
      have hrun : digitRun (R ++ T) = R.length :=
        digitRun_digits_append R T (fun x hx => hR x (List.mem_cons_of_mem d hx)) hT
      rw [hrun, List.drop_left, hw]
      rfl
    rw [List.cons_append] at h
    cases h with
    | repl hm2 _ => rw [hnm] at hm2; cases hm2
    | keep hm2 hs2 =>
      obtain ⟨zT, hz, hsT⟩ := ih hs2 (fun x hx => hR x (List.mem_cons_of_mem d hx)) hT hw
      exact ⟨zT, by simp [List.cons_append, hz], hsT⟩

lemma drop_digitRun (cs : Str) : cs.drop (digitRun cs) = cs.dropWhile isDig := by
  induction cs with
  | nil => rfl
  | cons c cs ih =>
    rw [digitRun_cons, List.dropWhile_cons]
    by_cases hc : isDig c = true
    · simp only [hc, if_true, List.drop_succ_cons]
      exact ih
    · simp [hc]

lemma Sub.cross {c : Char} {cs z : Str} (hm : matchCurAt (c :: cs) = none)
    (hsub : Sub cs z) : matchCurAt (c :: z) = none := by
  by_cases h1 : c = '$'
  · subst h1
    have hw : wsOptDigits cs = none := by
      have h0 : matchCurAt ('$' :: cs) = (wsOptDigits cs).map (· + 1) := rfl
      rw [h0] at hm
      exact Option.map_eq_none'.mp hm
    have h0 : matchCurAt ('$' :: z) = (wsOptDigits z).map (· + 1) := rfl
    rw [h0, hsub.wsOptDigits_none hw]
    rfl
  · by_cases h2 : c = 'U' ∨ c = 'u'
    · cases cs with
      | nil =>
        rw [hsub.nil_inv]
        exact hm
      | cons b cs' =>
        cases cs' with
        | nil =>
          have hz : z = [b] := by
            cases hsub with
            | repl hm2 _ =>
              rw [matchCurAt_singleton] at hm2
              cases hm2
            | keep hm2 hs2 => rw [hs2.nil_inv]
          rw [hz]
          rcases h2 with h | h <;> subst h <;> rfl
        | cons d rest =>
          rw [matchCurAt_Uu h2 b d rest] at hm
          by_cases hSD : ((b = 'S' || b = 's') && (d = 'D' || d = 'd')) = true
          · rw [if_pos hSD] at hm
            have hw : wsOptDigits rest = none := Option.map_eq_none'.mp hm
            obtain ⟨hb, hd⟩ : (b = 'S' ∨ b = 's') ∧ (d = 'D' ∨ d = 'd') := by
              simp only [Bool.and_eq_true, Bool.or_eq_true, decide_eq_true_eq] at hSD
              exact hSD
            have hbt : curTrigger b = false := by
              rcases hb with h | h <;> subst h <;> decide
            have hdt : curTrigger d = false := by
              rcases hd with h | h <;> subst h <;> decide
            obtain ⟨z2, hz2, hsub2⟩ : ∃ z2, z = b :: z2 ∧ Sub (d :: rest) z2 := by
              cases hsub with
              | repl hm2 _ =>
                rw [matchCurAt_nontrigger hbt] at hm2
                cases hm2
              | keep hm2 hs2 => exact ⟨_, rfl, hs2⟩
            obtain ⟨z3, hz3, hsub3⟩ : ∃ z3, z2 = d :: z3 ∧ Sub rest z3 := by
              cases hsub2 with
              | repl hm3 _ =>
                rw [matchCurAt_nontrigger hdt] at hm3
                cases hm3
              | keep hm3 hs3 => exact ⟨_, rfl, hs3⟩
            rw [hz2, hz3, matchCurAt_Uu h2 b d z3, if_pos hSD,
              hsub3.wsOptDigits_none hw]
            rfl
          · have hbd : (b = 'S' ∨ b = 's') → (d = 'D' ∨ d = 'd') → False := by
              intro hb hd
              rcases hb with h | h <;> rcases hd with h' | h' <;> subst h <;> subst h' <;>
                simp at hSD
            rcases hsub.head_shape with ⟨hs2, _⟩ | ⟨z2, hz2⟩ | ⟨c2, cs2, z2, hs2, hz2, hm2, hsub2⟩
            · exact absurd hs2 (List.cons_ne_nil b (d :: rest))
            · subst hz2
              cases z2 with
              | nil => rcases h2 with h | h <;> subst h <;> rfl
              | cons x xs =>
                have hfalse : (('[' = 'S' || '[' = 's') && (x = 'D' || x = 'd')) = false := by
                  have h9 : ('[' = 'S' || '[' = 's') = false := by decide
                  rw [h9]
                  simp
                rw [matchCurAt_Uu h2 '[' x xs]
                simp [hfalse]
            · injection hs2 with hb1 hb2
              subst hb1
              subst hb2
              rw [hz2]
              by_cases hbS : b = 'S' ∨ b = 's'
              · have hdD : (d = 'D' ∨ d = 'd') → False := hbd hbS
                rcases hsub2.head_shape with ⟨hs3, _⟩ | ⟨z3, hz3⟩ | ⟨c3, cs3, z3, hs3, hz3, hm3, hsub3⟩
                · exact absurd hs3 (List.cons_ne_nil d rest)
                · subst hz3
                  have hfalse : ((b = 'S' || b = 's') && ('[' = 'D' || '[' = 'd')) = false := by
                    have h9 : ('[' = 'D' || '[' = 'd') = false := by decide
                    rw [h9]
                    simp
                  rw [matchCurAt_Uu h2 b '[' z3]
                  simp [hfalse]
                · injection hs3 with hd1 hd2
                  subst hd1
                  rw [hz3]
                  have h91 : (d = 'D') = False := eq_false fun hh => hdD (Or.inl hh)
                  have h92 : (d = 'd') = False := eq_false fun hh => hdD (Or.inr hh)
                  rw [matchCurAt_Uu h2 b d z3]
                  simp [h91, h92]
              · push_neg at hbS
                cases z2 with
                | nil => rcases h2 with h | h <;> subst h <;> rfl
                | cons x xs =>
                  have h91 : (b = 'S') = False := eq_false hbS.1
                  have h92 : (b = 's') = False := eq_false hbS.2
                  rw [matchCurAt_Uu h2 b x xs]
                  simp [h91, h92]
    · push_neg at h2
      by_cases h3 : isDig c = true
      · have hwT : wsOptUSD (cs.dropWhile isDig) = none := by
          rw [matchCurAt_digit h3, drop_digitRun] at hm
          exact Option.map_eq_none'.mp hm
        have hcs : cs.takeWhile isDig ++ cs.dropWhile isDig = cs :=
          List.takeWhile_append_dropWhile isDig cs
        have hR : ∀ x ∈ cs.takeWhile isDig, isDig x = true :=
          fun x hx => List.mem_takeWhile_imp hx
        have hT : ∀ x xs, cs.dropWhile isDig = x :: xs → isDig x = false :=
          fun x xs hx => dropWhile_head_false isDig cs x xs hx
        have hsub' : Sub (cs.takeWhile isDig ++ cs.dropWhile isDig) z := by
          rw [hcs]
          exact hsub
        obtain ⟨zT, hz, hsT⟩ := Sub.digits_decomp (cs.takeWhile isDig) hsub' hR hT hwT
        have hTz : ∀ x xs, zT = x :: xs → isDig x = false := by
          intro x xs hx
          rcases hsT.head_shape with ⟨hT1, hz1⟩ | ⟨z1, hz1⟩ | ⟨c2, cs2, z2, hT2, hz2, _, _⟩
          · rw [hz1] at hx
            cases hx
          · rw [hz1] at hx
            injection hx with h9 _
            subst h9
            decide
          · rw [hz2] at hx
            injection hx with h9 _
            subst h9
            exact hT c2 cs2 hT2
        rw [hz, matchCurAt_digit h3]
        have hrunz : digitRun (cs.takeWhile isDig ++ zT) = (cs.takeWhile isDig).length :=
          digitRun_digits_append (cs.takeWhile isDig) zT hR hTz
        rw [hrunz, List.drop_left, hsT.wsOptUSD_none hwT]
        rfl
      · refine matchCurAt_nontrigger ?_ z
        simp [curTrigger, h1, h2.1, h2.2, h3]

lemma Sub.hasCurrency_false {s z : Str} (h : Sub s z) : hasCurrency z = false := by
  induction h with
  | nil => rfl
  | repl hm hs ih =>
    rw [hasCurrency_append_nontrigger priceRepl _ priceRepl_nontrigger]
    exact ih
  | keep hm hs ih =>
    rw [hasCurrency_cons, Sub.cross hm hs, ih]
    rfl

lemma hasCurrency_currencySub (s : Str) : hasCurrency (currencySub s) = false :=
  (sub_of_fuel s.length s le_rfl).hasCurrency_false

lemma pySpace_not_dig {c : Char} (h : isPySpace c = true) : isDig c = false := by
  rcases pySpace_cases c h with h | h | h | h | h | h <;> subst h <;> decide

lemma pySpace_not_sd {c : Char} (h : isPySpace c = true) :
    (c = 'S') = False ∧ (c = 's') = False ∧ (c = 'D') = False ∧ (c = 'd') = False ∧
    (c = 'U') = False ∧ (c = 'u') = False := by
  rcases pySpace_cases c h with h | h | h | h | h | h <;> subst h <;>
    exact ⟨eq_false (by decide), eq_false (by decide), eq_false (by decide),
      eq_false (by decide), eq_false (by decide), eq_false (by decide)⟩

lemma isSome_map (f : Nat → Nat) (o : Option Nat) : (o.map f).isSome = o.isSome := by
  cases o <;> rfl

lemma digitRun_append_ws {t : Str} (ht : ∀ c ∈ t, isPySpace c = true) :
    ∀ u : Str, digitRun (u ++ t) = digitRun u := by
  intro u
  induction u with
  | nil =>
    cases t with
    | nil => rfl
    | cons c cs =>
      have hc : isDig c = false := pySpace_not_dig (ht c (List.mem_cons_self c cs))
      simp [digitRun, digitRun_cons, hc]
  | cons a u ih =>
    rw [List.cons_append, digitRun_cons, digitRun_cons, ih]

lemma wsOptDigits_append_ws {t : Str} (ht : ∀ c ∈ t, isPySpace c = true) :
    ∀ u : Str, (wsOptDigits (u ++ t)).isSome = (wsOptDigits u).isSome := by
  intro u
  cases u with
  | nil =>
    cases t with
    | nil => rfl
    | cons c cs =>
      have hcs : isPySpace c = true := ht c (List.mem_cons_self c cs)
      have hc : isDig c = false := pySpace_not_dig hcs
      cases cs with
      | nil => simp [wsOptDigits, hc, hcs]
      | cons d ds =>
        have hd : isDig d = false :=
          pySpace_not_dig (ht d (List.mem_cons_of_mem c (List.mem_cons_self d ds)))
        simp [wsOptDigits, hc, hcs, hd]
  | cons a u' =>
    by_cases ha : isDig a = true
    · simp [wsOptDigits, ha]
    · by_cases hs : isPySpace a = true
      · cases u' with
        | nil =>
          cases t with
          | nil => simp
          | cons e es =>
            have he : isDig e = false := pySpace_not_dig (ht e (List.mem_cons_self e es))
            simp [wsOptDigits, ha, hs, he]
        | cons e es =>
          cases he : isDig e <;> simp [wsOptDigits, ha, hs, he]
      · simp [wsOptDigits, ha, hs]

lemma usdAt_ws_first {c : Char} (hc : isPySpace c = true) (r : Str) : usdAt (c :: r) = false := by
  have h := pySpace_not_sd hc
  cases r with
  | nil => rfl
  | cons b r' =>
    cases r' with
    | nil => rfl
    | cons d r'' =>
      rw [usdAt_cons₃]
      simp [h.2.2.2.2.1, h.2.2.2.2.2]

lemma usdAt_append_ws {t : Str} (ht : ∀ c ∈ t, isPySpace c = true) :
    ∀ u : Str, usdAt (u ++ t) = usdAt u := by
  intro u
  match u with
  | a :: b :: c :: r => rfl
  | [] =>
    cases t with
    | nil => rfl
    | cons c cs =>
      rw [List.nil_append]
      exact usdAt_ws_first (ht c (List.mem_cons_self c cs)) cs
  | [a] =>
    cases t with
    | nil => rfl
    | cons b ts =>
      have hb := pySpace_not_sd (ht b (List.mem_cons_self b ts))
      cases ts with
      | nil => rfl
      | cons d ds =>
        have hR : usdAt [a] = false := rfl
        rw [hR]
        simp only [List.cons_append, List.nil_append, usdAt_cons₃]
        simp [hb.1, hb.2.1]
  | [a, b] =>
    cases t with
    | nil => rfl
    | cons d ds =>
      have hd := pySpace_not_sd (ht d (List.mem_cons_self d ds))
      have hR : usdAt [a, b] = false := rfl
      rw [hR]
      simp only [List.cons_append, List.nil_append, usdAt_cons₃]
      simp [hd.2.2.1, hd.2.2.2.1]

lemma wsOptUSD_cons (c : Char) (cs : Str) :
    wsOptUSD (c :: cs) = if usdAt (c :: cs) then some 3
      else if isPySpace c then (if usdAt cs then some 4 else none) else none := rfl

lemma wsOptUSD_append_ws {t : Str} (ht : ∀ c ∈ t, isPySpace c = true) :
    ∀ u : Str, (wsOptUSD (u ++ t)).isSome = (wsOptUSD u).isSome := by
  intro u
  cases u with
  | nil =>
    cases t with
    | nil => rfl
    | cons c cs =>
      have hc := ht c (List.mem_cons_self c cs)
      have h1 : usdAt (c :: cs) = false := usdAt_ws_first hc cs
      have hcs : usdAt cs = false := by
        cases cs with
        | nil => rfl
        | cons d ds =>
          exact usdAt_ws_first (ht d (List.mem_cons_of_mem c (List.mem_cons_self d ds))) ds
      have hL : wsOptUSD (c :: cs) = none := by simp [wsOptUSD_cons, h1, hc, hcs]
      rw [List.nil_append, hL]
      rfl
  | cons a u' =>
    have h1 : usdAt (a :: (u' ++ t)) = usdAt (a :: u') := by
      have := usdAt_append_ws ht (a :: u')
      rw [List.cons_append] at this
      exact this
    have h2 : usdAt (u' ++ t) = usdAt u' := usdAt_append_ws ht u'
    rw [List.cons_append, wsOptUSD_cons, wsOptUSD_cons, h1, h2]

lemma digitRun_le : ∀ s : Str, digitRun s ≤ s.length := by
  intro s
  induction s with
  | nil => exact Nat.le_refl 0
  | cons c cs ih =>
    rw [digitRun_cons]
    by_cases hc : isDig c = true
    · rw [if_pos hc, List.length_cons]
      omega
    · rw [if_neg hc]
      exact Nat.zero_le _

lemma drop_append_le : ∀ (l₁ : Str) (n : Nat), n ≤ l₁.length →
    ∀ l₂ : Str, (l₁ ++ l₂).drop n = l₁.drop n ++ l₂ := by
  intro l₁
  induction l₁ with
  | nil =>
    intro n hn l₂
    have : n = 0 := Nat.le_zero.mp hn
    subst this
    rfl
  | cons a l ih =>
    intro n hn l₂
    cases n with
    | zero => rfl
    | succ m =>
      rw [List.cons_append, List.drop_succ_cons, List.drop_succ_cons]
      exact ih m (by simpa using hn) l₂

lemma matchCurAt_append_ws {t : Str} (ht : ∀ c ∈ t, isPySpace c = true) :
    ∀ u : Str, (matchCurAt (u ++ t)).isSome = (matchCurAt u).isSome := by
  intro u
  cases u with
  | nil =>
    cases t with
    | nil => rfl
    | cons c cs =>
      rw [List.nil_append,
        matchCurAt_nontrigger (pySpace_trigger (ht c (List.mem_cons_self c cs))) cs]
      rfl
  | cons a u' =>
    simp only [List.cons_append, List.nil_append]
    by_cases h1 : a = '$'
    · subst h1
      have e1 : matchCurAt ('$' :: (u' ++ t)) = (wsOptDigits (u' ++ t)).map (· + 1) := rfl
      have e2 : matchCurAt ('$' :: u') = (wsOptDigits u').map (· + 1) := rfl
      rw [e1, e2, isSome_map, isSome_map]
      exact wsOptDigits_append_ws ht u'
    · by_cases h2 : a = 'U' ∨ a = 'u'
      · cases u' with
        | nil =>
          cases t with
          | nil => rfl
          | cons b ts =>
            have hb := pySpace_not_sd (ht b (List.mem_cons_self b ts))
            cases ts with
            | nil => rcases h2 with h | h <;> subst h <;> rfl
            | cons d ds =>
              rw [List.nil_append, matchCurAt_Uu h2 b d ds]
              have hC : ((b = 'S' || b = 's') && (d = 'D' || d = 'd')) = false := by
                simp [hb.1, hb.2.1]
              simp [hC, matchCurAt_singleton]
        | cons b u'' =>
          cases u'' with
          | nil =>
            cases t with
            | nil => rfl
            | cons d ds =>
              have hd := pySpace_not_sd (ht d (List.mem_cons_self d ds))
              simp only [List.cons_append, List.nil_append]
              rw [matchCurAt_Uu h2 b d ds]
              have hC : ((b = 'S' || b = 's') && (d = 'D' || d = 'd')) = false := by
                simp [hd.2.2.1, hd.2.2.2.1]
              have hR : matchCurAt (a :: [b]) = none := by
                rcases h2 with h | h <;> subst h <;> rfl
              simp [hC, hR]
          | cons d rest =>
            simp only [List.cons_append]
            rw [matchCurAt_Uu h2 b d (rest ++ t), matchCurAt_Uu h2 b d rest]
            by_cases hC : ((b = 'S' || b = 's') && (d = 'D' || d = 'd')) = true
            · rw [if_pos hC, if_pos hC, isSome_map, isSome_map]
              exact wsOptDigits_append_ws ht rest
            · rw [if_neg hC, if_neg hC]
      · push_neg at h2
        by_cases h3 : isDig a = true
        · rw [matchCurAt_digit h3, matchCurAt_digit h3, digitRun_append_ws ht u',
            drop_append_le u' (digitRun u') (digitRun_le u') t, isSome_map, isSome_map]
          exact wsOptUSD_append_ws ht _
        · have hT : curTrigger a = false := by simp [curTrigger, h1, h2.1, h2.2, h3]
          rw [matchCurAt_nontrigger hT, matchCurAt_nontrigger hT]

lemma hasCurrency_ws {t : Str} (ht : ∀ c ∈ t, isPySpace c = true) : hasCurrency t = false := by
  induction t with
  | nil => rfl
  | cons c cs ih =>
    rw [hasCurrency_cons,
      matchCurAt_nontrigger (pySpace_trigger (ht c (List.mem_cons_self c cs))) cs,
      ih fun d hd => ht d (List.mem_cons_of_mem c hd)]
    rfl

lemma hasCurrency_append_ws_congr {t t' : Str} (ht : ∀ c ∈ t, isPySpace c = true)
    (ht' : ∀ c ∈ t', isPySpace c = true) :
    ∀ u : Str, hasCurrency (u ++ t) = hasCurrency (u ++ t') := by
  intro u
  induction u with
  | nil => rw [List.nil_append, List.nil_append, hasCurrency_ws ht, hasCurrency_ws ht']
  | cons a u ih =>
    rw [List.cons_append, List.cons_append, hasCurrency_cons, hasCurrency_cons, ih]
    have hA : (matchCurAt (a :: (u ++ t))).isSome = (matchCurAt (a :: u)).isSome := by
      have := matchCurAt_append_ws ht (a :: u)
      rw [List.cons_append] at this
      exact this
    have hB : (matchCurAt (a :: (u ++ t'))).isSome = (matchCurAt (a :: u)).isSome := by
      have := matchCurAt_append_ws ht' (a :: u)
      rw [List.cons_append] at this
      exact this
    rw [hA, hB]

lemma hasCurrency_tail {c : Char} {cs : Str} (h : hasCurrency (c :: cs) = false) :
    hasCurrency cs = false := by
  rw [hasCurrency_cons] at h
  exact (Bool.or_eq_false_iff.mp h).2

lemma hasCurrency_dropWhile (p : Char → Bool) :
    ∀ s : Str, hasCurrency s = false → hasCurrency (s.dropWhile p) = false := by
  intro s
  induction s with
  | nil => intro h; exact h
  | cons c cs ih =>
    intro h
    rw [List.dropWhile_cons]
    by_cases hc : p c = true
    · rw [if_pos hc]
      exact ih (hasCurrency_tail h)
    · rw [if_neg hc]
      exact h

lemma mem_reverse_takeWhile_ws (s : Str) :
    ∀ c ∈ (s.reverse.takeWhile isPySpace).reverse, isPySpace c = true := by
  intro c hc
  rw [List.mem_reverse] at hc
  exact List.mem_takeWhile_imp hc

lemma stripR_decomp (s : Str) : stripR s ++ (s.reverse.takeWhile isPySpace).reverse = s := by
  rw [stripR, ← List.reverse_append, List.takeWhile_append_dropWhile, List.reverse_reverse]

lemma hasCurrency_stripR {s : Str} (h : hasCurrency s = false) :
    hasCurrency (stripR s) = false := by
  have hnil : ∀ c ∈ ([] : Str), isPySpace c = true := by intro c hc; cases hc
  have hc := hasCurrency_append_ws_congr (mem_reverse_takeWhile_ws s) hnil (stripR s)
  rw [stripR_decomp s, List.append_nil] at hc
  rw [← hc]
  exact h

lemma hasCurrency_stripB {s : Str} (h : hasCurrency s = false) :
    hasCurrency (stripB s) = false :=
  hasCurrency_dropWhile isPySpace _ (hasCurrency_stripR h)

lemma hasCurrency_rFinal (ans : Str) : hasCurrency (rFinal ans) = false := by
  have h1 : hasCurrency (stripB (currencySub ans)) = false :=
    hasCurrency_stripB (hasCurrency_currencySub ans)
  have hnl : ∀ c ∈ lit "\n", isPySpace c = true := by decide
  have hnil : ∀ c ∈ ([] : Str), isPySpace c = true := by intro c hc; cases hc
  have hc := hasCurrency_append_ws_congr hnil hnl (stripB (currencySub ans))
  rw [List.append_nil] at hc
  simp only [rFinal]
  rw [← hc]
  exact h1

theorem eqS_eq : ∀ {a b : Str}, eqS a b = true → a = b := by
  intro a
  induction a with
  | nil =>
    intro b h
    cases b with
    | nil => rfl
    | cons d ds => simp [eqS] at h
  | cons c cs ih =>
    intro b h
    cases b with
    | nil => simp [eqS] at h
    | cons d ds =>
      simp only [eqS, Bool.and_eq_true, beq_iff_eq] at h
      rw [h.1, ih h.2]

theorem eqS_refl (a : Str) : eqS a a = true := by
  induction a <;> simp [eqS, *]

theorem c6Stage1 : rDisclaim c6State.constraints c6State.final_answer = lit "## Flights\nbooked\n\nNote: Visa/health requirements vary; verify with official sources (this is not legal advice)." :=
  eqS_eq (by decide)

theorem c6Stage2 : rAssum c6State.constraints (lit "## Flights\nbooked\n\nNote: Visa/health requirements vary; verify with official sources (this is not legal advice).") = lit "## Flights\nbooked\n\nNote: Visa/health requirements vary; verify with official sources (this is not legal advice).\n## Assumptions\n- start date: not provided\n- end date: not provided\n- origin: not provided\n- budget: not provided\n- travelers: not provided\n" :=
  eqS_eq (by decide)

theorem c6Stage3 : rRequired (lit "## Flights\nbooked\n\nNote: Visa/health requirements vary; verify with official sources (this is not legal advice).\n## Assumptions\n- start date: not provided\n- end date: not provided\n- origin: not provided\n- budget: not provided\n- travelers: not provided\n") = lit "## Flights\nbooked\n\nNote: Visa/health requirements vary; verify with official sources (this is not legal advice).\n## Assumptions\n- start date: not provided\n- end date: not provided\n- origin: not provided\n- budget: not provided\n- travelers: not provided\n\n## Summary\n\n## Lodging\n\n## Day-by-day\n\n## Transit\n\n## Weather\n\n## Calendar\n" :=
  eqS_eq (by decide)

theorem c6Stage4 : rFlights c6State.constraints c6State.tool_results (lit "## Flights\nbooked\n\nNote: Visa/health requirements vary; verify with official sources (this is not legal advice).\n## Assumptions\n- start date: not provided\n- end date: not provided\n- origin: not provided\n- budget: not provided\n- travelers: not provided\n\n## Summary\n\n## Lodging\n\n## Day-by-day\n\n## Transit\n\n## Weather\n\n## Calendar\n") = lit "## Flights\n- Provide `origin` and `start_date` to generate flight search links.\n## Assumptions\n- start date: not provided\n- end date: not provided\n- origin: not provided\n- budget: not provided\n- travelers: not provided\n\n## Summary\n\n## Lodging\n\n## Day-by-day\n\n## Transit\n\n## Weather\n\n## Calendar\n" :=
  eqS_eq (by decide)

theorem c6Stage5 : rLodging c6State.constraints c6State.tool_results (lit "## Flights\n- Provide `origin` and `start_date` to generate flight search links.\n## Assumptions\n- start date: not provided\n- end date: not provided\n- origin: not provided\n- budget: not provided\n- travelers: not provided\n\n## Summary\n\n## Lodging\n\n## Day-by-day\n\n## Transit\n\n## Weather\n\n## Calendar\n") = lit "## Flights\n- Provide `origin` and `start_date` to generate flight search links.\n## Assumptions\n- start date: not provided\n- end date: not provided\n- origin: not provided\n- budget: not provided\n- travelers: not provided\n\n## Summary\n\n## Lodging\n- Provide `start_date` and `end_date` to generate lodging search links.\n## Day-by-day\n\n## Transit\n\n## Weather\n\n## Calendar\n" :=
  eqS_eq (by decide)

theorem c6Stage6 : rThings c6State.constraints c6State.tool_results (lit "## Flights\n- Provide `origin` and `start_date` to generate flight search links.\n## Assumptions\n- start date: not provided\n- end date: not provided\n- origin: not provided\n- budget: not provided\n- travelers: not provided\n\n## Summary\n\n## Lodging\n- Provide `start_date` and `end_date` to generate lodging search links.\n## Day-by-day\n\n## Transit\n\n## Weather\n\n## Calendar\n") = lit "## Flights\n- Provide `origin` and `start_date` to generate flight search links.\n## Assumptions\n- start date: not provided\n- end date: not provided\n- origin: not provided\n- budget: not provided\n- travelers: not provided\n\n## Summary\n\n## Lodging\n- Provide `start_date` and `end_date` to generate lodging search links.\n## Day-by-day\n\n## Transit\n\n## Weather\n\n## Calendar\n\n## Things to do\n- [Google Maps (things to do)](https://www.google.com/maps/search/?api=1&query=Things+to+do+in+Tokyo)\n" :=
  eqS_eq (by decide)

theorem c6Stage7 : rWeather c6State.constraints c6State.tool_results (lit "## Flights\n- Provide `origin` and `start_date` to generate flight search links.\n## Assumptions\n- start date: not provided\n- end date: not provided\n- origin: not provided\n- budget: not provided\n- travelers: not provided\n\n## Summary\n\n## Lodging\n- Provide `start_date` and `end_date` to generate lodging search links.\n## Day-by-day\n\n## Transit\n\n## Weather\n\n## Calendar\n\n## Things to do\n- [Google Maps (things to do)](https://www.google.com/maps/search/?api=1&query=Things+to+do+in+Tokyo)\n") = lit "## Flights\n- Provide `origin` and `start_date` to generate flight search links.\n## Assumptions\n- start date: not provided\n- end date: not provided\n- origin: not provided\n- budget: not provided\n- travelers: not provided\n\n## Summary\n\n## Lodging\n- Provide `start_date` and `end_date` to generate lodging search links.\n## Day-by-day\n\n## Transit\n\n## Weather\n- [Weather search](https://www.google.com/search?q=Tokyo+weather)\n## Calendar\n\n## Things to do\n- [Google Maps (things to do)](https://www.google.com/maps/search/?api=1&query=Things+to+do+in+Tokyo)\n" :=
  eqS_eq (by decide)

theorem c6Stage8 : rTransit (lit "## Flights\n- Provide `origin` and `start_date` to generate flight search links.\n## Assumptions\n- start date: not provided\n- end date: not provided\n- origin: not provided\n- budget: not provided\n- travelers: not provided\n\n## Summary\n\n## Lodging\n- Provide `start_date` and `end_date` to generate lodging search links.\n## Day-by-day\n\n## Transit\n\n## Weather\n- [Weather search](https://www.google.com/search?q=Tokyo+weather)\n## Calendar\n\n## Things to do\n- [Google Maps (things to do)](https://www.google.com/maps/search/?api=1&query=Things+to+do+in+Tokyo)\n") = lit "## Flights\n- Provide `origin` and `start_date` to generate flight search links.\n## Assumptions\n- start date: not provided\n- end date: not provided\n- origin: not provided\n- budget: not provided\n- travelers: not provided\n\n## Summary\n\n## Lodging\n- Provide `start_date` and `end_date` to generate lodging search links.\n## Day-by-day\n\n## Transit\n- Use Google Maps for live routing.\n- Prefer public transit/walking in city centers; rideshare/taxi late night.\n- Build buffer time for traffic and station navigation.\n## Weather\n- [Weather search](https://www.google.com/search?q=Tokyo+weather)\n## Calendar\n\n## Things to do\n- [Google Maps (things to do)](https://www.google.com/maps/search/?api=1&query=Things+to+do+in+Tokyo)\n" :=
  eqS_eq (by decide)

theorem c6Stage9 : rDay c6State.constraints (lit "## Flights\n- Provide `origin` and `start_date` to generate flight search links.\n## Assumptions\n- start date: not provided\n- end date: not provided\n- origin: not provided\n- budget: not provided\n- travelers: not provided\n\n## Summary\n\n## Lodging\n- Provide `start_date` and `end_date` to generate lodging search links.\n## Day-by-day\n\n## Transit\n- Use Google Maps for live routing.\n- Prefer public transit/walking in city centers; rideshare/taxi late night.\n- Build buffer time for traffic and station navigation.\n## Weather\n- [Weather search](https://www.google.com/search?q=Tokyo+weather)\n## Calendar\n\n## Things to do\n- [Google Maps (things to do)](https://www.google.com/maps/search/?api=1&query=Things+to+do+in+Tokyo)\n") = lit "## Flights\n- Provide `origin` and `start_date` to generate flight search links.\n## Assumptions\n- start date: not provided\n- end date: not provided\n- origin: not provided\n- budget: not provided\n- travelers: not provided\n\n## Summary\n\n## Lodging\n- Provide `start_date` and `end_date` to generate lodging search links.\n## Day-by-day\n- Day 1: Arrival + neighborhood walk + street food in Tokyo.\n- Day 2: Top sights + museum/garden + evening market.\n- Day 3: Day trip or nature walk + local cuisine.\n- Day 4: Cultural highlights + shopping + relax.\n- Day 5: Flexible day + departure.\n## Transit\n- Use Google Maps for live routing.\n- Prefer public transit/walking in city centers; rideshare/taxi late night.\n- Build buffer time for traffic and station navigation.\n## Weather\n- [Weather search](https://www.google.com/search?q=Tokyo+weather)\n## Calendar\n\n## Things to do\n- [Google Maps (things to do)](https://www.google.com/maps/search/?api=1&query=Things+to+do+in+Tokyo)\n" :=
  eqS_eq (by decide)

theorem c6Stage10 : rBudget c6State.constraints (lit "## Flights\n- Provide `origin` and `start_date` to generate flight search links.\n## Assumptions\n- start date: not provided\n- end date: not provided\n- origin: not provided\n- budget: not provided\n- travelers: not provided\n\n## Summary\n\n## Lodging\n- Provide `start_date` and `end_date` to generate lodging search links.\n## Day-by-day\n- Day 1: Arrival + neighborhood walk + street food in Tokyo.\n- Day 2: Top sights + museum/garden + evening market.\n- Day 3: Day trip or nature walk + local cuisine.\n- Day 4: Cultural highlights + shopping + relax.\n- Day 5: Flexible day + departure.\n## Transit\n- Use Google Maps for live routing.\n- Prefer public transit/walking in city centers; rideshare/taxi late night.\n- Build buffer time for traffic and station navigation.\n## Weather\n- [Weather search](https://www.google.com/search?q=Tokyo+weather)\n## Calendar\n\n## Things to do\n- [Google Maps (things to do)](https://www.google.com/maps/search/?api=1&query=Things+to+do+in+Tokyo)\n") = lit "## Flights\n- Provide `origin` and `start_date` to generate flight search links.\n## Assumptions\n- start date: not provided\n- end date: not provided\n- origin: not provided\n- budget: not provided\n- travelers: not provided\n\n## Summary\n\n## Lodging\n- Provide `start_date` and `end_date` to generate lodging search links.\n## Day-by-day\n- Day 1: Arrival + neighborhood walk + street food in Tokyo.\n- Day 2: Top sights + museum/garden + evening market.\n- Day 3: Day trip or nature walk + local cuisine.\n- Day 4: Cultural highlights + shopping + relax.\n- Day 5: Flexible day + departure.\n## Transit\n- Use Google Maps for live routing.\n- Prefer public transit/walking in city centers; rideshare/taxi late night.\n- Build buffer time for traffic and station navigation.\n## Weather\n- [Weather search](https://www.google.com/search?q=Tokyo+weather)\n## Calendar\n\n## Things to do\n- [Google Maps (things to do)](https://www.google.com/maps/search/?api=1&query=Things+to+do+in+Tokyo)\n\n## Budget\n- Heuristic split: flights 35–55%, lodging 25–40%, food+activities 15–30%, local transit 5–10%.\n- If you share a budget, I can tailor the itinerary and tradeoffs.\n" :=
  eqS_eq (by decide)

theorem c6Stage11 : rCalendar c6State.constraints (lit "## Flights\n- Provide `origin` and `start_date` to generate flight search links.\n## Assumptions\n- start date: not provided\n- end date: not provided\n- origin: not provided\n- budget: not provided\n- travelers: not provided\n\n## Summary\n\n## Lodging\n- Provide `start_date` and `end_date` to generate lodging search links.\n## Day-by-day\n- Day 1: Arrival + neighborhood walk + street food in Tokyo.\n- Day 2: Top sights + museum/garden + evening market.\n- Day 3: Day trip or nature walk + local cuisine.\n- Day 4: Cultural highlights + shopping + relax.\n- Day 5: Flexible day + departure.\n## Transit\n- Use Google Maps for live routing.\n- Prefer public transit/walking in city centers; rideshare/taxi late night.\n- Build buffer time for traffic and station navigation.\n## Weather\n- [Weather search](https://www.google.com/search?q=Tokyo+weather)\n## Calendar\n\n## Things to do\n- [Google Maps (things to do)](https://www.google.com/maps/search/?api=1&query=Things+to+do+in+Tokyo)\n\n## Budget\n- Heuristic split: flights 35–55%, lodging 25–40%, food+activities 15–30%, local transit 5–10%.\n- If you share a budget, I can tailor the itinerary and tradeoffs.\n") = lit "## Flights\n- Provide `origin` and `start_date` to generate flight search links.\n## Assumptions\n- start date: not provided\n- end date: not provided\n- origin: not provided\n- budget: not provided\n- travelers: not provided\n\n## Summary\n\n## Lodging\n- Provide `start_date` and `end_date` to generate lodging search links.\n## Day-by-day\n- Day 1: Arrival + neighborhood walk + street food in Tokyo.\n- Day 2: Top sights + museum/garden + evening market.\n- Day 3: Day trip or nature walk + local cuisine.\n- Day 4: Cultural highlights + shopping + relax.\n- Day 5: Flexible day + departure.\n## Transit\n- Use Google Maps for live routing.\n- Prefer public transit/walking in city centers; rideshare/taxi late night.\n- Build buffer time for traffic and station navigation.\n## Weather\n- [Weather search](https://www.google.com/search?q=Tokyo+weather)\n## Calendar\n- Provide `start_date` and `end_date` to export an `.ics` calendar.\n## Things to do\n- [Google Maps (things to do)](https://www.google.com/maps/search/?api=1&query=Things+to+do+in+Tokyo)\n\n## Budget\n- Heuristic split: flights 35–55%, lodging 25–40%, food+activities 15–30%, local transit 5–10%.\n- If you share a budget, I can tailor the itinerary and tradeoffs.\n" :=
  eqS_eq (by decide)

theorem c6Stage12 : rFinal (lit "## Flights\n- Provide `origin` and `start_date` to generate flight search links.\n## Assumptions\n- start date: not provided\n- end date: not provided\n- origin: not provided\n- budget: not provided\n- travelers: not provided\n\n## Summary\n\n## Lodging\n- Provide `start_date` and `end_date` to generate lodging search links.\n## Day-by-day\n- Day 1: Arrival + neighborhood walk + street food in Tokyo.\n- Day 2: Top sights + museum/garden + evening market.\n- Day 3: Day trip or nature walk + local cuisine.\n- Day 4: Cultural highlights + shopping + relax.\n- Day 5: Flexible day + departure.\n## Transit\n- Use Google Maps for live routing.\n- Prefer public transit/walking in city centers; rideshare/taxi late night.\n- Build buffer time for traffic and station navigation.\n## Weather\n- [Weather search](https://www.google.com/search?q=Tokyo+weather)\n## Calendar\n- Provide `start_date` and `end_date` to export an `.ics` calendar.\n## Things to do\n- [Google Maps (things to do)](https://www.google.com/maps/search/?api=1&query=Things+to+do+in+Tokyo)\n\n## Budget\n- Heuristic split: flights 35–55%, lodging 25–40%, food+activities 15–30%, local transit 5–10%.\n- If you share a budget, I can tailor the itinerary and tradeoffs.\n") = lit "## Flights\n- Provide `origin` and `start_date` to generate flight search links.\n## Assumptions\n- start date: not provided\n- end date: not provided\n- origin: not provided\n- budget: not provided\n- travelers: not provided\n\n## Summary\n\n## Lodging\n- Provide `start_date` and `end_date` to generate lodging search links.\n## Day-by-day\n- Day 1: Arrival + neighborhood walk + street food in Tokyo.\n- Day 2: Top sights + museum/garden + evening market.\n- Day 3: Day trip or nature walk + local cuisine.\n- Day 4: Cultural highlights + shopping + relax.\n- Day 5: Flexible day + departure.\n## Transit\n- Use Google Maps for live routing.\n- Prefer public transit/walking in city centers; rideshare/taxi late night.\n- Build buffer time for traffic and station navigation.\n## Weather\n- [Weather search](https://www.google.com/search?q=Tokyo+weather)\n## Calendar\n- Provide `start_date` and `end_date` to export an `.ics` calendar.\n## Things to do\n- [Google Maps (things to do)](https://www.google.com/maps/search/?api=1&query=Things+to+do+in+Tokyo)\n\n## Budget\n- Heuristic split: flights 35–55%, lodging 25–40%, food+activities 15–30%, local transit 5–10%.\n- If you share a budget, I can tailor the itinerary and tradeoffs.\n" :=
  eqS_eq (by decide)

theorem c7Stage1 : rDisclaim c7State.constraints c7State.final_answer = lit "## Summary\nfare: 12 and $5 fee\n\nNote: Visa/health requirements vary; verify with official sources (this is not legal advice)." :=
  eqS_eq (by decide)

theorem c7Stage2 : rAssum c7State.constraints (lit "## Summary\nfare: 12 and $5 fee\n\nNote: Visa/health requirements vary; verify with official sources (this is not legal advice).") = lit "## Summary\nfare: 12 and $5 fee\n\nNote: Visa/health requirements vary; verify with official sources (this is not legal advice).\n## Assumptions\n- start date: not provided\n- end date: not provided\n- origin: not provided\n- budget: not provided\n- travelers: not provided\n" :=
  eqS_eq (by decide)

theorem c7Stage3 : rRequired (lit "## Summary\nfare: 12 and $5 fee\n\nNote: Visa/health requirements vary; verify with official sources (this is not legal advice).\n## Assumptions\n- start date: not provided\n- end date: not provided\n- origin: not provided\n- budget: not provided\n- travelers: not provided\n") = lit "## Summary\nfare: 12 and $5 fee\n\nNote: Visa/health requirements vary; verify with official sources (this is not legal advice).\n## Assumptions\n- start date: not provided\n- end date: not provided\n- origin: not provided\n- budget: not provided\n- travelers: not provided\n\n## Flights\n\n## Lodging\n\n## Day-by-day\n\n## Transit\n\n## Weather\n\n## Calendar\n" :=
  eqS_eq (by decide)

theorem c7Stage4 : rFlights c7State.constraints c7State.tool_results (lit "## Summary\nfare: 12 and $5 fee\n\nNote: Visa/health requirements vary; verify with official sources (this is not legal advice).\n## Assumptions\n- start date: not provided\n- end date: not provided\n- origin: not provided\n- budget: not provided\n- travelers: not provided\n\n## Flights\n\n## Lodging\n\n## Day-by-day\n\n## Transit\n\n## Weather\n\n## Calendar\n") = lit "## Summary\nfare: 12 and $5 fee\n\nNote: Visa/health requirements vary; verify with official sources (this is not legal advice).\n## Assumptions\n- start date: not provided\n- end date: not provided\n- origin: not provided\n- budget: not provided\n- travelers: not provided\n\n## Flights\n- Provide `origin` and `start_date` to generate flight search links.\n## Lodging\n\n## Day-by-day\n\n## Transit\n\n## Weather\n\n## Calendar\n" :=
  eqS_eq (by decide)

theorem c7Stage5 : rLodging c7State.constraints c7State.tool_results (lit "## Summary\nfare: 12 and $5 fee\n\nNote: Visa/health requirements vary; verify with official sources (this is not legal advice).\n## Assumptions\n- start date: not provided\n- end date: not provided\n- origin: not provided\n- budget: not provided\n- travelers: not provided\n\n## Flights\n- Provide `origin` and `start_date` to generate flight search links.\n## Lodging\n\n## Day-by-day\n\n## Transit\n\n## Weather\n\n## Calendar\n") = lit "## Summary\nfare: 12 and $5 fee\n\nNote: Visa/health requirements vary; verify with official sources (this is not legal advice).\n## Assumptions\n- start date: not provided\n- end date: not provided\n- origin: not provided\n- budget: not provided\n- travelers: not provided\n\n## Flights\n- Provide `origin` and `start_date` to generate flight search links.\n## Lodging\n- Provide `start_date` and `end_date` to generate lodging search links.\n## Day-by-day\n\n## Transit\n\n## Weather\n\n## Calendar\n" :=
  eqS_eq (by decide)

theorem c7Stage6 : rThings c7State.constraints c7State.tool_results (lit "## Summary\nfare: 12 and $5 fee\n\nNote: Visa/health requirements vary; verify with official sources (this is not legal advice).\n## Assumptions\n- start date: not provided\n- end date: not provided\n- origin: not provided\n- budget: not provided\n- travelers: not provided\n\n## Flights\n- Provide `origin` and `start_date` to generate flight search links.\n## Lodging\n- Provide `start_date` and `end_date` to generate lodging search links.\n## Day-by-day\n\n## Transit\n\n## Weather\n\n## Calendar\n") = lit "## Summary\nfare: 12 and $5 fee\n\nNote: Visa/health requirements vary; verify with official sources (this is not legal advice).\n## Assumptions\n- start date: not provided\n- end date: not provided\n- origin: not provided\n- budget: not provided\n- travelers: not provided\n\n## Flights\n- Provide `origin` and `start_date` to generate flight search links.\n## Lodging\n- Provide `start_date` and `end_date` to generate lodging search links.\n## Day-by-day\n\n## Transit\n\n## Weather\n\n## Calendar\n\n## Things to do\n- [Google Maps (things to do)](https://www.google.com/maps/search/?api=1&query=Things+to+do+in+Tokyo)\n" :=
  eqS_eq (by decide)

theorem c7Stage7 : rWeather c7State.constraints c7State.tool_results (lit "## Summary\nfare: 12 and $5 fee\n\nNote: Visa/health requirements vary; verify with official sources (this is not legal advice).\n## Assumptions\n- start date: not provided\n- end date: not provided\n- origin: not provided\n- budget: not provided\n- travelers: not provided\n\n## Flights\n- Provide `origin` and `start_date` to generate flight search links.\n## Lodging\n- Provide `start_date` and `end_date` to generate lodging search links.\n## Day-by-day\n\n## Transit\n\n## Weather\n\n## Calendar\n\n## Things to do\n- [Google Maps (things to do)](https://www.google.com/maps/search/?api=1&query=Things+to+do+in+Tokyo)\n") = lit "## Summary\nfare: 12 and $5 fee\n\nNote: Visa/health requirements vary; verify with official sources (this is not legal advice).\n## Assumptions\n- start date: not provided\n- end date: not provided\n- origin: not provided\n- budget: not provided\n- travelers: not provided\n\n## Flights\n- Provide `origin` and `start_date` to generate flight search links.\n## Lodging\n- Provide `start_date` and `end_date` to generate lodging search links.\n## Day-by-day\n\n## Transit\n\n## Weather\n- [Weather search](https://www.google.com/search?q=Tokyo+weather)\n## Calendar\n\n## Things to do\n- [Google Maps (things to do)](https://www.google.com/maps/search/?api=1&query=Things+to+do+in+Tokyo)\n" :=
  eqS_eq (by decide)

theorem c7Stage8 : rTransit (lit "## Summary\nfare: 12 and $5 fee\n\nNote: Visa/health requirements vary; verify with official sources (this is not legal advice).\n## Assumptions\n- start date: not provided\n- end date: not provided\n- origin: not provided\n- budget: not provided\n- travelers: not provided\n\n## Flights\n- Provide `origin` and `start_date` to generate flight search links.\n## Lodging\n- Provide `start_date` and `end_date` to generate lodging search links.\n## Day-by-day\n\n## Transit\n\n## Weather\n- [Weather search](https://www.google.com/search?q=Tokyo+weather)\n## Calendar\n\n## Things to do\n- [Google Maps (things to do)](https://www.google.com/maps/search/?api=1&query=Things+to+do+in+Tokyo)\n") = lit "## Summary\nfare: 12 and $5 fee\n\nNote: Visa/health requirements vary; verify with official sources (this is not legal advice).\n## Assumptions\n- start date: not provided\n- end date: not provided\n- origin: not provided\n- budget: not provided\n- travelers: not provided\n\n## Flights\n- Provide `origin` and `start_date` to generate flight search links.\n## Lodging\n- Provide `start_date` and `end_date` to generate lodging search links.\n## Day-by-day\n\n## Transit\n- Use Google Maps for live routing.\n- Prefer public transit/walking in city centers; rideshare/taxi late night.\n- Build buffer time for traffic and station navigation.\n## Weather\n- [Weather search](https://www.google.com/search?q=Tokyo+weather)\n## Calendar\n\n## Things to do\n- [Google Maps (things to do)](https://www.google.com/maps/search/?api=1&query=Things+to+do+in+Tokyo)\n" :=
  eqS_eq (by decide)

theorem c7Stage9 : rDay c7State.constraints (lit "## Summary\nfare: 12 and $5 fee\n\nNote: Visa/health requirements vary; verify with official sources (this is not legal advice).\n## Assumptions\n- start date: not provided\n- end date: not provided\n- origin: not provided\n- budget: not provided\n- travelers: not provided\n\n## Flights\n- Provide `origin` and `start_date` to generate flight search links.\n## Lodging\n- Provide `start_date` and `end_date` to generate lodging search links.\n## Day-by-day\n\n## Transit\n- Use Google Maps for live routing.\n- Prefer public transit/walking in city centers; rideshare/taxi late night.\n- Build buffer time for traffic and station navigation.\n## Weather\n- [Weather search](https://www.google.com/search?q=Tokyo+weather)\n## Calendar\n\n## Things to do\n- [Google Maps (things to do)](https://www.google.com/maps/search/?api=1&query=Things+to+do+in+Tokyo)\n") = lit "## Summary\nfare: 12 and $5 fee\n\nNote: Visa/health requirements vary; verify with official sources (this is not legal advice).\n## Assumptions\n- start date: not provided\n- end date: not provided\n- origin: not provided\n- budget: not provided\n- travelers: not provided\n\n## Flights\n- Provide `origin` and `start_date` to generate flight search links.\n## Lodging\n- Provide `start_date` and `end_date` to generate lodging search links.\n## Day-by-day\n- Day 1: Arrival + neighborhood walk + street food in Tokyo.\n- Day 2: Top sights + museum/garden + evening market.\n- Day 3: Day trip or nature walk + local cuisine.\n- Day 4: Cultural highlights + shopping + relax.\n- Day 5: Flexible day + departure.\n## Transit\n- Use Google Maps for live routing.\n- Prefer public transit/walking in city centers; rideshare/taxi late night.\n- Build buffer time for traffic and station navigation.\n## Weather\n- [Weather search](https://www.google.com/search?q=Tokyo+weather)\n## Calendar\n\n## Things to do\n- [Google Maps (things to do)](https://www.google.com/maps/search/?api=1&query=Things+to+do+in+Tokyo)\n" :=
  eqS_eq (by decide)

theorem c7Stage10 : rBudget c7State.constraints (lit "## Summary\nfare: 12 and $5 fee\n\nNote: Visa/health requirements vary; verify with official sources (this is not legal advice).\n## Assumptions\n- start date: not provided\n- end date: not provided\n- origin: not provided\n- budget: not provided\n- travelers: not provided\n\n## Flights\n- Provide `origin` and `start_date` to generate flight search links.\n## Lodging\n- Provide `start_date` and `end_date` to generate lodging search links.\n## Day-by-day\n- Day 1: Arrival + neighborhood walk + street food in Tokyo.\n- Day 2: Top sights + museum/garden + evening market.\n- Day 3: Day trip or nature walk + local cuisine.\n- Day 4: Cultural highlights + shopping + relax.\n- Day 5: Flexible day + departure.\n## Transit\n- Use Google Maps for live routing.\n- Prefer public transit/walking in city centers; rideshare/taxi late night.\n- Build buffer time for traffic and station navigation.\n## Weather\n- [Weather search](https://www.google.com/search?q=Tokyo+weather)\n## Calendar\n\n## Things to do\n- [Google Maps (things to do)](https://www.google.com/maps/search/?api=1&query=Things+to+do+in+Tokyo)\n") = lit "## Summary\nfare: 12 and $5 fee\n\nNote: Visa/health requirements vary; verify with official sources (this is not legal advice).\n## Assumptions\n- start date: not provided\n- end date: not provided\n- origin: not provided\n- budget: not provided\n- travelers: not provided\n\n## Flights\n- Provide `origin` and `start_date` to generate flight search links.\n## Lodging\n- Provide `start_date` and `end_date` to generate lodging search links.\n## Day-by-day\n- Day 1: Arrival + neighborhood walk + street food in Tokyo.\n- Day 2: Top sights + museum/garden + evening market.\n- Day 3: Day trip or nature walk + local cuisine.\n- Day 4: Cultural highlights + shopping + relax.\n- Day 5: Flexible day + departure.\n## Transit\n- Use Google Maps for live routing.\n- Prefer public transit/walking in city centers; rideshare/taxi late night.\n- Build buffer time for traffic and station navigation.\n## Weather\n- [Weather search](https://www.google.com/search?q=Tokyo+weather)\n## Calendar\n\n## Things to do\n- [Google Maps (things to do)](https://www.google.com/maps/search/?api=1&query=Things+to+do+in+Tokyo)\n\n## Budget\n- Heuristic split: flights 35–55%, lodging 25–40%, food+activities 15–30%, local transit 5–10%.\n- If you share a budget, I can tailor the itinerary and tradeoffs.\n" :=
  eqS_eq (by decide)

theorem c7Stage11 : rCalendar c7State.constraints (lit "## Summary\nfare: 12 and $5 fee\n\nNote: Visa/health requirements vary; verify with official sources (this is not legal advice).\n## Assumptions\n- start date: not provided\n- end date: not provided\n- origin: not provided\n- budget: not provided\n- travelers: not provided\n\n## Flights\n- Provide `origin` and `start_date` to generate flight search links.\n## Lodging\n- Provide `start_date` and `end_date` to generate lodging search links.\n## Day-by-day\n- Day 1: Arrival + neighborhood walk + street food in Tokyo.\n- Day 2: Top sights + museum/garden + evening market.\n- Day 3: Day trip or nature walk + local cuisine.\n- Day 4: Cultural highlights + shopping + relax.\n- Day 5: Flexible day + departure.\n## Transit\n- Use Google Maps for live routing.\n- Prefer public transit/walking in city centers; rideshare/taxi late night.\n- Build buffer time for traffic and station navigation.\n## Weather\n- [Weather search](https://www.google.com/search?q=Tokyo+weather)\n## Calendar\n\n## Things to do\n- [Google Maps (things to do)](https://www.google.com/maps/search/?api=1&query=Things+to+do+in+Tokyo)\n\n## Budget\n- Heuristic split: flights 35–55%, lodging 25–40%, food+activities 15–30%, local transit 5–10%.\n- If you share a budget, I can tailor the itinerary and tradeoffs.\n") = lit "## Summary\nfare: 12 and $5 fee\n\nNote: Visa/health requirements vary; verify with official sources (this is not legal advice).\n## Assumptions\n- start date: not provided\n- end date: not provided\n- origin: not provided\n- budget: not provided\n- travelers: not provided\n\n## Flights\n- Provide `origin` and `start_date` to generate flight search links.\n## Lodging\n- Provide `start_date` and `end_date` to generate lodging search links.\n## Day-by-day\n- Day 1: Arrival + neighborhood walk + street food in Tokyo.\n- Day 2: Top sights + museum/garden + evening market.\n- Day 3: Day trip or nature walk + local cuisine.\n- Day 4: Cultural highlights + shopping + relax.\n- Day 5: Flexible day + departure.\n## Transit\n- Use Google Maps for live routing.\n- Prefer public transit/walking in city centers; rideshare/taxi late night.\n- Build buffer time for traffic and station navigation.\n## Weather\n- [Weather search](https://www.google.com/search?q=Tokyo+weather)\n## Calendar\n- Provide `start_date` and `end_date` to export an `.ics` calendar.\n## Things to do\n- [Google Maps (things to do)](https://www.google.com/maps/search/?api=1&query=Things+to+do+in+Tokyo)\n\n## Budget\n- Heuristic split: flights 35–55%, lodging 25–40%, food+activities 15–30%, local transit 5–10%.\n- If you share a budget, I can tailor the itinerary and tradeoffs.\n" :=
  eqS_eq (by decide)

theorem c7Stage12 : rFinal (lit "## Summary\nfare: 12 and $5 fee\n\nNote: Visa/health requirements vary; verify with official sources (this is not legal advice).\n## Assumptions\n- start date: not provided\n- end date: not provided\n- origin: not provided\n- budget: not provided\n- travelers: not provided\n\n## Flights\n- Provide `origin` and `start_date` to generate flight search links.\n## Lodging\n- Provide `start_date` and `end_date` to generate lodging search links.\n## Day-by-day\n- Day 1: Arrival + neighborhood walk + street food in Tokyo.\n- Day 2: Top sights + museum/garden + evening market.\n- Day 3: Day trip or nature walk + local cuisine.\n- Day 4: Cultural highlights + shopping + relax.\n- Day 5: Flexible day + departure.\n## Transit\n- Use Google Maps for live routing.\n- Prefer public transit/walking in city centers; rideshare/taxi late night.\n- Build buffer time for traffic and station navigation.\n## Weather\n- [Weather search](https://www.google.com/search?q=Tokyo+weather)\n## Calendar\n- Provide `start_date` and `end_date` to export an `.ics` calendar.\n## Things to do\n- [Google Maps (things to do)](https://www.google.com/maps/search/?api=1&query=Things+to+do+in+Tokyo)\n\n## Budget\n- Heuristic split: flights 35–55%, lodging 25–40%, food+activities 15–30%, local transit 5–10%.\n- If you share a budget, I can tailor the itinerary and tradeoffs.\n") = lit "## Summary\nfare: 12 and [price omitted] fee\n\nNote: Visa/health requirements vary; verify with official sources (this is not legal advice).\n## Assumptions\n- start date: not provided\n- end date: not provided\n- origin: not provided\n- budget: not provided\n- travelers: not provided\n\n## Flights\n- Provide `origin` and `start_date` to generate flight search links.\n## Lodging\n- Provide `start_date` and `end_date` to generate lodging search links.\n## Day-by-day\n- Day 1: Arrival + neighborhood walk + street food in Tokyo.\n- Day 2: Top sights + museum/garden + evening market.\n- Day 3: Day trip or nature walk + local cuisine.\n- Day 4: Cultural highlights + shopping + relax.\n- Day 5: Flexible day + departure.\n## Transit\n- Use Google Maps for live routing.\n- Prefer public transit/walking in city centers; rideshare/taxi late night.\n- Build buffer time for traffic and station navigation.\n## Weather\n- [Weather search](https://www.google.com/search?q=Tokyo+weather)\n## Calendar\n- Provide `start_date` and `end_date` to export an `.ics` calendar.\n## Things to do\n- [Google Maps (things to do)](https://www.google.com/maps/search/?api=1&query=Things+to+do+in+Tokyo)\n\n## Budget\n- Heuristic split: flights 35–55%, lodging 25–40%, food+activities 15–30%, local transit 5–10%.\n- If you share a budget, I can tailor the itinerary and tradeoffs.\n" :=
  eqS_eq (by decide)

theorem c8aStage1 : rDisclaim c8State.constraints c8State.final_answer = lit "# Trip plan\n\n## Summary\nPlanning trip to your destination.\n\nNote: Visa/health requirements vary; verify with official sources (this is not legal advice)." :=
  eqS_eq (by decide)

theorem c8aStage2 : rAssum c8State.constraints (lit "# Trip plan\n\n## Summary\nPlanning trip to your destination.\n\nNote: Visa/health requirements vary; verify with official sources (this is not legal advice).") = lit "# Trip plan\n\n## Summary\nPlanning trip to your destination.\n\nNote: Visa/health requirements vary; verify with official sources (this is not legal advice).\n## Assumptions\n- start date: not provided\n- end date: not provided\n- origin: not provided\n- budget: not provided\n- travelers: not provided\n" :=
  eqS_eq (by decide)

theorem c8aStage3 : rRequired (lit "# Trip plan\n\n## Summary\nPlanning trip to your destination.\n\nNote: Visa/health requirements vary; verify with official sources (this is not legal advice).\n## Assumptions\n- start date: not provided\n- end date: not provided\n- origin: not provided\n- budget: not provided\n- travelers: not provided\n") = lit "# Trip plan\n\n## Summary\nPlanning trip to your destination.\n\nNote: Visa/health requirements vary; verify with official sources (this is not legal advice).\n## Assumptions\n- start date: not provided\n- end date: not provided\n- origin: not provided\n- budget: not provided\n- travelers: not provided\n\n## Flights\n\n## Lodging\n\n## Day-by-day\n\n## Transit\n\n## Weather\n\n## Calendar\n" :=
  eqS_eq (by decide)

theorem c8aStage4 : rFlights c8State.constraints c8State.tool_results (lit "# Trip plan\n\n## Summary\nPlanning trip to your destination.\n\nNote: Visa/health requirements vary; verify with official sources (this is not legal advice).\n## Assumptions\n- start date: not provided\n- end date: not provided\n- origin: not provided\n- budget: not provided\n- travelers: not provided\n\n## Flights\n\n## Lodging\n\n## Day-by-day\n\n## Transit\n\n## Weather\n\n## Calendar\n") = lit "# Trip plan\n\n## Summary\nPlanning trip to your destination.\n\nNote: Visa/health requirements vary; verify with official sources (this is not legal advice).\n## Assumptions\n- start date: not provided\n- end date: not provided\n- origin: not provided\n- budget: not provided\n- travelers: not provided\n\n## Flights\n- Provide `origin` and `start_date` to generate flight search links.\n## Lodging\n\n## Day-by-day\n\n## Transit\n\n## Weather\n\n## Calendar\n" :=
  eqS_eq (by decide)

theorem c8aStage5 : rLodging c8State.constraints c8State.tool_results (lit "# Trip plan\n\n## Summary\nPlanning trip to your destination.\n\nNote: Visa/health requirements vary; verify with official sources (this is not legal advice).\n## Assumptions\n- start date: not provided\n- end date: not provided\n- origin: not provided\n- budget: not provided\n- travelers: not provided\n\n## Flights\n- Provide `origin` and `start_date` to generate flight search links.\n## Lodging\n\n## Day-by-day\n\n## Transit\n\n## Weather\n\n## Calendar\n") = lit "# Trip plan\n\n## Summary\nPlanning trip to your destination.\n\nNote: Visa/health requirements vary; verify with official sources (this is not legal advice).\n## Assumptions\n- start date: not provided\n- end date: not provided\n- origin: not provided\n- budget: not provided\n- travelers: not provided\n\n## Flights\n- Provide `origin` and `start_date` to generate flight search links.\n## Lodging\n- Provide `start_date` and `end_date` to generate lodging search links.\n## Day-by-day\n\n## Transit\n\n## Weather\n\n## Calendar\n" :=
  eqS_eq (by decide)

theorem c8aStage6 : rThings c8State.constraints c8State.tool_results (lit "# Trip plan\n\n## Summary\nPlanning trip to your destination.\n\nNote: Visa/health requirements vary; verify with official sources (this is not legal advice).\n## Assumptions\n- start date: not provided\n- end date: not provided\n- origin: not provided\n- budget: not provided\n- travelers: not provided\n\n## Flights\n- Provide `origin` and `start_date` to generate flight search links.\n## Lodging\n- Provide `start_date` and `end_date` to generate lodging search links.\n## Day-by-day\n\n## Transit\n\n## Weather\n\n## Calendar\n") = lit "# Trip plan\n\n## Summary\nPlanning trip to your destination.\n\nNote: Visa/health requirements vary; verify with official sources (this is not legal advice).\n## Assumptions\n- start date: not provided\n- end date: not provided\n- origin: not provided\n- budget: not provided\n- travelers: not provided\n\n## Flights\n- Provide `origin` and `start_date` to generate flight search links.\n## Lodging\n- Provide `start_date` and `end_date` to generate lodging search links.\n## Day-by-day\n\n## Transit\n\n## Weather\n\n## Calendar\n\n## Things to do\n- [Google Maps (things to do)](https://www.google.com/maps/search/?api=1&query=Things+to+do+in+your+destination)\n" :=
  eqS_eq (by decide)

theorem c8aStage7 : rWeather c8State.constraints c8State.tool_results (lit "# Trip plan\n\n## Summary\nPlanning trip to your destination.\n\nNote: Visa/health requirements vary; verify with official sources (this is not legal advice).\n## Assumptions\n- start date: not provided\n- end date: not provided\n- origin: not provided\n- budget: not provided\n- travelers: not provided\n\n## Flights\n- Provide `origin` and `start_date` to generate flight search links.\n## Lodging\n- Provide `start_date` and `end_date` to generate lodging search links.\n## Day-by-day\n\n## Transit\n\n## Weather\n\n## Calendar\n\n## Things to do\n- [Google Maps (things to do)](https://www.google.com/maps/search/?api=1&query=Things+to+do+in+your+destination)\n") = lit "# Trip plan\n\n## Summary\nPlanning trip to your destination.\n\nNote: Visa/health requirements vary; verify with official sources (this is not legal advice).\n## Assumptions\n- start date: not provided\n- end date: not provided\n- origin: not provided\n- budget: not provided\n- travelers: not provided\n\n## Flights\n- Provide `origin` and `start_date` to generate flight search links.\n## Lodging\n- Provide `start_date` and `end_date` to generate lodging search links.\n## Day-by-day\n\n## Transit\n\n## Weather\n- [Weather search](https://www.google.com/search?q=your+destination+weather)\n## Calendar\n\n## Things to do\n- [Google Maps (things to do)](https://www.google.com/maps/search/?api=1&query=Things+to+do+in+your+destination)\n" :=
  eqS_eq (by decide)

theorem c8aStage8 : rTransit (lit "# Trip plan\n\n## Summary\nPlanning trip to your destination.\n\nNote: Visa/health requirements vary; verify with official sources (this is not legal advice).\n## Assumptions\n- start date: not provided\n- end date: not provided\n- origin: not provided\n- budget: not provided\n- travelers: not provided\n\n## Flights\n- Provide `origin` and `start_date` to generate flight search links.\n## Lodging\n- Provide `start_date` and `end_date` to generate lodging search links.\n## Day-by-day\n\n## Transit\n\n## Weather\n- [Weather search](https://www.google.com/search?q=your+destination+weather)\n## Calendar\n\n## Things to do\n- [Google Maps (things to do)](https://www.google.com/maps/search/?api=1&query=Things+to+do+in+your+destination)\n") = lit "# Trip plan\n\n## Summary\nPlanning trip to your destination.\n\nNote: Visa/health requirements vary; verify with official sources (this is not legal advice).\n## Assumptions\n- start date: not provided\n- end date: not provided\n- origin: not provided\n- budget: not provided\n- travelers: not provided\n\n## Flights\n- Provide `origin` and `start_date` to generate flight search links.\n## Lodging\n- Provide `start_date` and `end_date` to generate lodging search links.\n## Day-by-day\n\n## Transit\n- Use Google Maps for live routing.\n- Prefer public transit/walking in city centers; rideshare/taxi late night.\n- Build buffer time for traffic and station navigation.\n## Weather\n- [Weather search](https://www.google.com/search?q=your+destination+weather)\n## Calendar\n\n## Things to do\n- [Google Maps (things to do)](https://www.google.com/maps/search/?api=1&query=Things+to+do+in+your+destination)\n" :=
  eqS_eq (by decide)

theorem c8aStage9 : rDay c8State.constraints (lit "# Trip plan\n\n## Summary\nPlanning trip to your destination.\n\nNote: Visa/health requirements vary; verify with official sources (this is not legal advice).\n## Assumptions\n- start date: not provided\n- end date: not provided\n- origin: not provided\n- budget: not provided\n- travelers: not provided\n\n## Flights\n- Provide `origin` and `start_date` to generate flight search links.\n## Lodging\n- Provide `start_date` and `end_date` to generate lodging search links.\n## Day-by-day\n\n## Transit\n- Use Google Maps for live routing.\n- Prefer public transit/walking in city centers; rideshare/taxi late night.\n- Build buffer time for traffic and station navigation.\n## Weather\n- [Weather search](https://www.google.com/search?q=your+destination+weather)\n## Calendar\n\n## Things to do\n- [Google Maps (things to do)](https://www.google.com/maps/search/?api=1&query=Things+to+do+in+your+destination)\n") = lit "# Trip plan\n\n## Summary\nPlanning trip to your destination.\n\nNote: Visa/health requirements vary; verify with official sources (this is not legal advice).\n## Assumptions\n- start date: not provided\n- end date: not provided\n- origin: not provided\n- budget: not provided\n- travelers: not provided\n\n## Flights\n- Provide `origin` and `start_date` to generate flight search links.\n## Lodging\n- Provide `start_date` and `end_date` to generate lodging search links.\n## Day-by-day\n- Day 1: Arrival + neighborhood walk + street food in your destination.\n- Day 2: Top sights + museum/garden + evening market.\n- Day 3: Day trip or nature walk + local cuisine.\n- Day 4: Cultural highlights + shopping + relax.\n- Day 5: Flexible day + departure.\n## Transit\n- Use Google Maps for live routing.\n- Prefer public transit/walking in city centers; rideshare/taxi late night.\n- Build buffer time for traffic and station navigation.\n## Weather\n- [Weather search](https://www.google.com/search?q=your+destination+weather)\n## Calendar\n\n## Things to do\n- [Google Maps (things to do)](https://www.google.com/maps/search/?api=1&query=Things+to+do+in+your+destination)\n" :=
  eqS_eq (by decide)

theorem c8aStage10 : rBudget c8State.constraints (lit "# Trip plan\n\n## Summary\nPlanning trip to your destination.\n\nNote: Visa/health requirements vary; verify with official sources (this is not legal advice).\n## Assumptions\n- start date: not provided\n- end date: not provided\n- origin: not provided\n- budget: not provided\n- travelers: not provided\n\n## Flights\n- Provide `origin` and `start_date` to generate flight search links.\n## Lodging\n- Provide `start_date` and `end_date` to generate lodging search links.\n## Day-by-day\n- Day 1: Arrival + neighborhood walk + street food in your destination.\n- Day 2: Top sights + museum/garden + evening market.\n- Day 3: Day trip or nature walk + local cuisine.\n- Day 4: Cultural highlights + shopping + relax.\n- Day 5: Flexible day + departure.\n## Transit\n- Use Google Maps for live routing.\n- Prefer public transit/walking in city centers; rideshare/taxi late night.\n- Build buffer time for traffic and station navigation.\n## Weather\n- [Weather search](https://www.google.com/search?q=your+destination+weather)\n## Calendar\n\n## Things to do\n- [Google Maps (things to do)](https://www.google.com/maps/search/?api=1&query=Things+to+do+in+your+destination)\n") = lit "# Trip plan\n\n## Summary\nPlanning trip to your destination.\n\nNote: Visa/health requirements vary; verify with official sources (this is not legal advice).\n## Assumptions\n- start date: not provided\n- end date: not provided\n- origin: not provided\n- budget: not provided\n- travelers: not provided\n\n## Flights\n- Provide `origin` and `start_date` to generate flight search links.\n## Lodging\n- Provide `start_date` and `end_date` to generate lodging search links.\n## Day-by-day\n- Day 1: Arrival + neighborhood walk + street food in your destination.\n- Day 2: Top sights + museum/garden + evening market.\n- Day 3: Day trip or nature walk + local cuisine.\n- Day 4: Cultural highlights + shopping + relax.\n- Day 5: Flexible day + departure.\n## Transit\n- Use Google Maps for live routing.\n- Prefer public transit/walking in city centers; rideshare/taxi late night.\n- Build buffer time for traffic and station navigation.\n## Weather\n- [Weather search](https://www.google.com/search?q=your+destination+weather)\n## Calendar\n\n## Things to do\n- [Google Maps (things to do)](https://www.google.com/maps/search/?api=1&query=Things+to+do+in+your+destination)\n\n## Budget\n- Heuristic split: flights 35–55%, lodging 25–40%, food+activities 15–30%, local transit 5–10%.\n- If you share a budget, I can tailor the itinerary and tradeoffs.\n" :=
  eqS_eq (by decide)

theorem c8aStage11 : rCalendar c8State.constraints (lit "# Trip plan\n\n## Summary\nPlanning trip to your destination.\n\nNote: Visa/health requirements vary; verify with official sources (this is not legal advice).\n## Assumptions\n- start date: not provided\n- end date: not provided\n- origin: not provided\n- budget: not provided\n- travelers: not provided\n\n## Flights\n- Provide `origin` and `start_date` to generate flight search links.\n## Lodging\n- Provide `start_date` and `end_date` to generate lodging search links.\n## Day-by-day\n- Day 1: Arrival + neighborhood walk + street food in your destination.\n- Day 2: Top sights + museum/garden + evening market.\n- Day 3: Day trip or nature walk + local cuisine.\n- Day 4: Cultural highlights + shopping + relax.\n- Day 5: Flexible day + departure.\n## Transit\n- Use Google Maps for live routing.\n- Prefer public transit/walking in city centers; rideshare/taxi late night.\n- Build buffer time for traffic and station navigation.\n## Weather\n- [Weather search](https://www.google.com/search?q=your+destination+weather)\n## Calendar\n\n## Things to do\n- [Google Maps (things to do)](https://www.google.com/maps/search/?api=1&query=Things+to+do+in+your+destination)\n\n## Budget\n- Heuristic split: flights 35–55%, lodging 25–40%, food+activities 15–30%, local transit 5–10%.\n- If you share a budget, I can tailor the itinerary and tradeoffs.\n") = lit "# Trip plan\n\n## Summary\nPlanning trip to your destination.\n\nNote: Visa/health requirements vary; verify with official sources (this is not legal advice).\n## Assumptions\n- start date: not provided\n- end date: not provided\n- origin: not provided\n- budget: not provided\n- travelers: not provided\n\n## Flights\n- Provide `origin` and `start_date` to generate flight search links.\n## Lodging\n- Provide `start_date` and `end_date` to generate lodging search links.\n## Day-by-day\n- Day 1: Arrival + neighborhood walk + street food in your destination.\n- Day 2: Top sights + museum/garden + evening market.\n- Day 3: Day trip or nature walk + local cuisine.\n- Day 4: Cultural highlights + shopping + relax.\n- Day 5: Flexible day + departure.\n## Transit\n- Use Google Maps for live routing.\n- Prefer public transit/walking in city centers; rideshare/taxi late night.\n- Build buffer time for traffic and station navigation.\n## Weather\n- [Weather search](https://www.google.com/search?q=your+destination+weather)\n## Calendar\n- Provide `start_date` and `end_date` to export an `.ics` calendar.\n## Things to do\n- [Google Maps (things to do)](https://www.google.com/maps/search/?api=1&query=Things+to+do+in+your+destination)\n\n## Budget\n- Heuristic split: flights 35–55%, lodging 25–40%, food+activities 15–30%, local transit 5–10%.\n- If you share a budget, I can tailor the itinerary and tradeoffs.\n" :=
  eqS_eq (by decide)

theorem c8aStage12 : rFinal (lit "# Trip plan\n\n## Summary\nPlanning trip to your destination.\n\nNote: Visa/health requirements vary; verify with official sources (this is not legal advice).\n## Assumptions\n- start date: not provided\n- end date: not provided\n- origin: not provided\n- budget: not provided\n- travelers: not provided\n\n## Flights\n- Provide `origin` and `start_date` to generate flight search links.\n## Lodging\n- Provide `start_date` and `end_date` to generate lodging search links.\n## Day-by-day\n- Day 1: Arrival + neighborhood walk + street food in your destination.\n- Day 2: Top sights + museum/garden + evening market.\n- Day 3: Day trip or nature walk + local cuisine.\n- Day 4: Cultural highlights + shopping + relax.\n- Day 5: Flexible day + departure.\n## Transit\n- Use Google Maps for live routing.\n- Prefer public transit/walking in city centers; rideshare/taxi late night.\n- Build buffer time for traffic and station navigation.\n## Weather\n- [Weather search](https://www.google.com/search?q=your+destination+weather)\n## Calendar\n- Provide `start_date` and `end_date` to export an `.ics` calendar.\n## Things to do\n- [Google Maps (things to do)](https://www.google.com/maps/search/?api=1&query=Things+to+do+in+your+destination)\n\n## Budget\n- Heuristic split: flights 35–55%, lodging 25–40%, food+activities 15–30%, local transit 5–10%.\n- If you share a budget, I can tailor the itinerary and tradeoffs.\n") = lit "# Trip plan\n\n## Summary\nPlanning trip to your destination.\n\nNote: Visa/health requirements vary; verify with official sources (this is not legal advice).\n## Assumptions\n- start date: not provided\n- end date: not provided\n- origin: not provided\n- budget: not provided\n- travelers: not provided\n\n## Flights\n- Provide `origin` and `start_date` to generate flight search links.\n## Lodging\n- Provide `start_date` and `end_date` to generate lodging search links.\n## Day-by-day\n- Day 1: Arrival + neighborhood walk + street food in your destination.\n- Day 2: Top sights + museum/garden + evening market.\n- Day 3: Day trip or nature walk + local cuisine.\n- Day 4: Cultural highlights + shopping + relax.\n- Day 5: Flexible day + departure.\n## Transit\n- Use Google Maps for live routing.\n- Prefer public transit/walking in city centers; rideshare/taxi late night.\n- Build buffer time for traffic and station navigation.\n## Weather\n- [Weather search](https://www.google.com/search?q=your+destination+weather)\n## Calendar\n- Provide `start_date` and `end_date` to export an `.ics` calendar.\n## Things to do\n- [Google Maps (things to do)](https://www.google.com/maps/search/?api=1&query=Things+to+do+in+your+destination)\n\n## Budget\n- Heuristic split: flights 35–55%, lodging 25–40%, food+activities 15–30%, local transit 5–10%.\n- If you share a budget, I can tailor the itinerary and tradeoffs.\n" :=
  eqS_eq (by decide)

theorem c8bStage1 : rDisclaim c8bState.constraints c8bState.final_answer = lit "# Trip plan\n\n## Summary\nPlanning trip to your destination.\n\n## Assumptions\n- start date: not provided\n- end date: not provided\n- origin: not provided\n- budget: not provided\n- travelers: not provided\n\n## Flights\n- Provide `origin` and `start_date` to generate flight search links.\n## Lodging\n- Provide `start_date` and `end_date` to generate lodging search links.\n## Day-by-day\n- Day 1: Arrival + neighborhood walk + street food in your destination.\n- Day 2: Top sights + museum/garden + evening market.\n- Day 3: Day trip or nature walk + local cuisine.\n- Day 4: Cultural highlights + shopping + relax.\n- Day 5: Flexible day + departure.\n## Transit\n- Use Google Maps for live routing.\n- Prefer public transit/walking in city centers; rideshare/taxi late night.\n- Build buffer time for traffic and station navigation.\n## Weather\n- [Weather search](https://www.google.com/search?q=your+destination+weather)\n## Calendar\n- Provide `start_date` and `end_date` to export an `.ics` calendar.\n## Things to do\n- [Google Maps (things to do)](https://www.google.com/maps/search/?api=1&query=Things+to+do+in+your+destination)\n\n## Budget\n- Heuristic split: flights 35–55%, lodging 25–40%, food+activities 15–30%, local transit 5–10%.\n- If you share a budget, I can tailor the itinerary and tradeoffs.\n\nNote: Visa/health requirements vary; verify with official sources (this is not legal advice)." :=
  eqS_eq (by decide)

theorem c8bStage2 : rAssum c8bState.constraints (lit "# Trip plan\n\n## Summary\nPlanning trip to your destination.\n\n## Assumptions\n- start date: not provided\n- end date: not provided\n- origin: not provided\n- budget: not provided\n- travelers: not provided\n\n## Flights\n- Provide `origin` and `start_date` to generate flight search links.\n## Lodging\n- Provide `start_date` and `end_date` to generate lodging search links.\n## Day-by-day\n- Day 1: Arrival + neighborhood walk + street food in your destination.\n- Day 2: Top sights + museum/garden + evening market.\n- Day 3: Day trip or nature walk + local cuisine.\n- Day 4: Cultural highlights + shopping + relax.\n- Day 5: Flexible day + departure.\n## Transit\n- Use Google Maps for live routing.\n- Prefer public transit/walking in city centers; rideshare/taxi late night.\n- Build buffer time for traffic and station navigation.\n## Weather\n- [Weather search](https://www.google.com/search?q=your+destination+weather)\n## Calendar\n- Provide `start_date` and `end_date` to export an `.ics` calendar.\n## Things to do\n- [Google Maps (things to do)](https://www.google.com/maps/search/?api=1&query=Things+to+do+in+your+destination)\n\n## Budget\n- Heuristic split: flights 35–55%, lodging 25–40%, food+activities 15–30%, local transit 5–10%.\n- If you share a budget, I can tailor the itinerary and tradeoffs.\n\nNote: Visa/health requirements vary; verify with official sources (this is not legal advice).") = lit "# Trip plan\n\n## Summary\nPlanning trip to your destination.\n\n## Assumptions\n- start date: not provided\n- end date: not provided\n- origin: not provided\n- budget: not provided\n- travelers: not provided\n\n## Flights\n- Provide `origin` and `start_date` to generate flight search links.\n## Lodging\n- Provide `start_date` and `end_date` to generate lodging search links.\n## Day-by-day\n- Day 1: Arrival + neighborhood walk + street food in your destination.\n- Day 2: Top sights + museum/garden + evening market.\n- Day 3: Day trip or nature walk + local cuisine.\n- Day 4: Cultural highlights + shopping + relax.\n- Day 5: Flexible day + departure.\n## Transit\n- Use Google Maps for live routing.\n- Prefer public transit/walking in city centers; rideshare/taxi late night.\n- Build buffer time for traffic and station navigation.\n## Weather\n- [Weather search](https://www.google.com/search?q=your+destination+weather)\n## Calendar\n- Provide `start_date` and `end_date` to export an `.ics` calendar.\n## Things to do\n- [Google Maps (things to do)](https://www.google.com/maps/search/?api=1&query=Things+to+do+in+your+destination)\n\n## Budget\n- Heuristic split: flights 35–55%, lodging 25–40%, food+activities 15–30%, local transit 5–10%.\n- If you share a budget, I can tailor the itinerary and tradeoffs.\n\nNote: Visa/health requirements vary; verify with official sources (this is not legal advice)." :=
  eqS_eq (by decide)

theorem c8bStage3 : rRequired (lit "# Trip plan\n\n## Summary\nPlanning trip to your destination.\n\n## Assumptions\n- start date: not provided\n- end date: not provided\n- origin: not provided\n- budget: not provided\n- travelers: not provided\n\n## Flights\n- Provide `origin` and `start_date` to generate flight search links.\n## Lodging\n- Provide `start_date` and `end_date` to generate lodging search links.\n## Day-by-day\n- Day 1: Arrival + neighborhood walk + street food in your destination.\n- Day 2: Top sights + museum/garden + evening market.\n- Day 3: Day trip or nature walk + local cuisine.\n- Day 4: Cultural highlights + shopping + relax.\n- Day 5: Flexible day + departure.\n## Transit\n- Use Google Maps for live routing.\n- Prefer public transit/walking in city centers; rideshare/taxi late night.\n- Build buffer time for traffic and station navigation.\n## Weather\n- [Weather search](https://www.google.com/search?q=your+destination+weather)\n## Calendar\n- Provide `start_date` and `end_date` to export an `.ics` calendar.\n## Things to do\n- [Google Maps (things to do)](https://www.google.com/maps/search/?api=1&query=Things+to+do+in+your+destination)\n\n## Budget\n- Heuristic split: flights 35–55%, lodging 25–40%, food+activities 15–30%, local transit 5–10%.\n- If you share a budget, I can tailor the itinerary and tradeoffs.\n\nNote: Visa/health requirements vary; verify with official sources (this is not legal advice).") = lit "# Trip plan\n\n## Summary\nPlanning trip to your destination.\n\n## Assumptions\n- start date: not provided\n- end date: not provided\n- origin: not provided\n- budget: not provided\n- travelers: not provided\n\n## Flights\n- Provide `origin` and `start_date` to generate flight search links.\n## Lodging\n- Provide `start_date` and `end_date` to generate lodging search links.\n## Day-by-day\n- Day 1: Arrival + neighborhood walk + street food in your destination.\n- Day 2: Top sights + museum/garden + evening market.\n- Day 3: Day trip or nature walk + local cuisine.\n- Day 4: Cultural highlights + shopping + relax.\n- Day 5: Flexible day + departure.\n## Transit\n- Use Google Maps for live routing.\n- Prefer public transit/walking in city centers; rideshare/taxi late night.\n- Build buffer time for traffic and station navigation.\n## Weather\n- [Weather search](https://www.google.com/search?q=your+destination+weather)\n## Calendar\n- Provide `start_date` and `end_date` to export an `.ics` calendar.\n## Things to do\n- [Google Maps (things to do)](https://www.google.com/maps/search/?api=1&query=Things+to+do+in+your+destination)\n\n## Budget\n- Heuristic split: flights 35–55%, lodging 25–40%, food+activities 15–30%, local transit 5–10%.\n- If you share a budget, I can tailor the itinerary and tradeoffs.\n\nNote: Visa/health requirements vary; verify with official sources (this is not legal advice)." :=
  eqS_eq (by decide)

theorem c8bStage4 : rFlights c8bState.constraints c8bState.tool_results (lit "# Trip plan\n\n## Summary\nPlanning trip to your destination.\n\n## Assumptions\n- start date: not provided\n- end date: not provided\n- origin: not provided\n- budget: not provided\n- travelers: not provided\n\n## Flights\n- Provide `origin` and `start_date` to generate flight search links.\n## Lodging\n- Provide `start_date` and `end_date` to generate lodging search links.\n## Day-by-day\n- Day 1: Arrival + neighborhood walk + street food in your destination.\n- Day 2: Top sights + museum/garden + evening market.\n- Day 3: Day trip or nature walk + local cuisine.\n- Day 4: Cultural highlights + shopping + relax.\n- Day 5: Flexible day + departure.\n## Transit\n- Use Google Maps for live routing.\n- Prefer public transit/walking in city centers; rideshare/taxi late night.\n- Build buffer time for traffic and station navigation.\n## Weather\n- [Weather search](https://www.google.com/search?q=your+destination+weather)\n## Calendar\n- Provide `start_date` and `end_date` to export an `.ics` calendar.\n## Things to do\n- [Google Maps (things to do)](https://www.google.com/maps/search/?api=1&query=Things+to+do+in+your+destination)\n\n## Budget\n- Heuristic split: flights 35–55%, lodging 25–40%, food+activities 15–30%, local transit 5–10%.\n- If you share a budget, I can tailor the itinerary and tradeoffs.\n\nNote: Visa/health requirements vary; verify with official sources (this is not legal advice).") = lit "# Trip plan\n\n## Summary\nPlanning trip to your destination.\n\n## Assumptions\n- start date: not provided\n- end date: not provided\n- origin: not provided\n- budget: not provided\n- travelers: not provided\n\n## Flights\n- Provide `origin` and `start_date` to generate flight search links.\n## Lodging\n- Provide `start_date` and `end_date` to generate lodging search links.\n## Day-by-day\n- Day 1: Arrival + neighborhood walk + street food in your destination.\n- Day 2: Top sights + museum/garden + evening market.\n- Day 3: Day trip or nature walk + local cuisine.\n- Day 4: Cultural highlights + shopping + relax.\n- Day 5: Flexible day + departure.\n## Transit\n- Use Google Maps for live routing.\n- Prefer public transit/walking in city centers; rideshare/taxi late night.\n- Build buffer time for traffic and station navigation.\n## Weather\n- [Weather search](https://www.google.com/search?q=your+destination+weather)\n## Calendar\n- Provide `start_date` and `end_date` to export an `.ics` calendar.\n## Things to do\n- [Google Maps (things to do)](https://www.google.com/maps/search/?api=1&query=Things+to+do+in+your+destination)\n\n## Budget\n- Heuristic split: flights 35–55%, lodging 25–40%, food+activities 15–30%, local transit 5–10%.\n- If you share a budget, I can tailor the itinerary and tradeoffs.\n\nNote: Visa/health requirements vary; verify with official sources (this is not legal advice)." :=
  eqS_eq (by decide)

theorem c8bStage5 : rLodging c8bState.constraints c8bState.tool_results (lit "# Trip plan\n\n## Summary\nPlanning trip to your destination.\n\n## Assumptions\n- start date: not provided\n- end date: not provided\n- origin: not provided\n- budget: not provided\n- travelers: not provided\n\n## Flights\n- Provide `origin` and `start_date` to generate flight search links.\n## Lodging\n- Provide `start_date` and `end_date` to generate lodging search links.\n## Day-by-day\n- Day 1: Arrival + neighborhood walk + street food in your destination.\n- Day 2: Top sights + museum/garden + evening market.\n- Day 3: Day trip or nature walk + local cuisine.\n- Day 4: Cultural highlights + shopping + relax.\n- Day 5: Flexible day + departure.\n## Transit\n- Use Google Maps for live routing.\n- Prefer public transit/walking in city centers; rideshare/taxi late night.\n- Build buffer time for traffic and station navigation.\n## Weather\n- [Weather search](https://www.google.com/search?q=your+destination+weather)\n## Calendar\n- Provide `start_date` and `end_date` to export an `.ics` calendar.\n## Things to do\n- [Google Maps (things to do)](https://www.google.com/maps/search/?api=1&query=Things+to+do+in+your+destination)\n\n## Budget\n- Heuristic split: flights 35–55%, lodging 25–40%, food+activities 15–30%, local transit 5–10%.\n- If you share a budget, I can tailor the itinerary and tradeoffs.\n\nNote: Visa/health requirements vary; verify with official sources (this is not legal advice).") = lit "# Trip plan\n\n## Summary\nPlanning trip to your destination.\n\n## Assumptions\n- start date: not provided\n- end date: not provided\n- origin: not provided\n- budget: not provided\n- travelers: not provided\n\n## Flights\n- Provide `origin` and `start_date` to generate flight search links.\n## Lodging\n- Provide `start_date` and `end_date` to generate lodging search links.\n## Day-by-day\n- Day 1: Arrival + neighborhood walk + street food in your destination.\n- Day 2: Top sights + museum/garden + evening market.\n- Day 3: Day trip or nature walk + local cuisine.\n- Day 4: Cultural highlights + shopping + relax.\n- Day 5: Flexible day + departure.\n## Transit\n- Use Google Maps for live routing.\n- Prefer public transit/walking in city centers; rideshare/taxi late night.\n- Build buffer time for traffic and station navigation.\n## Weather\n- [Weather search](https://www.google.com/search?q=your+destination+weather)\n## Calendar\n- Provide `start_date` and `end_date` to export an `.ics` calendar.\n## Things to do\n- [Google Maps (things to do)](https://www.google.com/maps/search/?api=1&query=Things+to+do+in+your+destination)\n\n## Budget\n- Heuristic split: flights 35–55%, lodging 25–40%, food+activities 15–30%, local transit 5–10%.\n- If you share a budget, I can tailor the itinerary and tradeoffs.\n\nNote: Visa/health requirements vary; verify with official sources (this is not legal advice)." :=
  eqS_eq (by decide)

theorem c8bStage6 : rThings c8bState.constraints c8bState.tool_results (lit "# Trip plan\n\n## Summary\nPlanning trip to your destination.\n\n## Assumptions\n- start date: not provided\n- end date: not provided\n- origin: not provided\n- budget: not provided\n- travelers: not provided\n\n## Flights\n- Provide `origin` and `start_date` to generate flight search links.\n## Lodging\n- Provide `start_date` and `end_date` to generate lodging search links.\n## Day-by-day\n- Day 1: Arrival + neighborhood walk + street food in your destination.\n- Day 2: Top sights + museum/garden + evening market.\n- Day 3: Day trip or nature walk + local cuisine.\n- Day 4: Cultural highlights + shopping + relax.\n- Day 5: Flexible day + departure.\n## Transit\n- Use Google Maps for live routing.\n- Prefer public transit/walking in city centers; rideshare/taxi late night.\n- Build buffer time for traffic and station navigation.\n## Weather\n- [Weather search](https://www.google.com/search?q=your+destination+weather)\n## Calendar\n- Provide `start_date` and `end_date` to export an `.ics` calendar.\n## Things to do\n- [Google Maps (things to do)](https://www.google.com/maps/search/?api=1&query=Things+to+do+in+your+destination)\n\n## Budget\n- Heuristic split: flights 35–55%, lodging 25–40%, food+activities 15–30%, local transit 5–10%.\n- If you share a budget, I can tailor the itinerary and tradeoffs.\n\nNote: Visa/health requirements vary; verify with official sources (this is not legal advice).") = lit "# Trip plan\n\n## Summary\nPlanning trip to your destination.\n\n## Assumptions\n- start date: not provided\n- end date: not provided\n- origin: not provided\n- budget: not provided\n- travelers: not provided\n\n## Flights\n- Provide `origin` and `start_date` to generate flight search links.\n## Lodging\n- Provide `start_date` and `end_date` to generate lodging search links.\n## Day-by-day\n- Day 1: Arrival + neighborhood walk + street food in your destination.\n- Day 2: Top sights + museum/garden + evening market.\n- Day 3: Day trip or nature walk + local cuisine.\n- Day 4: Cultural highlights + shopping + relax.\n- Day 5: Flexible day + departure.\n## Transit\n- Use Google Maps for live routing.\n- Prefer public transit/walking in city centers; rideshare/taxi late night.\n- Build buffer time for traffic and station navigation.\n## Weather\n- [Weather search](https://www.google.com/search?q=your+destination+weather)\n## Calendar\n- Provide `start_date` and `end_date` to export an `.ics` calendar.\n## Things to do\n- [Google Maps (things to do)](https://www.google.com/maps/search/?api=1&query=Things+to+do+in+your+destination)\n\n## Budget\n- Heuristic split: flights 35–55%, lodging 25–40%, food+activities 15–30%, local transit 5–10%.\n- If you share a budget, I can tailor the itinerary and tradeoffs.\n\nNote: Visa/health requirements vary; verify with official sources (this is not legal advice)." :=
  eqS_eq (by decide)

theorem c8bStage7 : rWeather c8bState.constraints c8bState.tool_results (lit "# Trip plan\n\n## Summary\nPlanning trip to your destination.\n\n## Assumptions\n- start date: not provided\n- end date: not provided\n- origin: not provided\n- budget: not provided\n- travelers: not provided\n\n## Flights\n- Provide `origin` and `start_date` to generate flight search links.\n## Lodging\n- Provide `start_date` and `end_date` to generate lodging search links.\n## Day-by-day\n- Day 1: Arrival + neighborhood walk + street food in your destination.\n- Day 2: Top sights + museum/garden + evening market.\n- Day 3: Day trip or nature walk + local cuisine.\n- Day 4: Cultural highlights + shopping + relax.\n- Day 5: Flexible day + departure.\n## Transit\n- Use Google Maps for live routing.\n- Prefer public transit/walking in city centers; rideshare/taxi late night.\n- Build buffer time for traffic and station navigation.\n## Weather\n- [Weather search](https://www.google.com/search?q=your+destination+weather)\n## Calendar\n- Provide `start_date` and `end_date` to export an `.ics` calendar.\n## Things to do\n- [Google Maps (things to do)](https://www.google.com/maps/search/?api=1&query=Things+to+do+in+your+destination)\n\n## Budget\n- Heuristic split: flights 35–55%, lodging 25–40%, food+activities 15–30%, local transit 5–10%.\n- If you share a budget, I can tailor the itinerary and tradeoffs.\n\nNote: Visa/health requirements vary; verify with official sources (this is not legal advice).") = lit "# Trip plan\n\n## Summary\nPlanning trip to your destination.\n\n## Assumptions\n- start date: not provided\n- end date: not provided\n- origin: not provided\n- budget: not provided\n- travelers: not provided\n\n## Flights\n- Provide `origin` and `start_date` to generate flight search links.\n## Lodging\n- Provide `start_date` and `end_date` to generate lodging search links.\n## Day-by-day\n- Day 1: Arrival + neighborhood walk + street food in your destination.\n- Day 2: Top sights + museum/garden + evening market.\n- Day 3: Day trip or nature walk + local cuisine.\n- Day 4: Cultural highlights + shopping + relax.\n- Day 5: Flexible day + departure.\n## Transit\n- Use Google Maps for live routing.\n- Prefer public transit/walking in city centers; rideshare/taxi late night.\n- Build buffer time for traffic and station navigation.\n## Weather\n- [Weather search](https://www.google.com/search?q=your+destination+weather)\n## Calendar\n- Provide `start_date` and `end_date` to export an `.ics` calendar.\n## Things to do\n- [Google Maps (things to do)](https://www.google.com/maps/search/?api=1&query=Things+to+do+in+your+destination)\n\n## Budget\n- Heuristic split: flights 35–55%, lodging 25–40%, food+activities 15–30%, local transit 5–10%.\n- If you share a budget, I can tailor the itinerary and tradeoffs.\n\nNote: Visa/health requirements vary; verify with official sources (this is not legal advice)." :=
  eqS_eq (by decide)

theorem c8bStage8 : rTransit (lit "# Trip plan\n\n## Summary\nPlanning trip to your destination.\n\n## Assumptions\n- start date: not provided\n- end date: not provided\n- origin: not provided\n- budget: not provided\n- travelers: not provided\n\n## Flights\n- Provide `origin` and `start_date` to generate flight search links.\n## Lodging\n- Provide `start_date` and `end_date` to generate lodging search links.\n## Day-by-day\n- Day 1: Arrival + neighborhood walk + street food in your destination.\n- Day 2: Top sights + museum/garden + evening market.\n- Day 3: Day trip or nature walk + local cuisine.\n- Day 4: Cultural highlights + shopping + relax.\n- Day 5: Flexible day + departure.\n## Transit\n- Use Google Maps for live routing.\n- Prefer public transit/walking in city centers; rideshare/taxi late night.\n- Build buffer time for traffic and station navigation.\n## Weather\n- [Weather search](https://www.google.com/search?q=your+destination+weather)\n## Calendar\n- Provide `start_date` and `end_date` to export an `.ics` calendar.\n## Things to do\n- [Google Maps (things to do)](https://www.google.com/maps/search/?api=1&query=Things+to+do+in+your+destination)\n\n## Budget\n- Heuristic split: flights 35–55%, lodging 25–40%, food+activities 15–30%, local transit 5–10%.\n- If you share a budget, I can tailor the itinerary and tradeoffs.\n\nNote: Visa/health requirements vary; verify with official sources (this is not legal advice).") = lit "# Trip plan\n\n## Summary\nPlanning trip to your destination.\n\n## Assumptions\n- start date: not provided\n- end date: not provided\n- origin: not provided\n- budget: not provided\n- travelers: not provided\n\n## Flights\n- Provide `origin` and `start_date` to generate flight search links.\n## Lodging\n- Provide `start_date` and `end_date` to generate lodging search links.\n## Day-by-day\n- Day 1: Arrival + neighborhood walk + street food in your destination.\n- Day 2: Top sights + museum/garden + evening market.\n- Day 3: Day trip or nature walk + local cuisine.\n- Day 4: Cultural highlights + shopping + relax.\n- Day 5: Flexible day + departure.\n## Transit\n- Use Google Maps for live routing.\n- Prefer public transit/walking in city centers; rideshare/taxi late night.\n- Build buffer time for traffic and station navigation.\n## Weather\n- [Weather search](https://www.google.com/search?q=your+destination+weather)\n## Calendar\n- Provide `start_date` and `end_date` to export an `.ics` calendar.\n## Things to do\n- [Google Maps (things to do)](https://www.google.com/maps/search/?api=1&query=Things+to+do+in+your+destination)\n\n## Budget\n- Heuristic split: flights 35–55%, lodging 25–40%, food+activities 15–30%, local transit 5–10%.\n- If you share a budget, I can tailor the itinerary and tradeoffs.\n\nNote: Visa/health requirements vary; verify with official sources (this is not legal advice)." :=
  eqS_eq (by decide)

theorem c8bStage9 : rDay c8bState.constraints (lit "# Trip plan\n\n## Summary\nPlanning trip to your destination.\n\n## Assumptions\n- start date: not provided\n- end date: not provided\n- origin: not provided\n- budget: not provided\n- travelers: not provided\n\n## Flights\n- Provide `origin` and `start_date` to generate flight search links.\n## Lodging\n- Provide `start_date` and `end_date` to generate lodging search links.\n## Day-by-day\n- Day 1: Arrival + neighborhood walk + street food in your destination.\n- Day 2: Top sights + museum/garden + evening market.\n- Day 3: Day trip or nature walk + local cuisine.\n- Day 4: Cultural highlights + shopping + relax.\n- Day 5: Flexible day + departure.\n## Transit\n- Use Google Maps for live routing.\n- Prefer public transit/walking in city centers; rideshare/taxi late night.\n- Build buffer time for traffic and station navigation.\n## Weather\n- [Weather search](https://www.google.com/search?q=your+destination+weather)\n## Calendar\n- Provide `start_date` and `end_date` to export an `.ics` calendar.\n## Things to do\n- [Google Maps (things to do)](https://www.google.com/maps/search/?api=1&query=Things+to+do+in+your+destination)\n\n## Budget\n- Heuristic split: flights 35–55%, lodging 25–40%, food+activities 15–30%, local transit 5–10%.\n- If you share a budget, I can tailor the itinerary and tradeoffs.\n\nNote: Visa/health requirements vary; verify with official sources (this is not legal advice).") = lit "# Trip plan\n\n## Summary\nPlanning trip to your destination.\n\n## Assumptions\n- start date: not provided\n- end date: not provided\n- origin: not provided\n- budget: not provided\n- travelers: not provided\n\n## Flights\n- Provide `origin` and `start_date` to generate flight search links.\n## Lodging\n- Provide `start_date` and `end_date` to generate lodging search links.\n## Day-by-day\n- Day 1: Arrival + neighborhood walk + street food in your destination.\n- Day 2: Top sights + museum/garden + evening market.\n- Day 3: Day trip or nature walk + local cuisine.\n- Day 4: Cultural highlights + shopping + relax.\n- Day 5: Flexible day + departure.\n## Transit\n- Use Google Maps for live routing.\n- Prefer public transit/walking in city centers; rideshare/taxi late night.\n- Build buffer time for traffic and station navigation.\n## Weather\n- [Weather search](https://www.google.com/search?q=your+destination+weather)\n## Calendar\n- Provide `start_date` and `end_date` to export an `.ics` calendar.\n## Things to do\n- [Google Maps (things to do)](https://www.google.com/maps/search/?api=1&query=Things+to+do+in+your+destination)\n\n## Budget\n- Heuristic split: flights 35–55%, lodging 25–40%, food+activities 15–30%, local transit 5–10%.\n- If you share a budget, I can tailor the itinerary and tradeoffs.\n\nNote: Visa/health requirements vary; verify with official sources (this is not legal advice)." :=
  eqS_eq (by decide)

theorem c8bStage10 : rBudget c8bState.constraints (lit "# Trip plan\n\n## Summary\nPlanning trip to your destination.\n\n## Assumptions\n- start date: not provided\n- end date: not provided\n- origin: not provided\n- budget: not provided\n- travelers: not provided\n\n## Flights\n- Provide `origin` and `start_date` to generate flight search links.\n## Lodging\n- Provide `start_date` and `end_date` to generate lodging search links.\n## Day-by-day\n- Day 1: Arrival + neighborhood walk + street food in your destination.\n- Day 2: Top sights + museum/garden + evening market.\n- Day 3: Day trip or nature walk + local cuisine.\n- Day 4: Cultural highlights + shopping + relax.\n- Day 5: Flexible day + departure.\n## Transit\n- Use Google Maps for live routing.\n- Prefer public transit/walking in city centers; rideshare/taxi late night.\n- Build buffer time for traffic and station navigation.\n## Weather\n- [Weather search](https://www.google.com/search?q=your+destination+weather)\n## Calendar\n- Provide `start_date` and `end_date` to export an `.ics` calendar.\n## Things to do\n- [Google Maps (things to do)](https://www.google.com/maps/search/?api=1&query=Things+to+do+in+your+destination)\n\n## Budget\n- Heuristic split: flights 35–55%, lodging 25–40%, food+activities 15–30%, local transit 5–10%.\n- If you share a budget, I can tailor the itinerary and tradeoffs.\n\nNote: Visa/health requirements vary; verify with official sources (this is not legal advice).") = lit "# Trip plan\n\n## Summary\nPlanning trip to your destination.\n\n## Assumptions\n- start date: not provided\n- end date: not provided\n- origin: not provided\n- budget: not provided\n- travelers: not provided\n\n## Flights\n- Provide `origin` and `start_date` to generate flight search links.\n## Lodging\n- Provide `start_date` and `end_date` to generate lodging search links.\n## Day-by-day\n- Day 1: Arrival + neighborhood walk + street food in your destination.\n- Day 2: Top sights + museum/garden + evening market.\n- Day 3: Day trip or nature walk + local cuisine.\n- Day 4: Cultural highlights + shopping + relax.\n- Day 5: Flexible day + departure.\n## Transit\n- Use Google Maps for live routing.\n- Prefer public transit/walking in city centers; rideshare/taxi late night.\n- Build buffer time for traffic and station navigation.\n## Weather\n- [Weather search](https://www.google.com/search?q=your+destination+weather)\n## Calendar\n- Provide `start_date` and `end_date` to export an `.ics` calendar.\n## Things to do\n- [Google Maps (things to do)](https://www.google.com/maps/search/?api=1&query=Things+to+do+in+your+destination)\n\n## Budget\n- Heuristic split: flights 35–55%, lodging 25–40%, food+activities 15–30%, local transit 5–10%.\n- If you share a budget, I can tailor the itinerary and tradeoffs.\n\nNote: Visa/health requirements vary; verify with official sources (this is not legal advice)." :=
  eqS_eq (by decide)

theorem c8bStage11 : rCalendar c8bState.constraints (lit "# Trip plan\n\n## Summary\nPlanning trip to your destination.\n\n## Assumptions\n- start date: not provided\n- end date: not provided\n- origin: not provided\n- budget: not provided\n- travelers: not provided\n\n## Flights\n- Provide `origin` and `start_date` to generate flight search links.\n## Lodging\n- Provide `start_date` and `end_date` to generate lodging search links.\n## Day-by-day\n- Day 1: Arrival + neighborhood walk + street food in your destination.\n- Day 2: Top sights + museum/garden + evening market.\n- Day 3: Day trip or nature walk + local cuisine.\n- Day 4: Cultural highlights + shopping + relax.\n- Day 5: Flexible day + departure.\n## Transit\n- Use Google Maps for live routing.\n- Prefer public transit/walking in city centers; rideshare/taxi late night.\n- Build buffer time for traffic and station navigation.\n## Weather\n- [Weather search](https://www.google.com/search?q=your+destination+weather)\n## Calendar\n- Provide `start_date` and `end_date` to export an `.ics` calendar.\n## Things to do\n- [Google Maps (things to do)](https://www.google.com/maps/search/?api=1&query=Things+to+do+in+your+destination)\n\n## Budget\n- Heuristic split: flights 35–55%, lodging 25–40%, food+activities 15–30%, local transit 5–10%.\n- If you share a budget, I can tailor the itinerary and tradeoffs.\n\nNote: Visa/health requirements vary; verify with official sources (this is not legal advice).") = lit "# Trip plan\n\n## Summary\nPlanning trip to your destination.\n\n## Assumptions\n- start date: not provided\n- end date: not provided\n- origin: not provided\n- budget: not provided\n- travelers: not provided\n\n## Flights\n- Provide `origin` and `start_date` to generate flight search links.\n## Lodging\n- Provide `start_date` and `end_date` to generate lodging search links.\n## Day-by-day\n- Day 1: Arrival + neighborhood walk + street food in your destination.\n- Day 2: Top sights + museum/garden + evening market.\n- Day 3: Day trip or nature walk + local cuisine.\n- Day 4: Cultural highlights + shopping + relax.\n- Day 5: Flexible day + departure.\n## Transit\n- Use Google Maps for live routing.\n- Prefer public transit/walking in city centers; rideshare/taxi late night.\n- Build buffer time for traffic and station navigation.\n## Weather\n- [Weather search](https://www.google.com/search?q=your+destination+weather)\n## Calendar\n- Provide `start_date` and `end_date` to export an `.ics` calendar.\n## Things to do\n- [Google Maps (things to do)](https://www.google.com/maps/search/?api=1&query=Things+to+do+in+your+destination)\n\n## Budget\n- Heuristic split: flights 35–55%, lodging 25–40%, food+activities 15–30%, local transit 5–10%.\n- If you share a budget, I can tailor the itinerary and tradeoffs.\n\nNote: Visa/health requirements vary; verify with official sources (this is not legal advice)." :=
  eqS_eq (by decide)

theorem c8bStage12 : rFinal (lit "# Trip plan\n\n## Summary\nPlanning trip to your destination.\n\n## Assumptions\n- start date: not provided\n- end date: not provided\n- origin: not provided\n- budget: not provided\n- travelers: not provided\n\n## Flights\n- Provide `origin` and `start_date` to generate flight search links.\n## Lodging\n- Provide `start_date` and `end_date` to generate lodging search links.\n## Day-by-day\n- Day 1: Arrival + neighborhood walk + street food in your destination.\n- Day 2: Top sights + museum/garden + evening market.\n- Day 3: Day trip or nature walk + local cuisine.\n- Day 4: Cultural highlights + shopping + relax.\n- Day 5: Flexible day + departure.\n## Transit\n- Use Google Maps for live routing.\n- Prefer public transit/walking in city centers; rideshare/taxi late night.\n- Build buffer time for traffic and station navigation.\n## Weather\n- [Weather search](https://www.google.com/search?q=your+destination+weather)\n## Calendar\n- Provide `start_date` and `end_date` to export an `.ics` calendar.\n## Things to do\n- [Google Maps (things to do)](https://www.google.com/maps/search/?api=1&query=Things+to+do+in+your+destination)\n\n## Budget\n- Heuristic split: flights 35–55%, lodging 25–40%, food+activities 15–30%, local transit 5–10%.\n- If you share a budget, I can tailor the itinerary and tradeoffs.\n\nNote: Visa/health requirements vary; verify with official sources (this is not legal advice).") = lit "# Trip plan\n\n## Summary\nPlanning trip to your destination.\n\n## Assumptions\n- start date: not provided\n- end date: not provided\n- origin: not provided\n- budget: not provided\n- travelers: not provided\n\n## Flights\n- Provide `origin` and `start_date` to generate flight search links.\n## Lodging\n- Provide `start_date` and `end_date` to generate lodging search links.\n## Day-by-day\n- Day 1: Arrival + neighborhood walk + street food in your destination.\n- Day 2: Top sights + museum/garden + evening market.\n- Day 3: Day trip or nature walk + local cuisine.\n- Day 4: Cultural highlights + shopping + relax.\n- Day 5: Flexible day + departure.\n## Transit\n- Use Google Maps for live routing.\n- Prefer public transit/walking in city centers; rideshare/taxi late night.\n- Build buffer time for traffic and station navigation.\n## Weather\n- [Weather search](https://www.google.com/search?q=your+destination+weather)\n## Calendar\n- Provide `start_date` and `end_date` to export an `.ics` calendar.\n## Things to do\n- [Google Maps (things to do)](https://www.google.com/maps/search/?api=1&query=Things+to+do+in+your+destination)\n\n## Budget\n- Heuristic split: flights 35–55%, lodging 25–40%, food+activities 15–30%, local transit 5–10%.\n- If you share a budget, I can tailor the itinerary and tradeoffs.\n\nNote: Visa/health requirements vary; verify with official sources (this is not legal advice).\n" :=
  eqS_eq (by decide)


/-- First responder pass on `c6State`, stage by stage. -/
theorem c6Answer : (responder c6State).final_answer = lit "## Flights\n- Provide `origin` and `start_date` to generate flight search links.\n## Assumptions\n- start date: not provided\n- end date: not provided\n- origin: not provided\n- budget: not provided\n- travelers: not provided\n\n## Summary\n\n## Lodging\n- Provide `start_date` and `end_date` to generate lodging search links.\n## Day-by-day\n- Day 1: Arrival + neighborhood walk + street food in Tokyo.\n- Day 2: Top sights + museum/garden + evening market.\n- Day 3: Day trip or nature walk + local cuisine.\n- Day 4: Cultural highlights + shopping + relax.\n- Day 5: Flexible day + departure.\n## Transit\n- Use Google Maps for live routing.\n- Prefer public transit/walking in city centers; rideshare/taxi late night.\n- Build buffer time for traffic and station navigation.\n## Weather\n- [Weather search](https://www.google.com/search?q=Tokyo+weather)\n## Calendar\n- Provide `start_date` and `end_date` to export an `.ics` calendar.\n## Things to do\n- [Google Maps (things to do)](https://www.google.com/maps/search/?api=1&query=Things+to+do+in+Tokyo)\n\n## Budget\n- Heuristic split: flights 35–55%, lodging 25–40%, food+activities 15–30%, local transit 5–10%.\n- If you share a budget, I can tailor the itinerary and tradeoffs.\n" := by
  simp only [responder]
  rw [c6Stage1, c6Stage2, c6Stage3, c6Stage4, c6Stage5, c6Stage6, c6Stage7,
      c6Stage8, c6Stage9, c6Stage10, c6Stage11, c6Stage12]

/-- Responder pass on `c7State`. -/
theorem c7Answer : (responder c7State).final_answer = lit "## Summary\nfare: 12 and [price omitted] fee\n\nNote: Visa/health requirements vary; verify with official sources (this is not legal advice).\n## Assumptions\n- start date: not provided\n- end date: not provided\n- origin: not provided\n- budget: not provided\n- travelers: not provided\n\n## Flights\n- Provide `origin` and `start_date` to generate flight search links.\n## Lodging\n- Provide `start_date` and `end_date` to generate lodging search links.\n## Day-by-day\n- Day 1: Arrival + neighborhood walk + street food in Tokyo.\n- Day 2: Top sights + museum/garden + evening market.\n- Day 3: Day trip or nature walk + local cuisine.\n- Day 4: Cultural highlights + shopping + relax.\n- Day 5: Flexible day + departure.\n## Transit\n- Use Google Maps for live routing.\n- Prefer public transit/walking in city centers; rideshare/taxi late night.\n- Build buffer time for traffic and station navigation.\n## Weather\n- [Weather search](https://www.google.com/search?q=Tokyo+weather)\n## Calendar\n- Provide `start_date` and `end_date` to export an `.ics` calendar.\n## Things to do\n- [Google Maps (things to do)](https://www.google.com/maps/search/?api=1&query=Things+to+do+in+Tokyo)\n\n## Budget\n- Heuristic split: flights 35–55%, lodging 25–40%, food+activities 15–30%, local transit 5–10%.\n- If you share a budget, I can tailor the itinerary and tradeoffs.\n" := by
  simp only [responder]
  rw [c7Stage1, c7Stage2, c7Stage3, c7Stage4, c7Stage5, c7Stage6, c7Stage7,
      c7Stage8, c7Stage9, c7Stage10, c7Stage11, c7Stage12]

/-- First responder pass on `c8State` returns `c8bState`. -/
theorem c8FirstRun : responder c8State = c8bState := by
  simp only [responder]
  rw [c8aStage1, c8aStage2, c8aStage3, c8aStage4, c8aStage5, c8aStage6,
      c8aStage7, c8aStage8, c8aStage9, c8aStage10, c8aStage11, c8aStage12]
  rfl

/-- Second responder pass, on its own first output. -/
theorem c8SecondAnswer : (responder (responder c8State)).final_answer = lit "# Trip plan\n\n## Summary\nPlanning trip to your destination.\n\n## Assumptions\n- start date: not provided\n- end date: not provided\n- origin: not provided\n- budget: not provided\n- travelers: not provided\n\n## Flights\n- Provide `origin` and `start_date` to generate flight search links.\n## Lodging\n- Provide `start_date` and `end_date` to generate lodging search links.\n## Day-by-day\n- Day 1: Arrival + neighborhood walk + street food in your destination.\n- Day 2: Top sights + museum/garden + evening market.\n- Day 3: Day trip or nature walk + local cuisine.\n- Day 4: Cultural highlights + shopping + relax.\n- Day 5: Flexible day + departure.\n## Transit\n- Use Google Maps for live routing.\n- Prefer public transit/walking in city centers; rideshare/taxi late night.\n- Build buffer time for traffic and station navigation.\n## Weather\n- [Weather search](https://www.google.com/search?q=your+destination+weather)\n## Calendar\n- Provide `start_date` and `end_date` to export an `.ics` calendar.\n## Things to do\n- [Google Maps (things to do)](https://www.google.com/maps/search/?api=1&query=Things+to+do+in+your+destination)\n\n## Budget\n- Heuristic split: flights 35–55%, lodging 25–40%, food+activities 15–30%, local transit 5–10%.\n- If you share a budget, I can tailor the itinerary and tradeoffs.\n\nNote: Visa/health requirements vary; verify with official sources (this is not legal advice).\n" := by
  rw [c8FirstRun]
  simp only [responder]
  rw [c8bStage1, c8bStage2, c8bStage3, c8bStage4, c8bStage5, c8bStage6,
      c8bStage7, c8bStage8, c8bStage9, c8bStage10, c8bStage11, c8bStage12]


/-! ## C1 — orchestrator iteration bound -/

/-- Auxiliary: a successful `findIdx?` returns an in-range index whose
element satisfies the predicate. -/
theorem findIdx?_some_get {β : Type} (p : β → Bool) :
    ∀ (l : List β) (i : Nat), l.findIdx? p = some i →
    ∃ x, l[i]? = some x ∧ p x = true := by
  intro l
  induction l with
  | nil => intro i h; simp [List.findIdx?] at h
  | cons a as ih =>
    intro i h
    rw [List.findIdx?_cons] at h
    by_cases hp : p a
    · simp [hp] at h
      exact ⟨a, by simp [← h], hp⟩
    · simp [hp] at h
      obtain ⟨j, hj, rfl⟩ := h
      obtain ⟨x, hx, hpx⟩ := ih j hj
      exact ⟨x, by simpa using hx, hpx⟩

/-- C1 (counterexample).  The claim says `loop_iterations ≤ max_iters` at
every tick and that the orchestrator terminates with `"max_iters"` when
`loop_iterations` *equals* `max_iters`.  With `max_iters = 2`: a tick from
`loop_iterations = 1` reaches `2 = max_iters` yet selects the pending step
and sets no `"max_iters"` termination; a tick from `loop_iterations = 2`
reaches `3 > max_iters`. -/
theorem c1_counterexample :
    (orchestrator 2 ⟨1, false, [⟨"s1", "t", "pending"⟩], none, 0, none⟩).loop_iterations = 2 ∧
    (orchestrator 2 ⟨1, false, [⟨"s1", "t", "pending"⟩], none, 0, none⟩).termination_reason ≠
      some "max_iters" ∧
    (orchestrator 2 ⟨2, false, [⟨"s1", "t", "pending"⟩], none, 0, none⟩).loop_iterations = 3 := by
  decide

/-- C1 (amended).  Each orchestrator tick increments `loop_iterations` by
one; from any state not yet past the cap it stays `≤ max_iters + 1`, and
the tick terminates with `current_step = {}`,
`current_step_index = len(plan)` and `termination_reason = "max_iters"`
exactly when the incremented counter exceeds `max_iters` (i.e. reaches
`max_iters + 1`), not when it equals `max_iters`. -/
theorem c1_amended (maxIters : Nat) (s : OState)
    (h : s.loop_iterations ≤ maxIters) :
    (orchestrator maxIters s).loop_iterations = s.loop_iterations + 1 ∧
    (orchestrator maxIters s).loop_iterations ≤ maxIters + 1 ∧
    ((orchestrator maxIters s).loop_iterations > maxIters ↔
      ((orchestrator maxIters s).termination_reason = some "max_iters" ∧
       (orchestrator maxIters s).current_step = none ∧
       (orchestrator maxIters s).current_step_index = s.plan.length)) := by
  unfold orchestrator
  by_cases hgt : s.loop_iterations + 1 > maxIters
  · simp [hgt]; omega
  · cases hfind : s.plan.findIdx? (fun st => st.status == "pending") with
    | none => simp [hgt, hfind]; omega
    | some i =>
      obtain ⟨x, hx, _⟩ := findIdx?_some_get _ _ _ hfind
      simp [hgt, hfind]
      have hlt : i < s.plan.length := by
        rcases List.getElem?_eq_some.mp hx with ⟨h', _⟩
        exact h'
      exact ⟨h, fun _ hle => by omega⟩

/-- C1 witness for the amended theorem, at `max_iters = 2` from a fresh
state. -/
theorem c1_amended_witness :
    (0 : Nat) ≤ 2 ∧
    ((orchestrator 2 ⟨0, false, [], none, 0, none⟩).loop_iterations = 0 + 1 ∧
     (orchestrator 2 ⟨0, false, [], none, 0, none⟩).loop_iterations ≤ 2 + 1 ∧
     ((orchestrator 2 ⟨0, false, [], none, 0, none⟩).loop_iterations > 2 ↔
       ((orchestrator 2 ⟨0, false, [], none, 0, none⟩).termination_reason = some "max_iters" ∧
        (orchestrator 2 ⟨0, false, [], none, 0, none⟩).current_step = none ∧
        (orchestrator 2 ⟨0, false, [], none, 0, none⟩).current_step_index =
          (⟨0, false, [], none, 0, none⟩ : OState).plan.length))) :=
  ⟨by decide, c1_amended 2 ⟨0, false, [], none, 0, none⟩ (by decide)⟩


/-! ## C2 — plan-step status transitions -/

/-- Auxiliary: reading an index of `l.set j a`. -/
theorem set_getElem?_cases {β : Type} (l : List β) (j i : Nat) (a x : β)
    (h : (l.set j a)[i]? = some x) :
    (l[i]? = some x) ∨ (i = j ∧ j < l.length ∧ x = a) := by
  by_cases hij : i = j
  · subst hij
    by_cases hlt : i < l.length
    · right
      refine ⟨rfl, hlt, ?_⟩
      rw [List.getElem?_set_self hlt] at h
      exact (Option.some_inj.mp h).symm
    · left
      rwa [List.set_eq_of_length_le (by omega)] at h
  · left
    rwa [List.getElem?_set_ne (fun hh => hij hh.symm)] at h

/-- Auxiliary: reading an index of `setPlanStatus plan idx stt`. -/
theorem setPlanStatus_getElem? {α : Type} (plan : List (EStep α)) (idx i : Nat)
    (stt : String) (st' : EStep α)
    (h : (setPlanStatus plan idx stt)[i]? = some st') :
    (plan[i]? = some st') ∨
    (i = idx ∧ ∃ old, plan[idx]? = some old ∧ st' = { old with status := stt }) := by
  unfold setPlanStatus at h
  cases hold : plan[idx]? with
  | none => rw [hold] at h; exact Or.inl h
  | some old =>
    rw [hold] at h
    rcases set_getElem?_cases _ _ _ _ _ h with h1 | ⟨rfl, _, rfl⟩
    · exact Or.inl h1
    · exact Or.inr ⟨rfl, ⟨old, rfl, rfl⟩⟩

/-- Auxiliary: the executor's output plan is either unchanged or the
current step index set to `"done"` or `"blocked"`. -/
theorem executor_plan_shape {α : Type}
    (tools : String → Option α → Nat → Except String ToolOut)
    (llm : EState α → String) (memory : Option (String → List EHit))
    (getQuery : α → Option String) (maxR : Nat) (s : EState α) (m : MetricsC) :
    (executor tools llm memory getQuery maxR s m).1.plan = s.plan ∨
    ∃ stt, (stt = "done" ∨ stt = "blocked") ∧
      (executor tools llm memory getQuery maxR s m).1.plan =
        setPlanStatus s.plan s.current_step_index stt := by
  unfold executor
  cases s.current_step with
  | none => exact Or.inl rfl
  | some step =>
    by_cases h1 : step.step_type = "RETRIEVE_CONTEXT"
    · simp only [h1, if_true]
      cases memory with
      | none => exact Or.inr ⟨"blocked", Or.inr rfl, rfl⟩
      | some search => exact Or.inr ⟨"done", Or.inl rfl, rfl⟩
    · simp only [h1, if_false]
      by_cases h2 : step.step_type = "TOOL_CALL" ∧ truthyToolName step.tool_name = true
      · have h2' : (decide (step.step_type = "TOOL_CALL") && truthyToolName step.tool_name) = true := by
          simp [h2.1, h2.2]
        simp only [h2', if_true]
        cases (toolLoopF (tools (step.tool_name.getD "") step.tool_args) maxR
            (maxR + 1) 0 none m).2.1 with
        | none => exact Or.inr ⟨"blocked", Or.inr rfl, rfl⟩
        | some o => exact Or.inr ⟨"done", Or.inl rfl, rfl⟩
      · have h2' : (decide (step.step_type = "TOOL_CALL") && truthyToolName step.tool_name) = false := by
          rcases Decidable.not_and_iff_or_not.mp h2 with h | h
          · simp [h]
          · simp [Bool.eq_false_iff.mpr h]
        simp only [h2', if_false]
        exact Or.inr ⟨"done", Or.inl rfl, rfl⟩

/-- C2 (counterexample).  Issue triage moves a step that is already in the
terminal state `blocked` to `done` — the repository's own tests assert
exactly this skip transition. -/
theorem c2_counterexample :
    (⟨none, [⟨"s1", "blocked", ""⟩], some ⟨some "s1", "tool_error", "boom"⟩,
      true, []⟩ : TState).plan = [⟨"s1", "blocked", ""⟩] ∧
    (issue_triage ⟨none, [⟨"s1", "blocked", ""⟩],
      some ⟨some "s1", "tool_error", "boom"⟩, true, []⟩).plan =
      [⟨"s1", "done", "\nSkipped due to tool failure."⟩] := by
  constructor
  · rfl
  · rfl

/-- C2 (amended).  Issue triage changes only the status of the step
referenced by `pending_issue`, and only to `done` (so a `blocked` step may
become `done` — the skip policy — while `done` is never exited).  The
executor, run on the orchestrator-selected pending step, changes only that
step's status and only from `pending` to `done` or `blocked`. -/
theorem c2_amended :
    (∀ (s : TState) (i : Nat) (st' : TStep),
       (issue_triage s).plan[i]? = some st' →
       ∃ st, s.plan[i]? = some st ∧ st'.id = st.id ∧
         (st'.status = st.status ∨ st'.status = "done")) ∧
    (∀ (α : Type) (tools : String → Option α → Nat → Except String ToolOut)
       (llm : EState α → String) (memory : Option (String → List EHit))
       (getQuery : α → Option String) (maxR : Nat) (s : EState α) (m : MetricsC)
       (st0 : EStep α),
       s.plan[s.current_step_index]? = some st0 →
       st0.status = "pending" →
       ∀ (i : Nat) (st' : EStep α),
         (executor tools llm memory getQuery maxR s m).1.plan[i]? = some st' →
         ∃ st, s.plan[i]? = some st ∧
           (st'.status = st.status ∨
            (st.status = "pending" ∧ (st'.status = "done" ∨ st'.status = "blocked")))) := by
  constructor
  · intro s i st' h
    cases hp : s.pending_issue with
    | none =>
      simp only [issue_triage, hp] at h
      exact ⟨st', h, rfl, Or.inl rfl⟩
    | some issue =>
      simp only [issue_triage, hp] at h
      cases hf : find_step_index s.plan issue.step_id with
      | none =>
        rw [hf] at h
        exact ⟨st', h, rfl, Or.inl rfl⟩
      | some j =>
        rw [hf] at h
        dsimp only at h
        cases hold : s.plan[j]? with
        | none =>
          rw [hold] at h
          exact ⟨st', h, rfl, Or.inl rfl⟩
        | some old =>
          rw [hold] at h
          rcases set_getElem?_cases _ _ _ _ _ h with h1 | ⟨rfl, _, rfl⟩
          · exact ⟨st', h1, rfl, Or.inl rfl⟩
          · exact ⟨old, hold, rfl, Or.inr rfl⟩
  · intro α tools llm memory getQuery maxR s m st0 h0 hpend i st' h
    rcases executor_plan_shape tools llm memory getQuery maxR s m with hsh | ⟨stt, hstt, hsh⟩
    · rw [hsh] at h
      exact ⟨st', h, Or.inl rfl⟩
    · rw [hsh] at h
      rcases setPlanStatus_getElem? _ _ _ _ _ h with h1 | ⟨rfl, old, hold, rfl⟩
      · exact ⟨st', h1, Or.inl rfl⟩
      · have : old = st0 := by rw [hold] at h0; exact Option.some_inj.mp h0
        subst this
        rcases hstt with rfl | rfl
        · exact ⟨old, hold, Or.inr ⟨hpend, Or.inl rfl⟩⟩
        · exact ⟨old, hold, Or.inr ⟨hpend, Or.inr rfl⟩⟩

/-- C2 witness: the amended theorem at concrete inputs — triage on the
counterexample state, and the executor on a one-step pending plan with no
memory. -/
theorem c2_amended_witness :
    (∃ st, ([⟨"s1", "blocked", ""⟩] : List TStep)[0]? = some st ∧
      (⟨"s1", "done", "\nSkipped due to tool failure."⟩ : TStep).id = st.id ∧
      ((⟨"s1", "done", "\nSkipped due to tool failure."⟩ : TStep).status = st.status ∨
       (⟨"s1", "done", "\nSkipped due to tool failure."⟩ : TStep).status = "done")) := by
  have h := c2_amended.1
    ⟨none, [⟨"s1", "blocked", ""⟩], some ⟨some "s1", "tool_error", "boom"⟩, true, []⟩
    0 ⟨"s1", "done", "\nSkipped due to tool failure."⟩ (by decide)
  exact h


/-! ## C3 — tool retry exhaustion -/

/-- Auxiliary: when every invocation raises, the retry loop performs one
attempt per unit of fuel, ending with the last error and the counter
increments of executor.py lines 100-146. -/
theorem toolLoopF_allFail (tool : Nat → Except String ToolOut) (maxR : Nat)
    (err : String) (hfail : ∀ k, tool k = Except.error err) :
    ∀ (fuel a : Nat) (le : Option String) (m : MetricsC),
      a + fuel = maxR + 1 → 1 ≤ fuel →
      toolLoopF tool maxR fuel a le m =
        (maxR + 1, none, some err,
         { m with tool_calls := m.tool_calls + fuel,
                  tool_errors := m.tool_errors + fuel,
                  tool_retries := m.tool_retries + (fuel - 1) }) := by
  intro fuel
  induction fuel with
  | zero => intro a le m _ h1; omega
  | succ f ih =>
    intro a le m hsum _
    have ha : a ≤ maxR := by omega
    unfold toolLoopF
    rw [if_pos ha]
    dsimp only
    rw [hfail (a + 1)]
    dsimp only
    cases f with
    | zero =>
      unfold toolLoopF
      rw [if_neg (by omega)]
      have hif : (if a + 1 ≤ maxR then 1 else 0) = 0 := by rw [if_neg (by omega)]
      simp only [hif, Prod.mk.injEq, MetricsC.mk.injEq, and_true, true_and]
      omega
    | succ f' =>
      rw [ih (a + 1) (some err) _ (by omega) (by omega)]
      have hif : (if a + 1 ≤ maxR then 1 else 0) = 1 := by rw [if_pos (by omega)]
      simp only [hif, Prod.mk.injEq, MetricsC.mk.injEq, and_true, true_and]
      omega
/-- C3.  When the current step is a `TOOL_CALL` whose tool raises on every
invocation, the executor makes exactly `1 + max_tool_retries` attempts
(visible in the `tool_calls`/`tool_errors` counters, the `tool_retries`
count of `max_tool_retries`, and the issue's recorded attempt count),
appends a `tool_error` issue whose severity is `major` exactly for
`flights_search_links`/`hotels_search_links` and `minor` otherwise, sets it
as `pending_issue`, sets `needs_triage`, and marks the step `blocked`.
(The loop body contains no sleep; timing is outside the embedding.) -/
theorem c3_retry_exhaustion {α : Type}
    (tools : String → Option α → Nat → Except String ToolOut)
    (llm : EState α → String) (memory : Option (String → List EHit))
    (getQuery : α → Option String) (maxR : Nat) (s : EState α) (m : MetricsC)
    (step : EStep α) (nm : String) (err : String)
    (hcs : s.current_step = some step)
    (hty : step.step_type = "TOOL_CALL")
    (hnm : step.tool_name = some nm)
    (hne : ¬nm = "")
    (hidx : s.current_step_index < s.plan.length)
    (hfail : ∀ k, tools nm step.tool_args k = Except.error err) :
    ∃ st, s.plan[s.current_step_index]? = some st ∧
    (executor tools llm memory getQuery maxR s m).1 =
      { s with
        issues := s.issues ++ [⟨"tool_error",
          (if nm = "flights_search_links" ∨ nm = "hotels_search_links"
           then "major" else "minor"), "executor", some step.id, some nm,
          String.mk (lit "Tool '" ++ nm.data ++ lit "' failed after " ++
            natStr (maxR + 1) ++ lit " attempt(s): " ++ err.data),
          ["retry", "skip", "modify_inputs"], step.tool_args, maxR + 1⟩],
        pending_issue := some ⟨"tool_error",
          (if nm = "flights_search_links" ∨ nm = "hotels_search_links"
           then "major" else "minor"), "executor", some step.id, some nm,
          String.mk (lit "Tool '" ++ nm.data ++ lit "' failed after " ++
            natStr (maxR + 1) ++ lit " attempt(s): " ++ err.data),
          ["retry", "skip", "modify_inputs"], step.tool_args, maxR + 1⟩,
        needs_triage := true,
        plan := s.plan.set s.current_step_index { st with status := "blocked" } } ∧
    (executor tools llm memory getQuery maxR s m).2 =
      { m with tool_calls := m.tool_calls + (maxR + 1),
               tool_errors := m.tool_errors + (maxR + 1),
               tool_retries := m.tool_retries + maxR } := by
  obtain ⟨st, hst⟩ : ∃ st, s.plan[s.current_step_index]? = some st :=
    ⟨s.plan.get ⟨s.current_step_index, hidx⟩, (List.getElem?_eq_some).mpr ⟨hidx, rfl⟩⟩
  refine ⟨st, hst, ?_⟩
  have hty' : ¬step.step_type = "RETRIEVE_CONTEXT" := by rw [hty]; decide
  have htn : truthyToolName step.tool_name = true := by
    rw [hnm]; simp [truthyToolName, hne]
  have hget : step.tool_name.getD "" = nm := by rw [hnm]; rfl
  unfold executor
  rw [hcs]
  dsimp only
  rw [if_neg hty']
  rw [hty, hget, htn]
  simp only [decide_True, Bool.true_and, if_true]
  rw [toolLoopF_allFail (tools nm step.tool_args) maxR err hfail (maxR + 1) 0
    none m (by omega) (by omega)]
  dsimp only
  constructor
  · unfold setPlanStatus
    rw [hst]
    by_cases h1 : nm = "flights_search_links" ∨ nm = "hotels_search_links"
    · have hb : ((nm == "flights_search_links") || (nm == "hotels_search_links")) = true := by
        rcases h1 with h | h <;> simp [h]
      rw [hb, if_pos h1]
      rfl
    · have hb : ((nm == "flights_search_links") || (nm == "hotels_search_links")) = false := by
        push_neg at h1
        simp [h1.1, h1.2]
      rw [hb, if_neg h1]
      rfl
  · rfl

/-- C3 witness: a tool that always raises, `max_tool_retries = 1`, on a
single-step plan. -/
theorem c3_retry_exhaustion_witness :
    ∃ st, w3State.plan[w3State.current_step_index]? = some st ∧
    (executor w3Tools (fun _ => "") none (fun _ => none) 1 w3State ⟨0, 0, 0, 0, 0⟩).1 =
      { w3State with
        issues := w3State.issues ++ [⟨"tool_error",
          (if "mytool" = "flights_search_links" ∨ "mytool" = "hotels_search_links"
           then "major" else "minor"), "executor", some w3Step.id, some "mytool",
          String.mk (lit "Tool '" ++ "mytool".data ++ lit "' failed after " ++
            natStr (1 + 1) ++ lit " attempt(s): " ++ "boom".data),
          ["retry", "skip", "modify_inputs"], w3Step.tool_args, 1 + 1⟩],
        pending_issue := some ⟨"tool_error",
          (if "mytool" = "flights_search_links" ∨ "mytool" = "hotels_search_links"
           then "major" else "minor"), "executor", some w3Step.id, some "mytool",
          String.mk (lit "Tool '" ++ "mytool".data ++ lit "' failed after " ++
            natStr (1 + 1) ++ lit " attempt(s): " ++ "boom".data),
          ["retry", "skip", "modify_inputs"], w3Step.tool_args, 1 + 1⟩,
        needs_triage := true,
        plan := w3State.plan.set w3State.current_step_index { st with status := "blocked" } } ∧
    (executor w3Tools (fun _ => "") none (fun _ => none) 1 w3State ⟨0, 0, 0, 0, 0⟩).2 =
      { (⟨0, 0, 0, 0, 0⟩ : MetricsC) with
          tool_calls := 0 + (1 + 1),
          tool_errors := 0 + (1 + 1),
          tool_retries := 0 + 1 } :=
  c3_retry_exhaustion w3Tools (fun _ => "") none (fun _ => none) 1 w3State
    ⟨0, 0, 0, 0, 0⟩ w3Step "mytool" "boom" rfl rfl rfl (by decide) (by decide)
    (fun _ => rfl)


/-! ## C4 — final evaluation status -/

/-- C4.  `evaluate_final` returns `"good"` iff all five hard gates pass
and the average of the five rubric scores is at least `eval_threshold`;
`"needs_work"` iff the gates pass but the average is below the threshold;
and `"failed"` iff some gate fails. -/
theorem c4_overall_status (g : EvalGates) (r : Rubric) (θ : ℚ) :
    ((evaluate_final g r θ).overall_status = "good" ↔
      allGates g = true ∧ rubricSum r / 5 ≥ θ) ∧
    ((evaluate_final g r θ).overall_status = "needs_work" ↔
      allGates g = true ∧ rubricSum r / 5 < θ) ∧
    ((evaluate_final g r θ).overall_status = "failed" ↔ allGates g = false) := by
  have h5 : (max 1 5 : ℚ) = 5 := by norm_num
  unfold evaluate_final
  rw [h5]
  by_cases hg : allGates g = true
  · by_cases hge : rubricSum r / 5 ≥ θ
    · simp [hg, hge]
    · simp [hg, hge, not_le.mp hge]
  · have hg' : allGates g = false := Bool.eq_false_iff.mpr hg
    simp [hg']

/-! ## C5 — intent parser clarification -/

/-- C5.  After heuristic fill and overrides, the intent parser's final
block sets `needs_user_input = true`, `termination_reason = "asked_user"`
and a non-empty list of at most four clarifying questions exactly when one
of destination, start date, end date or origin is missing (Python-falsy);
otherwise it sets `needs_user_input = false` and no questions. -/
theorem c5_clarification (c : TripConstraints) (s : IState) :
    (((intent_parse_finalize c s).needs_user_input = true ∧
      (intent_parse_finalize c s).termination_reason = some "asked_user" ∧
      (intent_parse_finalize c s).clarifying_questions ≠ [] ∧
      (intent_parse_finalize c s).clarifying_questions.length ≤ 4) ↔
      (c.destinations = [] ∨ truthyStrOpt c.start_date = false ∨
       truthyStrOpt c.end_date = false ∨ truthyStrOpt c.origin = false)) ∧
    (((intent_parse_finalize c s).needs_user_input = false ∧
      (intent_parse_finalize c s).clarifying_questions = []) ↔
      ¬(c.destinations = [] ∨ truthyStrOpt c.start_date = false ∨
        truthyStrOpt c.end_date = false ∨ truthyStrOpt c.origin = false)) := by
  unfold intent_parse_finalize clarifying_questions
  cases hd : c.destinations.isEmpty <;>
    cases h1 : truthyStrOpt c.start_date <;>
    cases h2 : truthyStrOpt c.end_date <;>
    cases h3 : truthyStrOpt c.origin <;>
      simp_all

/-! ## C6 — disclaimer uniqueness -/

/-- C6.  On `c6State` the responder's output contains zero occurrences of
the disclaimer line, not one: the enforced disclaimer lands inside the
draft's trailing `Flights` block, and the Flights rewrite deletes it. -/
theorem c6_disclaimer_deleted :
    countS disclaimerS (responder c6State).final_answer = 0 := by
  rw [c6Answer]
  decide

/-! ## C8 — responder idempotence -/

/-- C8 (counterexample).  Running the responder on its own output is not a
no-op: the second pass removes the disclaimer from where the first pass
left it (inside the `Summary` block) and re-appends it at the very end, so
`final_answer` changes. -/
theorem c8_counterexample :
    (responder (responder c8State)).final_answer ≠ (responder c8State).final_answer := by
  rw [c8SecondAnswer, c8FirstRun]
  have hne : eqS (lit "# Trip plan\n\n## Summary\nPlanning trip to your destination.\n\n## Assumptions\n- start date: not provided\n- end date: not provided\n- origin: not provided\n- budget: not provided\n- travelers: not provided\n\n## Flights\n- Provide `origin` and `start_date` to generate flight search links.\n## Lodging\n- Provide `start_date` and `end_date` to generate lodging search links.\n## Day-by-day\n- Day 1: Arrival + neighborhood walk + street food in your destination.\n- Day 2: Top sights + museum/garden + evening market.\n- Day 3: Day trip or nature walk + local cuisine.\n- Day 4: Cultural highlights + shopping + relax.\n- Day 5: Flexible day + departure.\n## Transit\n- Use Google Maps for live routing.\n- Prefer public transit/walking in city centers; rideshare/taxi late night.\n- Build buffer time for traffic and station navigation.\n## Weather\n- [Weather search](https://www.google.com/search?q=your+destination+weather)\n## Calendar\n- Provide `start_date` and `end_date` to export an `.ics` calendar.\n## Things to do\n- [Google Maps (things to do)](https://www.google.com/maps/search/?api=1&query=Things+to+do+in+your+destination)\n\n## Budget\n- Heuristic split: flights 35–55%, lodging 25–40%, food+activities 15–30%, local transit 5–10%.\n- If you share a budget, I can tailor the itinerary and tradeoffs.\n\nNote: Visa/health requirements vary; verify with official sources (this is not legal advice).\n") c8bState.final_answer = false := by decide
  intro h
  rw [h, eqS_refl] at hne
  simp at hne

/-- C8 (amended).  A second responder pass preserves the `##`-heading
sequence and keeps exactly one disclaimer occurrence, but relocates the
disclaimer line to the end of the answer, so `final_answer` is not
unchanged. -/
theorem c8_amended :
    headingLines (responder (responder c8State)).final_answer =
      headingLines (responder c8State).final_answer ∧
    countS disclaimerS (responder (responder c8State)).final_answer = 1 ∧
    countS disclaimerS (responder c8State).final_answer = 1 := by
  rw [c8SecondAnswer, c8FirstRun]
  refine ⟨?_, ?_, ?_⟩ <;> decide


/-! ## Telemetry lemma suite (for C9 and C10) -/

/-! ## C9 lemma suite -/

mutual

theorem redOK_san : ∀ v : JVal, redactedOK (sanitize v) = true
  | .str _ => rfl
  | .num _ => rfl
  | .boolean _ => rfl
  | .null => rfl
  | .arr xs => redOKArr_san xs
  | .obj kvs => redOKObj_san kvs

theorem redOKArr_san : ∀ xs : List JVal, redactedOKArr (sanitizeArr xs) = true
  | [] => rfl
  | v :: vs => by
    rw [sanitizeArr, redactedOKArr, redOK_san v, redOKArr_san vs]
    rfl

theorem redOKObj_san : ∀ kvs : List (String × JVal), redactedOKObj (sanitizeObj kvs) = true
  | [] => rfl
  | (k, v) :: kvs => by
    rw [sanitizeObj, redactedOKObj]
    by_cases hk : sensitiveKey k = true
    · rw [if_pos hk, if_pos hk, redOKObj_san kvs]
      simp [BEq.beq, jvalBEq]
    · rw [if_neg hk, if_neg hk, redOK_san v, redOKObj_san kvs]
      rfl

end

mutual

theorem redOK_trunc (mc : Int) (hmc : mc ≤ 0 ∨ 10 ≤ mc) :
    ∀ v : JVal, redactedOK v = true → redactedOK (truncatePy mc v) = true
  | .str s => fun _ => by
    rw [truncatePy]
    split
    · rfl
    · split <;> rfl
  | .num _ => fun _ => rfl
  | .boolean _ => fun _ => rfl
  | .null => fun _ => rfl
  | .arr xs => fun h => by
    rw [truncatePy]
    split
    · exact h
    · rw [redactedOK] at h ⊢
      exact redOKArr_trunc mc hmc xs h
  | .obj kvs => fun h => by
    rw [truncatePy]
    split
    · exact h
    · rw [redactedOK] at h ⊢
      exact redOKObj_trunc mc hmc kvs h

theorem redOKArr_trunc (mc : Int) (hmc : mc ≤ 0 ∨ 10 ≤ mc) :
    ∀ xs : List JVal, redactedOKArr xs = true → redactedOKArr (truncateArr mc xs) = true
  | [] => fun _ => rfl
  | v :: vs => fun h => by
    rw [redactedOKArr, Bool.and_eq_true] at h
    rw [truncateArr, redactedOKArr, redOK_trunc mc hmc v h.1, redOKArr_trunc mc hmc vs h.2]
    rfl

theorem redOKObj_trunc (mc : Int) (hmc : mc ≤ 0 ∨ 10 ≤ mc) :
    ∀ kvs : List (String × JVal), redactedOKObj kvs = true →
      redactedOKObj (truncateObj mc kvs) = true
  | [] => fun _ => rfl
  | (k, v) :: kvs => fun h => by
    rw [redactedOKObj, Bool.and_eq_true] at h
    rw [truncateObj, redactedOKObj, redOKObj_trunc mc hmc kvs h.2]
    by_cases hk : sensitiveKey k = true
    · rw [if_pos hk]
      have h1 := h.1
      rw [if_pos hk] at h1
      have hv : v = JVal.str "[REDACTED]" := by
        cases v with
        | str a =>
          have ha : a = "[REDACTED]" := by
            simp only [BEq.beq, jvalBEq] at h1
            exact eq_of_beq h1
          rw [ha]
        | num n => simp [BEq.beq, jvalBEq] at h1
        | boolean b => simp [BEq.beq, jvalBEq] at h1
        | null => simp [BEq.beq, jvalBEq] at h1
        | arr xs => simp [BEq.beq, jvalBEq] at h1
        | obj kvs2 => simp [BEq.beq, jvalBEq] at h1
      subst hv
      have ht : truncatePy mc (JVal.str "[REDACTED]") = JVal.str "[REDACTED]" := by
        rw [truncatePy]
        rcases hmc with hmc | hmc
        · rw [if_pos hmc]
        · rw [if_neg (by omega)]
          have e10 : (("[REDACTED]".length : Nat) : Int) = 10 := rfl
          have hlen : (("[REDACTED]".length : Nat) : Int) ≤ mc := by
            rw [e10]
            exact hmc
          rw [if_pos hlen]
      rw [ht]
      simp [BEq.beq, jvalBEq]
    · rw [if_neg hk]
      have h1 := h.1
      rw [if_neg hk] at h1
      rw [redOK_trunc mc hmc v h1]
      rfl

end

lemma payload_data_redOK (mc : Int) (hmc : mc ≤ 0 ∨ 10 ≤ mc) (d : Option JVal) (x : JVal)
    (hx : d.map (fun v => truncatePy mc (sanitize v)) = some x) : redactedOK x = true := by
  cases d with
  | none => cases hx
  | some v =>
    simp only [Option.map_some'] at hx
    injection hx with hx
    rw [← hx]
    exact redOK_trunc mc hmc _ (redOK_san v)

lemma lastSlice_subset (size : Nat) (l : List Payload) : ∀ p ∈ lastSlice size l, p ∈ l := by
  intro p hp
  rw [lastSlice] at hp
  split at hp
  · exact hp
  · exact List.drop_subset _ _ hp

lemma tcRun_written_redOK : ∀ (ops : List TCOp) (t : TC),
    (t.maxChars ≤ 0 ∨ 10 ≤ t.maxChars) →
    (∀ p ∈ t.buffer, ∀ x, p.data = some x → redactedOK x = true) →
    (∀ p ∈ t.written, ∀ x, p.data = some x → redactedOK x = true) →
    ∀ p ∈ (tcRun t ops).written, ∀ x, p.data = some x → redactedOK x = true := by
  intro ops
  induction ops with
  | nil => intro t _ _ hw; exact hw
  | cons op ops ih =>
    intro t hmc hb hw
    rw [tcRun]
    cases op with
    | escalateOp sig =>
      refine ih _ ?_ ?_ ?_
      · simp only [tcStep, maybeEscalate]
        split_ifs <;> exact hmc
      · simp only [tcStep, maybeEscalate]
        split_ifs
        · exact hb
        · intro p hp
          cases hp
        · exact hb
      · simp only [tcStep, maybeEscalate]
        split_ifs
        · exact hw
        · intro p hp x hx
          rcases List.mem_append.mp hp with h | h
          · exact hw p h x hx
          · exact hb p h x hx
        · exact hw
    | traceOp e dd =>
      refine ih _ ?_ ?_ ?_
      · simp only [tcStep, trace]
        split_ifs <;> exact hmc
      · simp only [tcStep, trace]
        split_ifs <;>
          first
            | exact hb
            | (intro p hp x hx
               rcases List.mem_append.mp (lastSlice_subset _ _ p hp) with h | h
               · exact hb p h x hx
               · rw [List.mem_singleton] at h
                 subst h
                 exact payload_data_redOK t.maxChars hmc dd x hx)
            | (intro p hp x hx
               rcases List.mem_append.mp hp with h | h
               · exact hb p h x hx
               · rw [List.mem_singleton] at h
                 subst h
                 exact payload_data_redOK t.maxChars hmc dd x hx)
      · simp only [tcStep, trace]
        split_ifs <;>
          first
            | exact hw
            | (intro p hp x hx
               rcases List.mem_append.mp hp with h | h
               · exact hw p h x hx
               · rw [List.mem_singleton] at h
                 subst h
                 exact payload_data_redOK t.maxChars hmc dd x hx)

/-! ## C10 lemma suite -/

lemma c10_step (N : Nat) (hN : 0 < N) (t : TC) (h : C10Inv N t) (op : TCOp) :
    C10Inv N (tcStep t op) := by
  obtain ⟨hm, hbs, hlen, hbt, hwt, hdt, hpw, hbw, hdw, hdb⟩ := h
  cases op with
  | escalateOp sig =>
    simp only [tcStep, maybeEscalate]
    split_ifs with h1 h2
    · exact ⟨hm, hbs, hlen, hbt, hwt, hdt, hpw, hbw, hdw, hdb⟩
    · refine ⟨hm, hbs, by simp, ?_, ?_, hdt, List.Pairwise.nil, ?_, ?_, ?_⟩
      · intro p hp
        cases hp
      · intro p hp
        rcases List.mem_append.mp hp with hq | hq
        · exact hwt p hq
        · exact hbt p hq
      · intro p hp q hq
        cases hp
      · intro p hp q hq
        rcases List.mem_append.mp hq with hq | hq
        · exact hdw p hp q hq
        · exact hdb p hp q hq
      · intro p hp q hq
        cases hq
    · exact ⟨hm, hbs, hlen, hbt, hwt, hdt, hpw, hbw, hdw, hdb⟩
  | traceOp e dd =>
    simp only [tcStep, trace, hm]
    rw [if_neg (show ¬(("selective" : String) = "minimal") from by decide)]
    simp only [show (decide (("selective" : String) = "detailed")) = false from by decide,
      Bool.false_or]
    generalize (if containsS (lit "error") e.data then "ERROR" else "INFO") = lev
    split_ifs with h2 h3
    · exact c10_branch_esc N t _ rfl hbs hlen hbt hwt hdt hpw hbw hdw hdb
    · exact c10_branch_push_over N hN t _ rfl h3 hbs hlen hbt hwt hdt hpw hbw hdw hdb
    · exact c10_branch_push_ok N t _ rfl h3 hbs hlen hbt hwt hdt hpw hbw hdw hdb

lemma c10_init (mc : Int) (N : Nat) : C10Inv N (tcInit "selective" mc N) := by
  refine ⟨rfl, rfl, by simp [tcInit], ?_, ?_, ?_, List.Pairwise.nil, ?_, ?_, ?_⟩ <;>
    intro p hp <;> cases hp

lemma c10_run (N : Nat) (hN : 0 < N) (ops : List TCOp) :
    ∀ t : TC, C10Inv N t → C10Inv N (tcRun t ops) := by
  induction ops with
  | nil => intro t h; exact h
  | cons op ops ih =>
    intro t h
    rw [tcRun]
    exact ih _ (c10_step N hN t h op)

lemma drop_append_le' {α : Type} : ∀ (l₁ : List α) (n : Nat), n ≤ l₁.length →
    ∀ l₂ : List α, (l₁ ++ l₂).drop n = l₁.drop n ++ l₂ := by
  intro l₁
  induction l₁ with
  | nil =>
    intro n hn l₂
    have : n = 0 := Nat.le_zero.mp hn
    subst this
    rfl
  | cons a l ih =>
    intro n hn l₂
    cases n with
    | zero => rfl
    | succ m =>
      rw [List.cons_append, List.drop_succ_cons, List.drop_succ_cons]
      exact ih m (by simpa using hn) l₂

lemma take_append_le' {α : Type} : ∀ (l₁ : List α) (n : Nat), n ≤ l₁.length →
    ∀ l₂ : List α, (l₁ ++ l₂).take n = l₁.take n := by
  intro l₁
  induction l₁ with
  | nil =>
    intro n hn l₂
    have : n = 0 := Nat.le_zero.mp hn
    subst this
    rfl
  | cons a l ih =>
    intro n hn l₂
    cases n with
    | zero => rfl
    | succ m =>
      rw [List.cons_append, List.take_succ_cons, List.take_succ_cons]
      rw [ih m (by simpa using hn) l₂]

lemma trace_overflow (e : String) (dd : Option JVal) (t : TC)
    (hm : t.mode = "selective") (he : t.escalated = false)
    (hfull : t.buffer.length = t.bufferSize) (hN : 0 < t.bufferSize) :
    (trace e dd t).buffer =
      t.buffer.tail ++ [⟨t.nextTag,
        (if containsS (lit "error") e.data then "ERROR" else "INFO"), e,
        dd.map (fun d => truncatePy t.maxChars (sanitize d))⟩] ∧
    (trace e dd t).discarded = t.discarded ++ t.buffer.take 1 := by
  have h1 : ∀ P : Payload, (t.buffer ++ [P]).length - t.bufferSize = 1 := by
    intro P
    simp only [List.length_append, List.length_singleton]
    omega
  simp only [trace, hm, he]
  rw [if_neg (show ¬(("selective" : String) = "minimal") from by decide)]
  rw [if_neg (show ¬((decide (("selective" : String) = "detailed") || false) = true) from
    by decide)]
  rw [if_pos trivial]
  split_ifs with hLev hOver hOver'
  · refine ⟨?_, ?_⟩
    · dsimp only
      rw [lastSlice, if_neg (by omega), h1, drop_append_le' t.buffer 1 (by omega) _,
        List.drop_one]
    · dsimp only
      rw [h1, take_append_le' t.buffer 1 (by omega) _]
  · exact absurd (by simp only [List.length_append, List.length_singleton]; omega) hOver
  · refine ⟨?_, ?_⟩
    · dsimp only
      rw [lastSlice, if_neg (by omega), h1, drop_append_le' t.buffer 1 (by omega) _,
        List.drop_one]
    · dsimp only
      rw [h1, take_append_le' t.buffer 1 (by omega) _]
  · exact absurd (by simp only [List.length_append, List.length_singleton]; omega) hOver'

/-! ## C7 — currency and collocation stripping -/

/-- C7 (counterexample).  The responder does not remove collocations: on
`c7State` the draft's `fare: 12` (matching `(price|cost|fare).{0,25}\d`)
survives into the final answer, while only the `$5` token is replaced. -/
theorem c7_counterexample :
    specColloc (responder c7State).final_answer = true := by
  rw [c7Answer]
  decide

/-- C7 (amended).  For every input state the responder's final answer
contains no currency-like token: no position matches
`\$\s?\d+|USD\s?\d+|\d+\s?USD` (case-insensitive).  Collocations of
`price`/`cost`/`fare` with a nearby digit are not stripped — that pattern
is only checked by `evaluate_final`, not rewritten by the responder. -/
theorem c7_amended (s : RState) : hasCurrency (responder s).final_answer = false :=
  hasCurrency_rFinal _


/-! ## C9 — telemetry redaction -/

/-- C9 (counterexample).  The specification pattern
`(api[_-]?key|authorization|token|secret|password)` accepts the
hyphenated key `api-key`, but `_sanitize`'s token list
(`api_key`, `apikey`, `authorization`, `token`, `secret`, `password`)
does not: a minimal-mode `tool_result` trace writes the `api-key`
value unredacted. -/
theorem c9_counterexample :
    specSensitiveKey "api-key" = true ∧
    (tcRun (tcInit "minimal" 2000 50)
        [TCOp.traceOp "tool_result" (some (JVal.obj [("api-key", JVal.str "k")]))]).written =
      [⟨0, "INFO", "tool_result", some (JVal.obj [("api-key", JVal.str "k")])⟩] :=
  ⟨by decide, rfl⟩

/-- C9 (amended).  For the token list of `_sanitize` itself: every
payload the controller writes, in any mode and over any run, has every
sensitive key's value — at any nesting depth — equal to `[REDACTED]`,
provided `max_chars` is non-positive (truncation disabled) or at least
`10` (so truncation cannot corrupt the redaction marker; the default is
`2000`). -/
theorem c9_amended (mode : String) (mc : Int) (bs : Nat) (ops : List TCOp)
    (hmc : mc ≤ 0 ∨ 10 ≤ mc) :
    ∀ p ∈ (tcRun (tcInit mode mc bs) ops).written, ∀ x, p.data = some x →
      redactedOK x = true := by
  refine tcRun_written_redOK ops (tcInit mode mc bs) hmc ?_ ?_
  · intro p hp
    cases hp
  · intro p hp
    cases hp

/-- C9 witness: the amended theorem applied to a detailed-mode run with
a `token` key and default-sized truncation. -/
theorem c9_amended_witness :
    ((2000 : Int) ≤ 0 ∨ (10 : Int) ≤ 2000) ∧
    (∀ p ∈ (tcRun (tcInit "detailed" 2000 50)
        [TCOp.traceOp "tool_result" (some (JVal.obj [("token", JVal.str "x")]))]).written,
      ∀ x, p.data = some x → redactedOK x = true) :=
  ⟨Or.inr (by decide),
   c9_amended "detailed" 2000 50 _ (Or.inr (by decide))⟩

/-! ## C10 — selective-mode buffering -/

/-- C10.  In selective mode the buffer never exceeds `buffer_size` (whose
dataclass default is 50); a discarded payload is never written to the
trace file nor still buffered, in any continuation of the run, including
runs that escalate; and on overflow the oldest buffered payload is
discarded while the new payload is kept (the buffer keeps the most
recent `buffer_size` entries). -/
theorem c10_selective_buffer (mc : Int) (N : Nat) (hN : 0 < N) (ops : List TCOp) :
    ((tcRun (tcInit "selective" mc N) ops).buffer.length ≤ N ∧
     ∀ p ∈ (tcRun (tcInit "selective" mc N) ops).discarded,
       ∀ q, (q ∈ (tcRun (tcInit "selective" mc N) ops).written ∨
             q ∈ (tcRun (tcInit "selective" mc N) ops).buffer) → p.tag ≠ q.tag) ∧
    defaultBufferSize = 50 ∧
    (∀ (e : String) (dd : Option JVal) (t : TC), t.mode = "selective" →
      t.escalated = false → t.buffer.length = t.bufferSize → 0 < t.bufferSize →
      (trace e dd t).buffer =
        t.buffer.tail ++ [⟨t.nextTag,
          (if containsS (lit "error") e.data then "ERROR" else "INFO"), e,
          dd.map (fun d => truncatePy t.maxChars (sanitize d))⟩] ∧
      (trace e dd t).discarded = t.discarded ++ t.buffer.take 1) := by
  obtain ⟨h1, h2, h3, h4, h5, h6, h7, h8, h9, h10⟩ :=
    c10_run N hN ops (tcInit "selective" mc N) (c10_init mc N)
  refine ⟨⟨h3, ?_⟩, rfl, ?_⟩
  · intro p hp q hq
    rcases hq with hq | hq
    · exact h9 p hp q hq
    · exact h10 p hp q hq
  · intro e dd t hm he hfull hbsz
    exact trace_overflow e dd t hm he hfull hbsz

/-- C10 witness: a two-trace overflow run with `buffer_size = 1`
followed by an escalation. -/
theorem c10_selective_buffer_witness :
    0 < 1 ∧
    (((tcRun (tcInit "selective" 0 1)
        [TCOp.traceOp "a" none, TCOp.traceOp "b" none,
         TCOp.escalateOp true]).buffer.length ≤ 1 ∧
      ∀ p ∈ (tcRun (tcInit "selective" 0 1)
        [TCOp.traceOp "a" none, TCOp.traceOp "b" none,
         TCOp.escalateOp true]).discarded,
        ∀ q, (q ∈ (tcRun (tcInit "selective" 0 1)
            [TCOp.traceOp "a" none, TCOp.traceOp "b" none,
             TCOp.escalateOp true]).written ∨
              q ∈ (tcRun (tcInit "selective" 0 1)
            [TCOp.traceOp "a" none, TCOp.traceOp "b" none,
             TCOp.escalateOp true]).buffer) → p.tag ≠ q.tag) ∧
     defaultBufferSize = 50 ∧
     (∀ (e : String) (dd : Option JVal) (t : TC), t.mode = "selective" →
       t.escalated = false → t.buffer.length = t.bufferSize → 0 < t.bufferSize →
       (trace e dd t).buffer =
         t.buffer.tail ++ [⟨t.nextTag,
           (if containsS (lit "error") e.data then "ERROR" else "INFO"), e,
           dd.map (fun d => truncatePy t.maxChars (sanitize d))⟩] ∧
       (trace e dd t).discarded = t.discarded ++ t.buffer.take 1)) :=
  ⟨by decide,
   c10_selective_buffer 0 1 (by decide)
     [TCOp.traceOp "a" none, TCOp.traceOp "b" none, TCOp.escalateOp true]⟩

end ATA
